import Mathlib

/-!
Verification of the oarkflow/sqlparser SQL front-end (lexer, arena allocator,
parser, dialect renderer) against its natural-language specification.

Shallow embedding conventions:
  * Go byte slices are `List Nat` (each element a byte value 0..255); Go strings
    that hold source bytes are byte lists as well.  ASCII string literals are
    turned into byte lists with `strBytes`.
  * Go `int32`/`uint32` position counters are `Nat` (the lexer only ever
    increments them; no claim depends on 32-bit wrap-around).
  * Pointers to AST nodes become plain values; `nil`-checked pointer fields
    become `Option`, fields that the code dereferences unconditionally are
    non-optional.  The arena allocator backing node memory is modelled
    separately (its observable state is the slab list); nodes themselves are
    pure values.
  * Fallible Go functions returning `(T, error)` become `Except`-valued
    functions; the renderer additionally threads the mutable `paramIndex`
    receiver field explicitly.
  * The parser's unbounded recursion is bounded by an explicit `fuel`
    parameter; every recursive call passes the decremented fuel.  Running out
    of fuel yields a distinguished parse error that Go cannot produce; all
    top-level entry points supply fuel that is large enough for the inputs in
    the theorems below (concrete evaluations make the adequacy visible).
-/

set_option maxHeartbeats 1000000

namespace SqlVerify

/-- ASCII string literal to byte list (all literals used are pure ASCII). -/
def strBytes (s : String) : List Nat := s.data.map Char.toNat

/-- Token classification, mirroring `lexer.TokenType` (`type TokenType uint16`,
`const ( ILLEGAL TokenType = iota; ... )`).  Each Go constant is a named value
wrapping its `iota` index, declared below in exactly the Go order. -/
structure TokenType where
  idx : Nat
  deriving DecidableEq

/-- Go token constant `ILLEGAL` (= 0). -/
def TokenType.ILLEGAL : TokenType := ⟨0⟩

/-- Go token constant `EOF` (= 1). -/
def TokenType.EOF : TokenType := ⟨1⟩

/-- Go token constant `COMMENT` (= 2). -/
def TokenType.COMMENT : TokenType := ⟨2⟩

/-- Go token constant `WHITESPACE` (= 3). -/
def TokenType.WHITESPACE : TokenType := ⟨3⟩

/-- Go token constant `IDENT` (= 4). -/
def TokenType.IDENT : TokenType := ⟨4⟩

/-- Go token constant `INT` (= 5). -/
def TokenType.INT : TokenType := ⟨5⟩

/-- Go token constant `FLOAT` (= 6). -/
def TokenType.FLOAT : TokenType := ⟨6⟩

/-- Go token constant `STRING` (= 7). -/
def TokenType.STRING : TokenType := ⟨7⟩

/-- Go token constant `BACKTICK` (= 8). -/
def TokenType.BACKTICK : TokenType := ⟨8⟩

/-- Go token constant `DQUOTE` (= 9). -/
def TokenType.DQUOTE : TokenType := ⟨9⟩

/-- Go token constant `HEXLIT` (= 10). -/
def TokenType.HEXLIT : TokenType := ⟨10⟩

/-- Go token constant `BITLIT` (= 11). -/
def TokenType.BITLIT : TokenType := ⟨11⟩

/-- Go token constant `NAMEDPARAM` (= 12). -/
def TokenType.NAMEDPARAM : TokenType := ⟨12⟩

/-- Go token constant `LPAREN` (= 13). -/
def TokenType.LPAREN : TokenType := ⟨13⟩

/-- Go token constant `RPAREN` (= 14). -/
def TokenType.RPAREN : TokenType := ⟨14⟩

/-- Go token constant `LBRACE` (= 15). -/
def TokenType.LBRACE : TokenType := ⟨15⟩

/-- Go token constant `RBRACE` (= 16). -/
def TokenType.RBRACE : TokenType := ⟨16⟩

/-- Go token constant `LBRACKET` (= 17). -/
def TokenType.LBRACKET : TokenType := ⟨17⟩

/-- Go token constant `RBRACKET` (= 18). -/
def TokenType.RBRACKET : TokenType := ⟨18⟩

/-- Go token constant `COMMA` (= 19). -/
def TokenType.COMMA : TokenType := ⟨19⟩

/-- Go token constant `SEMICOLON` (= 20). -/
def TokenType.SEMICOLON : TokenType := ⟨20⟩

/-- Go token constant `COLON` (= 21). -/
def TokenType.COLON : TokenType := ⟨21⟩

/-- Go token constant `DOT` (= 22). -/
def TokenType.DOT : TokenType := ⟨22⟩

/-- Go token constant `DOTDOT` (= 23). -/
def TokenType.DOTDOT : TokenType := ⟨23⟩

/-- Go token constant `STAR` (= 24). -/
def TokenType.STAR : TokenType := ⟨24⟩

/-- Go token constant `PLUS` (= 25). -/
def TokenType.PLUS : TokenType := ⟨25⟩

/-- Go token constant `MINUS` (= 26). -/
def TokenType.MINUS : TokenType := ⟨26⟩

/-- Go token constant `SLASH` (= 27). -/
def TokenType.SLASH : TokenType := ⟨27⟩

/-- Go token constant `PERCENT` (= 28). -/
def TokenType.PERCENT : TokenType := ⟨28⟩

/-- Go token constant `AMPERSAND` (= 29). -/
def TokenType.AMPERSAND : TokenType := ⟨29⟩

/-- Go token constant `PIPE` (= 30). -/
def TokenType.PIPE : TokenType := ⟨30⟩

/-- Go token constant `CARET` (= 31). -/
def TokenType.CARET : TokenType := ⟨31⟩

/-- Go token constant `TILDE` (= 32). -/
def TokenType.TILDE : TokenType := ⟨32⟩

/-- Go token constant `BANG` (= 33). -/
def TokenType.BANG : TokenType := ⟨33⟩

/-- Go token constant `QUESTION` (= 34). -/
def TokenType.QUESTION : TokenType := ⟨34⟩

/-- Go token constant `AT` (= 35). -/
def TokenType.AT : TokenType := ⟨35⟩

/-- Go token constant `HASH` (= 36). -/
def TokenType.HASH : TokenType := ⟨36⟩

/-- Go token constant `DOLLAR` (= 37). -/
def TokenType.DOLLAR : TokenType := ⟨37⟩

/-- Go token constant `EQ` (= 38). -/
def TokenType.EQ : TokenType := ⟨38⟩

/-- Go token constant `NEQ` (= 39). -/
def TokenType.NEQ : TokenType := ⟨39⟩

/-- Go token constant `LT` (= 40). -/
def TokenType.LT : TokenType := ⟨40⟩

/-- Go token constant `GT` (= 41). -/
def TokenType.GT : TokenType := ⟨41⟩

/-- Go token constant `LTE` (= 42). -/
def TokenType.LTE : TokenType := ⟨42⟩

/-- Go token constant `GTE` (= 43). -/
def TokenType.GTE : TokenType := ⟨43⟩

/-- Go token constant `LSHIFT` (= 44). -/
def TokenType.LSHIFT : TokenType := ⟨44⟩

/-- Go token constant `RSHIFT` (= 45). -/
def TokenType.RSHIFT : TokenType := ⟨45⟩

/-- Go token constant `DBAR` (= 46). -/
def TokenType.DBAR : TokenType := ⟨46⟩

/-- Go token constant `DAMP` (= 47). -/
def TokenType.DAMP : TokenType := ⟨47⟩

/-- Go token constant `DARROW` (= 48). -/
def TokenType.DARROW : TokenType := ⟨48⟩

/-- Go token constant `ARROW` (= 49). -/
def TokenType.ARROW : TokenType := ⟨49⟩

/-- Go token constant `DARROW2` (= 50). -/
def TokenType.DARROW2 : TokenType := ⟨50⟩

/-- Go token constant `HASHARROW` (= 51). -/
def TokenType.HASHARROW : TokenType := ⟨51⟩

/-- Go token constant `HASHDARROW` (= 52). -/
def TokenType.HASHDARROW : TokenType := ⟨52⟩

/-- Go token constant `ATGT` (= 53). -/
def TokenType.ATGT : TokenType := ⟨53⟩

/-- Go token constant `LTAT` (= 54). -/
def TokenType.LTAT : TokenType := ⟨54⟩

/-- Go token constant `QMARKPIPE` (= 55). -/
def TokenType.QMARKPIPE : TokenType := ⟨55⟩

/-- Go token constant `QMARKAMP` (= 56). -/
def TokenType.QMARKAMP : TokenType := ⟨56⟩

/-- Go token constant `kwSTART` (= 57). -/
def TokenType.kwSTART : TokenType := ⟨57⟩

/-- Go token constant `ADD` (= 58). -/
def TokenType.ADD : TokenType := ⟨58⟩

/-- Go token constant `AFTER` (= 59). -/
def TokenType.AFTER : TokenType := ⟨59⟩

/-- Go token constant `ALL` (= 60). -/
def TokenType.ALL : TokenType := ⟨60⟩

/-- Go token constant `ALTER` (= 61). -/
def TokenType.ALTER : TokenType := ⟨61⟩

/-- Go token constant `ANALYZE` (= 62). -/
def TokenType.ANALYZE : TokenType := ⟨62⟩

/-- Go token constant `AND` (= 63). -/
def TokenType.AND : TokenType := ⟨63⟩

/-- Go token constant `AS` (= 64). -/
def TokenType.AS : TokenType := ⟨64⟩

/-- Go token constant `ASC` (= 65). -/
def TokenType.ASC : TokenType := ⟨65⟩

/-- Go token constant `AUTO_INCREMENT` (= 66). -/
def TokenType.AUTO_INCREMENT : TokenType := ⟨66⟩

/-- Go token constant `BETWEEN` (= 67). -/
def TokenType.BETWEEN : TokenType := ⟨67⟩

/-- Go token constant `BY` (= 68). -/
def TokenType.BY : TokenType := ⟨68⟩

/-- Go token constant `CASCADE` (= 69). -/
def TokenType.CASCADE : TokenType := ⟨69⟩

/-- Go token constant `CASE` (= 70). -/
def TokenType.CASE : TokenType := ⟨70⟩

/-- Go token constant `CAST` (= 71). -/
def TokenType.CAST : TokenType := ⟨71⟩

/-- Go token constant `CHANGE` (= 72). -/
def TokenType.CHANGE : TokenType := ⟨72⟩

/-- Go token constant `CHARACTER` (= 73). -/
def TokenType.CHARACTER : TokenType := ⟨73⟩

/-- Go token constant `CHECK` (= 74). -/
def TokenType.CHECK : TokenType := ⟨74⟩

/-- Go token constant `COLLATE` (= 75). -/
def TokenType.COLLATE : TokenType := ⟨75⟩

/-- Go token constant `COLUMN` (= 76). -/
def TokenType.COLUMN : TokenType := ⟨76⟩

/-- Go token constant `COMMENT_KW` (= 77). -/
def TokenType.COMMENT_KW : TokenType := ⟨77⟩

/-- Go token constant `CONSTRAINT` (= 78). -/
def TokenType.CONSTRAINT : TokenType := ⟨78⟩

/-- Go token constant `CREATE` (= 79). -/
def TokenType.CREATE : TokenType := ⟨79⟩

/-- Go token constant `CROSS` (= 80). -/
def TokenType.CROSS : TokenType := ⟨80⟩

/-- Go token constant `DATABASE` (= 81). -/
def TokenType.DATABASE : TokenType := ⟨81⟩

/-- Go token constant `DEFAULT` (= 82). -/
def TokenType.DEFAULT : TokenType := ⟨82⟩

/-- Go token constant `DEFERRABLE` (= 83). -/
def TokenType.DEFERRABLE : TokenType := ⟨83⟩

/-- Go token constant `DEFERRED` (= 84). -/
def TokenType.DEFERRED : TokenType := ⟨84⟩

/-- Go token constant `DELETE` (= 85). -/
def TokenType.DELETE : TokenType := ⟨85⟩

/-- Go token constant `DESC` (= 86). -/
def TokenType.DESC : TokenType := ⟨86⟩

/-- Go token constant `DISTINCT` (= 87). -/
def TokenType.DISTINCT : TokenType := ⟨87⟩

/-- Go token constant `DROP` (= 88). -/
def TokenType.DROP : TokenType := ⟨88⟩

/-- Go token constant `ELSE` (= 89). -/
def TokenType.ELSE : TokenType := ⟨89⟩

/-- Go token constant `END` (= 90). -/
def TokenType.END : TokenType := ⟨90⟩

/-- Go token constant `ENGINE` (= 91). -/
def TokenType.ENGINE : TokenType := ⟨91⟩

/-- Go token constant `ESCAPE` (= 92). -/
def TokenType.ESCAPE : TokenType := ⟨92⟩

/-- Go token constant `EXCEPT` (= 93). -/
def TokenType.EXCEPT : TokenType := ⟨93⟩

/-- Go token constant `EXISTS` (= 94). -/
def TokenType.EXISTS : TokenType := ⟨94⟩

/-- Go token constant `EXPLAIN` (= 95). -/
def TokenType.EXPLAIN : TokenType := ⟨95⟩

/-- Go token constant `FALSE_KW` (= 96). -/
def TokenType.FALSE_KW : TokenType := ⟨96⟩

/-- Go token constant `FIRST` (= 97). -/
def TokenType.FIRST : TokenType := ⟨97⟩

/-- Go token constant `FOR` (= 98). -/
def TokenType.FOR : TokenType := ⟨98⟩

/-- Go token constant `FOREIGN` (= 99). -/
def TokenType.FOREIGN : TokenType := ⟨99⟩

/-- Go token constant `FROM` (= 100). -/
def TokenType.FROM : TokenType := ⟨100⟩

/-- Go token constant `FULL` (= 101). -/
def TokenType.FULL : TokenType := ⟨101⟩

/-- Go token constant `FUNCTION` (= 102). -/
def TokenType.FUNCTION : TokenType := ⟨102⟩

/-- Go token constant `GROUP` (= 103). -/
def TokenType.GROUP : TokenType := ⟨103⟩

/-- Go token constant `HAVING` (= 104). -/
def TokenType.HAVING : TokenType := ⟨104⟩

/-- Go token constant `IF` (= 105). -/
def TokenType.IF : TokenType := ⟨105⟩

/-- Go token constant `IGNORE` (= 106). -/
def TokenType.IGNORE : TokenType := ⟨106⟩

/-- Go token constant `IN` (= 107). -/
def TokenType.IN : TokenType := ⟨107⟩

/-- Go token constant `INDEX` (= 108). -/
def TokenType.INDEX : TokenType := ⟨108⟩

/-- Go token constant `INNER` (= 109). -/
def TokenType.INNER : TokenType := ⟨109⟩

/-- Go token constant `INSERT` (= 110). -/
def TokenType.INSERT : TokenType := ⟨110⟩

/-- Go token constant `INTERSECT` (= 111). -/
def TokenType.INTERSECT : TokenType := ⟨111⟩

/-- Go token constant `INTO` (= 112). -/
def TokenType.INTO : TokenType := ⟨112⟩

/-- Go token constant `IS` (= 113). -/
def TokenType.IS : TokenType := ⟨113⟩

/-- Go token constant `JOIN` (= 114). -/
def TokenType.JOIN : TokenType := ⟨114⟩

/-- Go token constant `KEY` (= 115). -/
def TokenType.KEY : TokenType := ⟨115⟩

/-- Go token constant `LAST` (= 116). -/
def TokenType.LAST : TokenType := ⟨116⟩

/-- Go token constant `LEFT` (= 117). -/
def TokenType.LEFT : TokenType := ⟨117⟩

/-- Go token constant `LIKE` (= 118). -/
def TokenType.LIKE : TokenType := ⟨118⟩

/-- Go token constant `LIMIT` (= 119). -/
def TokenType.LIMIT : TokenType := ⟨119⟩

/-- Go token constant `MATCH` (= 120). -/
def TokenType.MATCH : TokenType := ⟨120⟩

/-- Go token constant `NATURAL` (= 121). -/
def TokenType.NATURAL : TokenType := ⟨121⟩

/-- Go token constant `NO` (= 122). -/
def TokenType.NO : TokenType := ⟨122⟩

/-- Go token constant `NOT` (= 123). -/
def TokenType.NOT : TokenType := ⟨123⟩

/-- Go token constant `NULL_KW` (= 124). -/
def TokenType.NULL_KW : TokenType := ⟨124⟩

/-- Go token constant `OFFSET` (= 125). -/
def TokenType.OFFSET : TokenType := ⟨125⟩

/-- Go token constant `ON` (= 126). -/
def TokenType.ON : TokenType := ⟨126⟩

/-- Go token constant `OR` (= 127). -/
def TokenType.OR : TokenType := ⟨127⟩

/-- Go token constant `ORDER` (= 128). -/
def TokenType.ORDER : TokenType := ⟨128⟩

/-- Go token constant `OUTER` (= 129). -/
def TokenType.OUTER : TokenType := ⟨129⟩

/-- Go token constant `PARTITION` (= 130). -/
def TokenType.PARTITION : TokenType := ⟨130⟩

/-- Go token constant `PRIMARY` (= 131). -/
def TokenType.PRIMARY : TokenType := ⟨131⟩

/-- Go token constant `PROCEDURE` (= 132). -/
def TokenType.PROCEDURE : TokenType := ⟨132⟩

/-- Go token constant `RECURSIVE` (= 133). -/
def TokenType.RECURSIVE : TokenType := ⟨133⟩

/-- Go token constant `REFERENCES` (= 134). -/
def TokenType.REFERENCES : TokenType := ⟨134⟩

/-- Go token constant `RENAME` (= 135). -/
def TokenType.RENAME : TokenType := ⟨135⟩

/-- Go token constant `REPLACE` (= 136). -/
def TokenType.REPLACE : TokenType := ⟨136⟩

/-- Go token constant `RESTRICT` (= 137). -/
def TokenType.RESTRICT : TokenType := ⟨137⟩

/-- Go token constant `RIGHT` (= 138). -/
def TokenType.RIGHT : TokenType := ⟨138⟩

/-- Go token constant `ROLLBACK` (= 139). -/
def TokenType.ROLLBACK : TokenType := ⟨139⟩

/-- Go token constant `SELECT` (= 140). -/
def TokenType.SELECT : TokenType := ⟨140⟩

/-- Go token constant `SET` (= 141). -/
def TokenType.SET : TokenType := ⟨141⟩

/-- Go token constant `SHOW` (= 142). -/
def TokenType.SHOW : TokenType := ⟨142⟩

/-- Go token constant `TABLE` (= 143). -/
def TokenType.TABLE : TokenType := ⟨143⟩

/-- Go token constant `TABLES` (= 144). -/
def TokenType.TABLES : TokenType := ⟨144⟩

/-- Go token constant `THEN` (= 145). -/
def TokenType.THEN : TokenType := ⟨145⟩

/-- Go token constant `TO` (= 146). -/
def TokenType.TO : TokenType := ⟨146⟩

/-- Go token constant `TRANSACTION` (= 147). -/
def TokenType.TRANSACTION : TokenType := ⟨147⟩

/-- Go token constant `TRIGGER` (= 148). -/
def TokenType.TRIGGER : TokenType := ⟨148⟩

/-- Go token constant `TRUE_KW` (= 149). -/
def TokenType.TRUE_KW : TokenType := ⟨149⟩

/-- Go token constant `TRUNCATE` (= 150). -/
def TokenType.TRUNCATE : TokenType := ⟨150⟩

/-- Go token constant `UNION` (= 151). -/
def TokenType.UNION : TokenType := ⟨151⟩

/-- Go token constant `UNIQUE` (= 152). -/
def TokenType.UNIQUE : TokenType := ⟨152⟩

/-- Go token constant `UPDATE` (= 153). -/
def TokenType.UPDATE : TokenType := ⟨153⟩

/-- Go token constant `USE` (= 154). -/
def TokenType.USE : TokenType := ⟨154⟩

/-- Go token constant `USING` (= 155). -/
def TokenType.USING : TokenType := ⟨155⟩

/-- Go token constant `VALUES` (= 156). -/
def TokenType.VALUES : TokenType := ⟨156⟩

/-- Go token constant `VIEW` (= 157). -/
def TokenType.VIEW : TokenType := ⟨157⟩

/-- Go token constant `WHEN` (= 158). -/
def TokenType.WHEN : TokenType := ⟨158⟩

/-- Go token constant `WHERE` (= 159). -/
def TokenType.WHERE : TokenType := ⟨159⟩

/-- Go token constant `WITH` (= 160). -/
def TokenType.WITH : TokenType := ⟨160⟩

/-- Go token constant `WITHOUT` (= 161). -/
def TokenType.WITHOUT : TokenType := ⟨161⟩

/-- Go token constant `kwEND` (= 162). -/
def TokenType.kwEND : TokenType := ⟨162⟩

/-- Go token constant `BIGINT` (= 163). -/
def TokenType.BIGINT : TokenType := ⟨163⟩

/-- Go token constant `BINARY` (= 164). -/
def TokenType.BINARY : TokenType := ⟨164⟩

/-- Go token constant `BLOB` (= 165). -/
def TokenType.BLOB : TokenType := ⟨165⟩

/-- Go token constant `BOOLEAN` (= 166). -/
def TokenType.BOOLEAN : TokenType := ⟨166⟩

/-- Go token constant `CHAR` (= 167). -/
def TokenType.CHAR : TokenType := ⟨167⟩

/-- Go token constant `DATE` (= 168). -/
def TokenType.DATE : TokenType := ⟨168⟩

/-- Go token constant `DATETIME` (= 169). -/
def TokenType.DATETIME : TokenType := ⟨169⟩

/-- Go token constant `DECIMAL` (= 170). -/
def TokenType.DECIMAL : TokenType := ⟨170⟩

/-- Go token constant `DOUBLE` (= 171). -/
def TokenType.DOUBLE : TokenType := ⟨171⟩

/-- Go token constant `ENUM` (= 172). -/
def TokenType.ENUM : TokenType := ⟨172⟩

/-- Go token constant `FLOAT_KW` (= 173). -/
def TokenType.FLOAT_KW : TokenType := ⟨173⟩

/-- Go token constant `INT_KW` (= 174). -/
def TokenType.INT_KW : TokenType := ⟨174⟩

/-- Go token constant `INTEGER` (= 175). -/
def TokenType.INTEGER : TokenType := ⟨175⟩

/-- Go token constant `JSON` (= 176). -/
def TokenType.JSON : TokenType := ⟨176⟩

/-- Go token constant `JSONB` (= 177). -/
def TokenType.JSONB : TokenType := ⟨177⟩

/-- Go token constant `LONGBLOB` (= 178). -/
def TokenType.LONGBLOB : TokenType := ⟨178⟩

/-- Go token constant `LONGTEXT` (= 179). -/
def TokenType.LONGTEXT : TokenType := ⟨179⟩

/-- Go token constant `MEDIUMBLOB` (= 180). -/
def TokenType.MEDIUMBLOB : TokenType := ⟨180⟩

/-- Go token constant `MEDIUMINT` (= 181). -/
def TokenType.MEDIUMINT : TokenType := ⟨181⟩

/-- Go token constant `MEDIUMTEXT` (= 182). -/
def TokenType.MEDIUMTEXT : TokenType := ⟨182⟩

/-- Go token constant `NCHAR` (= 183). -/
def TokenType.NCHAR : TokenType := ⟨183⟩

/-- Go token constant `NUMERIC` (= 184). -/
def TokenType.NUMERIC : TokenType := ⟨184⟩

/-- Go token constant `REAL` (= 185). -/
def TokenType.REAL : TokenType := ⟨185⟩

/-- Go token constant `SMALLINT` (= 186). -/
def TokenType.SMALLINT : TokenType := ⟨186⟩

/-- Go token constant `TEXT` (= 187). -/
def TokenType.TEXT : TokenType := ⟨187⟩

/-- Go token constant `TIME` (= 188). -/
def TokenType.TIME : TokenType := ⟨188⟩

/-- Go token constant `TIMESTAMP` (= 189). -/
def TokenType.TIMESTAMP : TokenType := ⟨189⟩

/-- Go token constant `TINYBLOB` (= 190). -/
def TokenType.TINYBLOB : TokenType := ⟨190⟩

/-- Go token constant `TINYINT` (= 191). -/
def TokenType.TINYINT : TokenType := ⟨191⟩

/-- Go token constant `TINYTEXT` (= 192). -/
def TokenType.TINYTEXT : TokenType := ⟨192⟩

/-- Go token constant `VARBINARY` (= 193). -/
def TokenType.VARBINARY : TokenType := ⟨193⟩

/-- Go token constant `VARCHAR` (= 194). -/
def TokenType.VARCHAR : TokenType := ⟨194⟩

/-- Go token constant `YEAR` (= 195). -/
def TokenType.YEAR : TokenType := ⟨195⟩

/-- Keyword table slice 1 (see `keywordWords`). -/
def keywordWords1 : List (String × TokenType) :=
  [("add", .ADD),
   ("after", .AFTER),
   ("all", .ALL),
   ("alter", .ALTER),
   ("analyze", .ANALYZE),
   ("and", .AND),
   ("as", .AS),
   ("asc", .ASC),
   ("auto_increment", .AUTO_INCREMENT),
   ("between", .BETWEEN),
   ("bigint", .BIGINT),
   ("binary", .BINARY),
   ("blob", .BLOB),
   ("boolean", .BOOLEAN),
   ("by", .BY),
   ("cascade", .CASCADE),
   ("case", .CASE),
   ("cast", .CAST),
   ("change", .CHANGE),
   ("char", .CHAR),
   ("character", .CHARACTER),
   ("check", .CHECK),
   ("collate", .COLLATE),
   ("column", .COLUMN),
   ("comment", .COMMENT_KW)]

/-- Keyword table slice 2 (see `keywordWords`). -/
def keywordWords2 : List (String × TokenType) :=
  [("constraint", .CONSTRAINT),
   ("create", .CREATE),
   ("cross", .CROSS),
   ("database", .DATABASE),
   ("date", .DATE),
   ("datetime", .DATETIME),
   ("decimal", .DECIMAL),
   ("default", .DEFAULT),
   ("deferrable", .DEFERRABLE),
   ("deferred", .DEFERRED),
   ("delete", .DELETE),
   ("desc", .DESC),
   ("distinct", .DISTINCT),
   ("double", .DOUBLE),
   ("drop", .DROP),
   ("else", .ELSE),
   ("end", .END),
   ("engine", .ENGINE),
   ("enum", .ENUM),
   ("escape", .ESCAPE),
   ("except", .EXCEPT),
   ("exists", .EXISTS),
   ("explain", .EXPLAIN),
   ("false", .FALSE_KW),
   ("first", .FIRST)]

/-- Keyword table slice 3 (see `keywordWords`). -/
def keywordWords3 : List (String × TokenType) :=
  [("float", .FLOAT_KW),
   ("for", .FOR),
   ("foreign", .FOREIGN),
   ("from", .FROM),
   ("full", .FULL),
   ("function", .FUNCTION),
   ("group", .GROUP),
   ("having", .HAVING),
   ("if", .IF),
   ("ignore", .IGNORE),
   ("in", .IN),
   ("index", .INDEX),
   ("inner", .INNER),
   ("insert", .INSERT),
   ("int", .INT_KW),
   ("integer", .INTEGER),
   ("intersect", .INTERSECT),
   ("into", .INTO),
   ("is", .IS),
   ("join", .JOIN),
   ("json", .JSON),
   ("jsonb", .JSONB),
   ("key", .KEY),
   ("last", .LAST),
   ("left", .LEFT)]

/-- Keyword table slice 4 (see `keywordWords`). -/
def keywordWords4 : List (String × TokenType) :=
  [("like", .LIKE),
   ("limit", .LIMIT),
   ("longblob", .LONGBLOB),
   ("longtext", .LONGTEXT),
   ("match", .MATCH),
   ("mediumblob", .MEDIUMBLOB),
   ("mediumint", .MEDIUMINT),
   ("mediumtext", .MEDIUMTEXT),
   ("natural", .NATURAL),
   ("nchar", .NCHAR),
   ("no", .NO),
   ("not", .NOT),
   ("null", .NULL_KW),
   ("numeric", .NUMERIC),
   ("offset", .OFFSET),
   ("on", .ON),
   ("or", .OR),
   ("order", .ORDER),
   ("outer", .OUTER),
   ("partition", .PARTITION),
   ("primary", .PRIMARY),
   ("procedure", .PROCEDURE),
   ("real", .REAL),
   ("recursive", .RECURSIVE),
   ("references", .REFERENCES)]

/-- Keyword table slice 5 (see `keywordWords`). -/
def keywordWords5 : List (String × TokenType) :=
  [("rename", .RENAME),
   ("replace", .REPLACE),
   ("restrict", .RESTRICT),
   ("right", .RIGHT),
   ("rollback", .ROLLBACK),
   ("select", .SELECT),
   ("set", .SET),
   ("show", .SHOW),
   ("smallint", .SMALLINT),
   ("table", .TABLE),
   ("tables", .TABLES),
   ("text", .TEXT),
   ("then", .THEN),
   ("time", .TIME),
   ("timestamp", .TIMESTAMP),
   ("tinyblob", .TINYBLOB),
   ("tinyint", .TINYINT),
   ("tinytext", .TINYTEXT),
   ("to", .TO),
   ("transaction", .TRANSACTION),
   ("trigger", .TRIGGER),
   ("true", .TRUE_KW),
   ("truncate", .TRUNCATE),
   ("union", .UNION),
   ("unique", .UNIQUE)]

/-- Keyword table slice 6 (see `keywordWords`). -/
def keywordWords6 : List (String × TokenType) :=
  [("update", .UPDATE),
   ("use", .USE),
   ("using", .USING),
   ("values", .VALUES),
   ("varbinary", .VARBINARY),
   ("varchar", .VARCHAR),
   ("view", .VIEW),
   ("when", .WHEN),
   ("where", .WHERE),
   ("with", .WITH),
   ("without", .WITHOUT),
   ("year", .YEAR)]

/-- The keyword table of `keywords.go` (`words := []kwEntry{...}`); the
two-level length/hash bucketing is a pure lookup optimisation, so the map is
modelled as the association list it is built from (split into slices to keep
elaboration cheap). -/
def keywordWords : List (String × TokenType) := keywordWords1 ++ keywordWords2 ++ keywordWords3 ++ keywordWords4 ++ keywordWords5 ++ keywordWords6

/-- `lookupKeyword` of `keywords.go`: empty or over-long candidates are
identifiers, otherwise the table is searched for a byte-equal entry. -/
def lookupKeyword (val : List Nat) : TokenType :=
  if val.length = 0 ∨ 32 ≤ val.length then .IDENT
  else
    match keywordWords.find? (fun e => strBytes e.1 = val) with
    | some e => e.2
    | none => .IDENT

-- ---- character classification (`lexer.go` tables) ----

/-- `isSpace`: space, tab, vertical tab, form feed (newline is separate). -/
def isSpaceB (c : Nat) : Bool := c = 32 ∨ c = 9 ∨ c = 11 ∨ c = 12

/-- `isDigit`. -/
def isDigitB (c : Nat) : Bool := decide (48 ≤ c ∧ c ≤ 57)

/-- `isAlpha`: ASCII letters and underscore. -/
def isAlphaB (c : Nat) : Bool :=
  decide ((97 ≤ c ∧ c ≤ 122) ∨ (65 ≤ c ∧ c ≤ 90) ∨ c = 95)

/-- `isIdentCont`: letters, digits, underscore, dollar. -/
def isIdentContB (c : Nat) : Bool :=
  decide ((97 ≤ c ∧ c ≤ 122) ∨ (65 ≤ c ∧ c ≤ 90) ∨ (48 ≤ c ∧ c ≤ 57) ∨
          c = 95 ∨ c = 36)

/-- `isHexDigit`. -/
def isHexDigitB (c : Nat) : Bool :=
  decide ((48 ≤ c ∧ c ≤ 57) ∨ (97 ≤ c ∧ c ≤ 102) ∨ (65 ≤ c ∧ c ≤ 70))

/-- ASCII lowercasing of a byte (`c + 32` for capital letters), as done in
`lexIdent`'s scratch copy and the parser's fold helpers. -/
def lowerByte (c : Nat) : Nat := if 65 ≤ c ∧ c ≤ 90 then c + 32 else c

def toLowerBytes (bsl : List Nat) : List Nat := bsl.map lowerByte

/-- Byte at an index, `0` when out of range (Go code only reads in range;
the `0` default also models the `peek` closure of `lexPunct`). -/
def getByte (src : List Nat) (i : Nat) : Nat := src.getD i 0

/-- Sub-slice `src[a:b]`. -/
def sub (src : List Nat) (a b : Nat) : List Nat := (src.drop a).take (b - a)

/-- A lexical token (`lexer.Token`): borrowed raw bytes, classification and
1-based line/column plus 0-based byte offset. -/
structure Token where
  type : TokenType
  raw : List Nat
  pos : Nat
  line : Nat
  col : Nat
  deriving DecidableEq

/-- Lexer state (`lexer.Lexer`): source bytes, cursor, 1-based line/column. -/
structure Lexer where
  src : List Nat
  pos : Nat
  line : Nat
  col : Nat
  deriving DecidableEq

/-- `lexer.New`. -/
def Lexer.new (src : List Nat) : Lexer := ⟨src, 0, 1, 1⟩

/-- Continuation byte test for UTF-8 decoding. -/
def contB (c : Nat) : Bool := decide (128 ≤ c ∧ c ≤ 191)

/-- Lower bound on the first continuation byte of a 3-byte sequence. -/
def lo3 (b0 : Nat) : Nat := if b0 = 224 then 160 else 128

/-- Upper bound on the first continuation byte of a 3-byte sequence. -/
def hi3 (b0 : Nat) : Nat := if b0 = 237 then 159 else 191

/-- Lower bound on the first continuation byte of a 4-byte sequence. -/
def lo4 (b0 : Nat) : Nat := if b0 = 240 then 144 else 128

/-- Upper bound on the first continuation byte of a 4-byte sequence. -/
def hi4 (b0 : Nat) : Nat := if b0 = 244 then 143 else 191

/-- Size in bytes of the UTF-8 encoded rune starting at `pos`, as computed by
Go's `utf8.DecodeRune` (1 for ASCII, invalid or incomplete sequences). -/
def utf8Size (src : List Nat) (pos : Nat) : Nat :=
  if getByte src pos < 128 then 1
  else if getByte src pos < 194 then 1
  else if getByte src pos < 224 then
    if pos + 1 < src.length ∧ contB (getByte src (pos + 1)) then 2 else 1
  else if getByte src pos < 240 then
    if pos + 2 < src.length ∧ lo3 (getByte src pos) ≤ getByte src (pos + 1) ∧
       getByte src (pos + 1) ≤ hi3 (getByte src pos) ∧
       contB (getByte src (pos + 2)) then 3 else 1
  else if getByte src pos < 245 then
    if pos + 3 < src.length ∧ lo4 (getByte src pos) ≤ getByte src (pos + 1) ∧
       getByte src (pos + 1) ≤ hi4 (getByte src pos) ∧
       contB (getByte src (pos + 2)) ∧ contB (getByte src (pos + 3)) then 4
    else 1
  else 1

theorem utf8Size_pos (src : List Nat) (pos : Nat) : 1 ≤ utf8Size src pos := by
  unfold utf8Size
  repeat' split
  all_goals omega

theorem utf8Size_le (src : List Nat) (pos : Nat) (h : pos < src.length) :
    pos + utf8Size src pos ≤ src.length := by
  unfold utf8Size
  repeat' split
  all_goals omega

-- ---- lexer scanning loops (each Go `for` loop is one recursive function) ----

/-- Whitespace run of `Next`'s `isSpace` case: advance over horizontal
whitespace, stopping at a newline byte. -/
def skipSpaces (src : List Nat) (pos col : Nat) : Nat × Nat :=
  if _h : pos < src.length ∧ isSpaceB (getByte src pos) then
    if getByte src pos = 10 then (pos, col)
    else skipSpaces src (pos + 1) (col + 1)
  else (pos, col)
termination_by src.length - pos

/-- Line-comment run (`--`, `#`): consume up to but excluding the newline. -/
def skipLine (src : List Nat) (pos col : Nat) : Nat × Nat :=
  if _h : pos < src.length ∧ getByte src pos ≠ 10 then
    skipLine src (pos + 1) (col + 1)
  else (pos, col)
termination_by src.length - pos

/-- Block-comment loop of `Next` (note the source's `l.pos+1 < len(l.src)`
guard, which stops one byte short of the end on unterminated comments). -/
def skipBlock (src : List Nat) (pos line col : Nat) : Nat × Nat × Nat :=
  if _h : pos + 1 < src.length then
    if getByte src pos = 10 then skipBlock src (pos + 1) (line + 1) 1
    else if getByte src pos = 42 ∧ getByte src (pos + 1) = 47 then
      (pos + 2, line, col + 2)
    else skipBlock src (pos + 1) line (col + 1)
  else (pos, line, col)
termination_by src.length - pos

/-- Identifier continuation run (`lexIdent`'s loop, also the named-parameter
runs in `lexPunct`). -/
def identRun (src : List Nat) (pos col : Nat) : Nat × Nat :=
  if _h : pos < src.length ∧ isIdentContB (getByte src pos) then
    identRun src (pos + 1) (col + 1)
  else (pos, col)
termination_by src.length - pos

/-- Digit run (`lexNumber`, and `lexPunct`'s `$N` case). -/
def digitRun (src : List Nat) (pos col : Nat) : Nat × Nat :=
  if _h : pos < src.length ∧ isDigitB (getByte src pos) then
    digitRun src (pos + 1) (col + 1)
  else (pos, col)
termination_by src.length - pos

/-- Hex-digit run (`lexHex0x`). -/
def hexRun (src : List Nat) (pos col : Nat) : Nat × Nat :=
  if _h : pos < src.length ∧ isHexDigitB (getByte src pos) then
    hexRun src (pos + 1) (col + 1)
  else (pos, col)
termination_by src.length - pos

/-- Scan of `lexHexLit`'s body: consume until the closing quote. -/
def untilQuote (src : List Nat) (pos col : Nat) : Nat × Nat :=
  if _h : pos < src.length ∧ getByte src pos ≠ 39 then
    untilQuote src (pos + 1) (col + 1)
  else (pos, col)
termination_by src.length - pos

/-- `lexQuoted`'s scanning loop (positioned after the opening delimiter):
doubled delimiters escape, backslash escapes except in backtick strings,
newlines bump the line counter, multi-byte runes advance by their size.
Returns (pos, line, col) after the closing delimiter (or at end of input). -/
def quotedLoop (src : List Nat) (pos line col delim : Nat) : Nat × Nat × Nat :=
  if _h : pos < src.length then
    if getByte src pos = delim then
      if pos + 1 < src.length ∧ getByte src (pos + 1) = delim then
        quotedLoop src (pos + 2) line (col + 2) delim
      else (pos + 1, line, col + 1)
    else if getByte src pos = 92 ∧ delim ≠ 96 then
      if pos + 1 < src.length then quotedLoop src (pos + 2) line (col + 2) delim
      else (pos + 1, line, col + 1)
    else if getByte src pos = 10 then quotedLoop src (pos + 1) (line + 1) 1 delim
    else if 128 ≤ getByte src pos then
      quotedLoop src (pos + utf8Size src pos) line (col + 1) delim
    else quotedLoop src (pos + 1) line (col + 1) delim
  else (pos, line, col)
termination_by src.length - pos
decreasing_by
  all_goals simp_all
  all_goals try omega
  have := utf8Size_pos src pos
  omega

-- ---- bounds of the scanning loops ----

theorem skipSpaces_ge (src : List Nat) (pos col : Nat) :
    pos ≤ (skipSpaces src pos col).1 := by
  unfold skipSpaces
  split
  · split
    · simp
    · have := skipSpaces_ge src (pos + 1) (col + 1); omega
  · simp
termination_by src.length - pos

theorem skipSpaces_le (src : List Nat) (pos col : Nat) (h : pos ≤ src.length) :
    (skipSpaces src pos col).1 ≤ src.length := by
  unfold skipSpaces
  split
  · split
    · simpa
    · exact skipSpaces_le src (pos + 1) (col + 1) (by omega)
  · simpa
termination_by src.length - pos

theorem skipLine_ge (src : List Nat) (pos col : Nat) :
    pos ≤ (skipLine src pos col).1 := by
  unfold skipLine
  split
  · have := skipLine_ge src (pos + 1) (col + 1); omega
  · simp
termination_by src.length - pos

theorem skipLine_le (src : List Nat) (pos col : Nat) (h : pos ≤ src.length) :
    (skipLine src pos col).1 ≤ src.length := by
  unfold skipLine
  split
  · exact skipLine_le src (pos + 1) (col + 1) (by omega)
  · simpa
termination_by src.length - pos

theorem skipBlock_ge (src : List Nat) (pos line col : Nat) :
    pos ≤ (skipBlock src pos line col).1 := by
  unfold skipBlock
  split
  · split
    · have := skipBlock_ge src (pos + 1) (line + 1) 1; omega
    · split
      · simp
      · have := skipBlock_ge src (pos + 1) line (col + 1); omega
  · simp
termination_by src.length - pos

theorem skipBlock_le (src : List Nat) (pos line col : Nat) (h : pos ≤ src.length) :
    (skipBlock src pos line col).1 ≤ src.length := by
  unfold skipBlock
  split
  · split
    · exact skipBlock_le src (pos + 1) (line + 1) 1 (by omega)
    · split
      · simp; omega
      · exact skipBlock_le src (pos + 1) line (col + 1) (by omega)
  · simpa
termination_by src.length - pos

theorem identRun_ge (src : List Nat) (pos col : Nat) :
    pos ≤ (identRun src pos col).1 := by
  unfold identRun
  split
  · have := identRun_ge src (pos + 1) (col + 1); omega
  · simp
termination_by src.length - pos

theorem identRun_le (src : List Nat) (pos col : Nat) (h : pos ≤ src.length) :
    (identRun src pos col).1 ≤ src.length := by
  unfold identRun
  split
  · exact identRun_le src (pos + 1) (col + 1) (by omega)
  · simpa
termination_by src.length - pos

theorem digitRun_ge (src : List Nat) (pos col : Nat) :
    pos ≤ (digitRun src pos col).1 := by
  unfold digitRun
  split
  · have := digitRun_ge src (pos + 1) (col + 1); omega
  · simp
termination_by src.length - pos

theorem digitRun_le (src : List Nat) (pos col : Nat) (h : pos ≤ src.length) :
    (digitRun src pos col).1 ≤ src.length := by
  unfold digitRun
  split
  · exact digitRun_le src (pos + 1) (col + 1) (by omega)
  · simpa
termination_by src.length - pos

theorem hexRun_ge (src : List Nat) (pos col : Nat) :
    pos ≤ (hexRun src pos col).1 := by
  unfold hexRun
  split
  · have := hexRun_ge src (pos + 1) (col + 1); omega
  · simp
termination_by src.length - pos

theorem hexRun_le (src : List Nat) (pos col : Nat) (h : pos ≤ src.length) :
    (hexRun src pos col).1 ≤ src.length := by
  unfold hexRun
  split
  · exact hexRun_le src (pos + 1) (col + 1) (by omega)
  · simpa
termination_by src.length - pos

theorem untilQuote_ge (src : List Nat) (pos col : Nat) :
    pos ≤ (untilQuote src pos col).1 := by
  unfold untilQuote
  split
  · have := untilQuote_ge src (pos + 1) (col + 1); omega
  · simp
termination_by src.length - pos

theorem untilQuote_le (src : List Nat) (pos col : Nat) (h : pos ≤ src.length) :
    (untilQuote src pos col).1 ≤ src.length := by
  unfold untilQuote
  split
  · exact untilQuote_le src (pos + 1) (col + 1) (by omega)
  · simpa
termination_by src.length - pos

theorem quotedLoop_ge (src : List Nat) (pos line col delim : Nat) :
    pos ≤ (quotedLoop src pos line col delim).1 := by
  unfold quotedLoop
  split_ifs
  all_goals try simp
  · have := quotedLoop_ge src (pos + 2) line (col + 2) delim; omega
  · have := quotedLoop_ge src (pos + 2) line (col + 2) delim; omega
  · have := quotedLoop_ge src (pos + 1) (line + 1) 1 delim; omega
  · have h1 := quotedLoop_ge src (pos + utf8Size src pos) line (col + 1) delim
    have h2 := utf8Size_pos src pos
    omega
  · have := quotedLoop_ge src (pos + 1) line (col + 1) delim; omega
termination_by src.length - pos
decreasing_by
  all_goals simp_all
  all_goals try omega
  have := utf8Size_pos src pos
  omega

theorem quotedLoop_le (src : List Nat) (pos line col delim : Nat)
    (h : pos ≤ src.length) : (quotedLoop src pos line col delim).1 ≤ src.length := by
  unfold quotedLoop
  split_ifs
  all_goals try (simp; omega)
  · exact quotedLoop_le src (pos + 2) line (col + 2) delim (by omega)
  · exact quotedLoop_le src (pos + 2) line (col + 2) delim (by omega)
  · exact quotedLoop_le src (pos + 1) (line + 1) 1 delim (by omega)
  · exact quotedLoop_le src (pos + utf8Size src pos) line (col + 1) delim
      (utf8Size_le src pos (by omega))
  · exact quotedLoop_le src (pos + 1) line (col + 1) delim (by omega)
termination_by src.length - pos
decreasing_by
  all_goals simp_all
  all_goals try omega
  have := utf8Size_pos src pos
  omega

-- ---- token-producing scanners ----

/-- `lexIdent`: scan an identifier/keyword; candidates longer than the 64-byte
scratch buffer are unconditionally identifiers, otherwise the keyword table is
consulted on the lowercased bytes. -/
def lexIdent (l : Lexer) (start line col : Nat) : Token × Lexer :=
  (⟨if 64 < (sub l.src start (identRun l.src (l.pos + 1) (l.col + 1)).1).length
    then TokenType.IDENT
    else lookupKeyword
      (toLowerBytes (sub l.src start (identRun l.src (l.pos + 1) (l.col + 1)).1)),
    sub l.src start (identRun l.src (l.pos + 1) (l.col + 1)).1, start, line, col⟩,
   ⟨l.src, (identRun l.src (l.pos + 1) (l.col + 1)).1, l.line,
    (identRun l.src (l.pos + 1) (l.col + 1)).2⟩)

/-- Fraction stage of `lexNumber`: after the integer digit run `r`, consume an
optional `.` and fractional digits; the flag records whether a dot was seen. -/
def numberFrac (src : List Nat) (r : Nat × Nat) : Bool × Nat × Nat :=
  if r.1 < src.length ∧ getByte src r.1 = 46 then
    (true, (digitRun src (r.1 + 1) (r.2 + 1)).1, (digitRun src (r.1 + 1) (r.2 + 1)).2)
  else (false, r.1, r.2)

/-- Exponent stage of `lexNumber`: optional `e`/`E`, optional sign, digits. -/
def numberExp (src : List Nat) (fr : Bool × Nat × Nat) : Bool × Nat × Nat :=
  if fr.2.1 < src.length ∧
     (getByte src fr.2.1 = 101 ∨ getByte src fr.2.1 = 69) then
    if fr.2.1 + 1 < src.length ∧
       (getByte src (fr.2.1 + 1) = 43 ∨ getByte src (fr.2.1 + 1) = 45) then
      (true, (digitRun src (fr.2.1 + 2) (fr.2.2 + 2)).1,
       (digitRun src (fr.2.1 + 2) (fr.2.2 + 2)).2)
    else
      (true, (digitRun src (fr.2.1 + 1) (fr.2.2 + 1)).1,
       (digitRun src (fr.2.1 + 1) (fr.2.2 + 1)).2)
  else fr

/-- Scanning core of `lexNumber`: digits, optional fraction, optional
exponent; returns (sawFloatMark, endPos, endCol). -/
def numberCore (src : List Nat) (pos col : Nat) : Bool × Nat × Nat :=
  numberExp src (numberFrac src (digitRun src pos col))

/-- `lexNumber`: integer/float literal with optional fraction and exponent. -/
def lexNumber (l : Lexer) (start line col : Nat) : Token × Lexer :=
  (⟨if (numberCore l.src l.pos l.col).1 then TokenType.FLOAT else TokenType.INT,
    sub l.src start (numberCore l.src l.pos l.col).2.1, start, line, col⟩,
   ⟨l.src, (numberCore l.src l.pos l.col).2.1, l.line,
    (numberCore l.src l.pos l.col).2.2⟩)

/-- `lexQuoted`: a quoted literal starting at the opening delimiter. -/
def lexQuoted (l : Lexer) (start line col delim : Nat) (typ : TokenType) :
    Token × Lexer :=
  (⟨typ, sub l.src start (quotedLoop l.src (l.pos + 1) l.line (l.col + 1) delim).1,
    start, line, col⟩,
   ⟨l.src, (quotedLoop l.src (l.pos + 1) l.line (l.col + 1) delim).1,
    (quotedLoop l.src (l.pos + 1) l.line (l.col + 1) delim).2.1,
    (quotedLoop l.src (l.pos + 1) l.line (l.col + 1) delim).2.2⟩)

/-- `lexHexLit`: `x'...'` form. -/
def hexLitEnd (src : List Nat) (pos col : Nat) : Nat × Nat :=
  if (untilQuote src pos col).1 < src.length
  then ((untilQuote src pos col).1 + 1, (untilQuote src pos col).2 + 1)
  else untilQuote src pos col

def lexHexLit (l : Lexer) (start line col : Nat) : Token × Lexer :=
  (⟨.HEXLIT, sub l.src start (hexLitEnd l.src (l.pos + 2) (l.col + 2)).1,
    start, line, col⟩,
   ⟨l.src, (hexLitEnd l.src (l.pos + 2) (l.col + 2)).1, l.line,
    (hexLitEnd l.src (l.pos + 2) (l.col + 2)).2⟩)

/-- `lexHex0x`: `0x` followed by the maximal hex-digit run. -/
def lexHex0x (l : Lexer) (start line col : Nat) : Token × Lexer :=
  (⟨.HEXLIT, sub l.src start (hexRun l.src (l.pos + 2) (l.col + 2)).1,
    start, line, col⟩,
   ⟨l.src, (hexRun l.src (l.pos + 2) (l.col + 2)).1, l.line,
    (hexRun l.src (l.pos + 2) (l.col + 2)).2⟩)

/-- `lexBitLit`: advance over the `b`/`B`, then scan as a quoted literal whose
raw bytes start at the `b` (`return l.lexQuoted(l.pos-1, ...)`). -/
def lexBitLit (l : Lexer) (start line col : Nat) : Token × Lexer :=
  lexQuoted ⟨l.src, l.pos + 1, l.line, l.col + 1⟩ start line col 39 .BITLIT

/-- Decision core of `lexPunct`, final group of switch cases (`:`, `@`, `$`,
`#`, default).  The Go switch is transcribed as three chained groups so each
stays shallow; dispatch order is unchanged. -/
def punctCoreC (src : List Nat) (pos col : Nat) : TokenType × Nat × Nat :=
  if getByte src pos = 58 then
    if isAlphaB (getByte src (pos + 1)) then
      (.NAMEDPARAM, (identRun src (pos + 1) (col + 1)).1,
       (identRun src (pos + 1) (col + 1)).2)
    else (.COLON, pos + 1, col + 1)
  else if getByte src pos = 64 then
    if getByte src (pos + 1) = 62 then (.ATGT, pos + 2, col + 2)
    else if isAlphaB (getByte src (pos + 1)) ∨ getByte src (pos + 1) = 64 then
      (.NAMEDPARAM, (identRun src (pos + 1) (col + 1)).1,
       (identRun src (pos + 1) (col + 1)).2)
    else (.AT, pos + 1, col + 1)
  else if getByte src pos = 36 then
    if isDigitB (getByte src (pos + 1)) then
      (.NAMEDPARAM, (digitRun src (pos + 1) (col + 1)).1,
       (digitRun src (pos + 1) (col + 1)).2)
    else if isAlphaB (getByte src (pos + 1)) then
      (.NAMEDPARAM, (identRun src (pos + 1) (col + 1)).1,
       (identRun src (pos + 1) (col + 1)).2)
    else (.DOLLAR, pos + 1, col + 1)
  else if getByte src pos = 35 then
    if getByte src (pos + 1) = 62 then
      if getByte src (pos + 2) = 62 then (.HASHDARROW, pos + 3, col + 3)
      else (.HASHARROW, pos + 2, col + 2)
    else (.HASH, pos + 1, col + 1)
  else (.ILLEGAL, pos + 1, col + 1)

/-- Decision core of `lexPunct`, middle group (`<`, `>`, `|`, `&`, `-`, `/`,
`.`), falling through to `punctCoreC`. -/
def punctCoreB (src : List Nat) (pos col : Nat) : TokenType × Nat × Nat :=
  if getByte src pos = 60 then
    if getByte src (pos + 1) = 61 then (.LTE, pos + 2, col + 2)
    else if getByte src (pos + 1) = 62 then (.NEQ, pos + 2, col + 2)
    else if getByte src (pos + 1) = 64 then (.LTAT, pos + 2, col + 2)
    else if getByte src (pos + 1) = 60 then (.LSHIFT, pos + 2, col + 2)
    else (.LT, pos + 1, col + 1)
  else if getByte src pos = 62 then
    if getByte src (pos + 1) = 61 then (.GTE, pos + 2, col + 2)
    else if getByte src (pos + 1) = 62 then (.RSHIFT, pos + 2, col + 2)
    else (.GT, pos + 1, col + 1)
  else if getByte src pos = 124 then
    if getByte src (pos + 1) = 124 then (.DBAR, pos + 2, col + 2)
    else (.PIPE, pos + 1, col + 1)
  else if getByte src pos = 38 then
    if getByte src (pos + 1) = 38 then (.DAMP, pos + 2, col + 2)
    else (.AMPERSAND, pos + 1, col + 1)
  else if getByte src pos = 45 then
    if getByte src (pos + 1) = 62 then
      if getByte src (pos + 2) = 62 then (.DARROW2, pos + 3, col + 3)
      else (.ARROW, pos + 2, col + 2)
    else (.MINUS, pos + 1, col + 1)
  else if getByte src pos = 47 then (.SLASH, pos + 1, col + 1)
  else if getByte src pos = 46 then
    if getByte src (pos + 1) = 46 then (.DOTDOT, pos + 2, col + 2)
    else (.DOT, pos + 1, col + 1)
  else punctCoreC src pos col

/-- Decision core of `lexPunct`, second group (`*`, `%`, `^`, `~`, `?`, `+`,
`=`, `!`), falling through to `punctCoreB`. -/
def punctCoreA2 (src : List Nat) (pos col : Nat) : TokenType × Nat × Nat :=
  if getByte src pos = 42 then (.STAR, pos + 1, col + 1)
  else if getByte src pos = 37 then (.PERCENT, pos + 1, col + 1)
  else if getByte src pos = 94 then (.CARET, pos + 1, col + 1)
  else if getByte src pos = 126 then (.TILDE, pos + 1, col + 1)
  else if getByte src pos = 63 then
    if getByte src (pos + 1) = 124 then (.QMARKPIPE, pos + 2, col + 2)
    else if getByte src (pos + 1) = 38 then (.QMARKAMP, pos + 2, col + 2)
    else (.QUESTION, pos + 1, col + 1)
  else if getByte src pos = 43 then (.PLUS, pos + 1, col + 1)
  else if getByte src pos = 61 then
    if getByte src (pos + 1) = 62 then (.DARROW, pos + 2, col + 2)
    else (.EQ, pos + 1, col + 1)
  else if getByte src pos = 33 then
    if getByte src (pos + 1) = 61 then (.NEQ, pos + 2, col + 2)
    else (.BANG, pos + 1, col + 1)
  else punctCoreB src pos col

/-- Decision core of `lexPunct`, first group of switch cases (the first byte
is at `pos`; Go has already advanced to `p = pos+1`, `c = col+1` and peeks at
`p`): token type and end position/column. -/
def punctCore (src : List Nat) (pos col : Nat) : TokenType × Nat × Nat :=
  if getByte src pos = 40 then (.LPAREN, pos + 1, col + 1)
  else if getByte src pos = 41 then (.RPAREN, pos + 1, col + 1)
  else if getByte src pos = 123 then (.LBRACE, pos + 1, col + 1)
  else if getByte src pos = 125 then (.RBRACE, pos + 1, col + 1)
  else if getByte src pos = 91 then (.LBRACKET, pos + 1, col + 1)
  else if getByte src pos = 93 then (.RBRACKET, pos + 1, col + 1)
  else if getByte src pos = 44 then (.COMMA, pos + 1, col + 1)
  else if getByte src pos = 59 then (.SEMICOLON, pos + 1, col + 1)
  else punctCoreA2 src pos col

/-- `lexPunct`: single- and multi-character punctuation, named parameters. -/
def lexPunct (l : Lexer) (start line col : Nat) : Token × Lexer :=
  (⟨(punctCore l.src l.pos l.col).1,
    sub l.src start (punctCore l.src l.pos l.col).2.1, start, line, col⟩,
   ⟨l.src, (punctCore l.src l.pos l.col).2.1, l.line,
    (punctCore l.src l.pos l.col).2.2⟩)

-- ---- facts about the token scanners needed for stream-level claims ----

theorem digitRun_gt (src : List Nat) (pos col : Nat) (h1 : pos < src.length)
    (h2 : isDigitB (getByte src pos)) : pos + 1 ≤ (digitRun src pos col).1 := by
  unfold digitRun
  rw [dif_pos ⟨h1, h2⟩]
  exact digitRun_ge src (pos + 1) (col + 1)

theorem numberFrac_ge (src : List Nat) (r : Nat × Nat) :
    r.1 ≤ (numberFrac src r).2.1 := by
  unfold numberFrac
  split_ifs
  · have := digitRun_ge src (r.1 + 1) (r.2 + 1); simp; omega
  · simp

theorem numberExp_ge (src : List Nat) (fr : Bool × Nat × Nat) :
    fr.2.1 ≤ (numberExp src fr).2.1 := by
  unfold numberExp
  split_ifs
  · have := digitRun_ge src (fr.2.1 + 2) (fr.2.2 + 2); simp; omega
  · have := digitRun_ge src (fr.2.1 + 1) (fr.2.2 + 1); simp; omega
  · simp

theorem numberCore_gt (src : List Nat) (pos col : Nat) (h1 : pos < src.length)
    (h2 : isDigitB (getByte src pos) ∨ getByte src pos = 46) :
    pos + 1 ≤ (numberCore src pos col).2.1 := by
  unfold numberCore
  have he := numberExp_ge src (numberFrac src (digitRun src pos col))
  rcases h2 with hd | hdot
  · have hg := digitRun_gt src pos col h1 hd
    have hf := numberFrac_ge src (digitRun src pos col)
    omega
  · have hnd : ¬ isDigitB (getByte src pos) := by
      simp [isDigitB] at *; omega
    have hr1 : digitRun src pos col = (pos, col) := by
      unfold digitRun
      rw [dif_neg]
      simp [hnd]
    rw [hr1] at he ⊢
    have hfr : numberFrac src (pos, col) =
        (true, (digitRun src (pos + 1) (col + 1)).1,
         (digitRun src (pos + 1) (col + 1)).2) := by
      unfold numberFrac
      rw [if_pos ⟨h1, hdot⟩]
    rw [hfr] at he ⊢
    have := digitRun_ge src (pos + 1) (col + 1)
    simp at he ⊢
    omega

theorem punctCoreC_gt (src : List Nat) (pos col : Nat) :
    pos + 1 ≤ (punctCoreC src pos col).2.1 := by
  have i1 := identRun_ge src (pos + 1) (col + 1)
  have d1 := digitRun_ge src (pos + 1) (col + 1)
  unfold punctCoreC
  repeat' split
  all_goals simp
  all_goals omega

theorem punctCoreB_gt (src : List Nat) (pos col : Nat) :
    pos + 1 ≤ (punctCoreB src pos col).2.1 := by
  have hc := punctCoreC_gt src pos col
  unfold punctCoreB
  repeat' split
  all_goals simp
  all_goals omega

theorem punctCoreA2_gt (src : List Nat) (pos col : Nat) :
    pos + 1 ≤ (punctCoreA2 src pos col).2.1 := by
  have hb := punctCoreB_gt src pos col
  unfold punctCoreA2
  repeat' split
  all_goals simp
  all_goals omega

theorem punctCore_gt (src : List Nat) (pos col : Nat) :
    pos + 1 ≤ (punctCore src pos col).2.1 := by
  have ha := punctCoreA2_gt src pos col
  unfold punctCore
  repeat' split
  all_goals simp
  all_goals omega

theorem punctCoreC_ne_eof (src : List Nat) (pos col : Nat) :
    (punctCoreC src pos col).1 ≠ .EOF := by
  unfold punctCoreC
  repeat' split
  all_goals simp
  all_goals decide

theorem punctCoreB_ne_eof (src : List Nat) (pos col : Nat) :
    (punctCoreB src pos col).1 ≠ .EOF := by
  have hc := punctCoreC_ne_eof src pos col
  unfold punctCoreB
  repeat' split
  all_goals simp
  all_goals first | assumption | decide

theorem punctCoreA2_ne_eof (src : List Nat) (pos col : Nat) :
    (punctCoreA2 src pos col).1 ≠ .EOF := by
  have hb := punctCoreB_ne_eof src pos col
  unfold punctCoreA2
  repeat' split
  all_goals simp
  all_goals first | assumption | decide

theorem punctCore_ne_eof (src : List Nat) (pos col : Nat) :
    (punctCore src pos col).1 ≠ .EOF := by
  have ha := punctCoreA2_ne_eof src pos col
  unfold punctCore
  repeat' split
  all_goals simp
  all_goals first | assumption | decide

set_option maxRecDepth 40000 in
theorem keywordWords_ne_eof : ∀ e ∈ keywordWords, e.2 ≠ TokenType.EOF := by
  decide

theorem lookupKeyword_ne_eof (val : List Nat) : lookupKeyword val ≠ .EOF := by
  unfold lookupKeyword
  split
  · decide
  · split
    · next e heq =>
      exact keywordWords_ne_eof e (List.mem_of_find?_eq_some heq)
    · decide

/-- Per-scanner facts: source preserved, token starts at `start`, the state
advances strictly past the current position, and the token is not `EOF`. -/
theorem lexIdent_fact (l : Lexer) (s ln c : Nat) :
    (lexIdent l s ln c).2.src = l.src ∧ (lexIdent l s ln c).1.pos = s ∧
    l.pos + 1 ≤ (lexIdent l s ln c).2.pos ∧
    (lexIdent l s ln c).1.type ≠ .EOF := by
  refine ⟨rfl, rfl, ?_, ?_⟩
  · exact identRun_ge l.src (l.pos + 1) (l.col + 1)
  · show (if _ then TokenType.IDENT else lookupKeyword _) ≠ _
    split
    · decide
    · exact lookupKeyword_ne_eof _

theorem lexNumber_fact (l : Lexer) (s ln c : Nat) (h1 : l.pos < l.src.length)
    (h2 : isDigitB (getByte l.src l.pos) ∨ getByte l.src l.pos = 46) :
    (lexNumber l s ln c).2.src = l.src ∧ (lexNumber l s ln c).1.pos = s ∧
    l.pos + 1 ≤ (lexNumber l s ln c).2.pos ∧
    (lexNumber l s ln c).1.type ≠ .EOF := by
  refine ⟨rfl, rfl, ?_, ?_⟩
  · exact numberCore_gt l.src l.pos l.col h1 h2
  · show (if _ then TokenType.FLOAT else TokenType.INT) ≠ _
    split <;> decide

theorem lexQuoted_fact (l : Lexer) (s ln c delim : Nat) (typ : TokenType) :
    (lexQuoted l s ln c delim typ).2.src = l.src ∧
    (lexQuoted l s ln c delim typ).1.pos = s ∧
    l.pos + 1 ≤ (lexQuoted l s ln c delim typ).2.pos ∧
    (lexQuoted l s ln c delim typ).1.type = typ := by
  exact ⟨rfl, rfl, quotedLoop_ge l.src (l.pos + 1) l.line (l.col + 1) delim, rfl⟩

theorem hexLitEnd_ge (src : List Nat) (pos col : Nat) :
    pos ≤ (hexLitEnd src pos col).1 := by
  unfold hexLitEnd
  have := untilQuote_ge src pos col
  split_ifs <;> simp <;> omega

theorem lexHexLit_fact (l : Lexer) (s ln c : Nat) :
    (lexHexLit l s ln c).2.src = l.src ∧ (lexHexLit l s ln c).1.pos = s ∧
    l.pos + 1 ≤ (lexHexLit l s ln c).2.pos ∧
    (lexHexLit l s ln c).1.type = .HEXLIT := by
  refine ⟨rfl, rfl, ?_, rfl⟩
  have := hexLitEnd_ge l.src (l.pos + 2) (l.col + 2)
  show l.pos + 1 ≤ (hexLitEnd l.src (l.pos + 2) (l.col + 2)).1
  omega

theorem lexHex0x_fact (l : Lexer) (s ln c : Nat) :
    (lexHex0x l s ln c).2.src = l.src ∧ (lexHex0x l s ln c).1.pos = s ∧
    l.pos + 1 ≤ (lexHex0x l s ln c).2.pos ∧
    (lexHex0x l s ln c).1.type = .HEXLIT := by
  refine ⟨rfl, rfl, ?_, rfl⟩
  have := hexRun_ge l.src (l.pos + 2) (l.col + 2)
  show l.pos + 1 ≤ (hexRun l.src (l.pos + 2) (l.col + 2)).1
  omega

theorem lexBitLit_fact (l : Lexer) (s ln c : Nat) :
    (lexBitLit l s ln c).2.src = l.src ∧ (lexBitLit l s ln c).1.pos = s ∧
    l.pos + 1 ≤ (lexBitLit l s ln c).2.pos ∧
    (lexBitLit l s ln c).1.type = .BITLIT := by
  refine ⟨rfl, rfl, ?_, rfl⟩
  have := quotedLoop_ge l.src (l.pos + 2) l.line (l.col + 2) 39
  show l.pos + 1 ≤ (quotedLoop l.src (l.pos + 2) l.line (l.col + 2) 39).1
  omega

theorem lexPunct_fact (l : Lexer) (s ln c : Nat) :
    (lexPunct l s ln c).2.src = l.src ∧ (lexPunct l s ln c).1.pos = s ∧
    l.pos + 1 ≤ (lexPunct l s ln c).2.pos ∧
    (lexPunct l s ln c).1.type ≠ .EOF := by
  exact ⟨rfl, rfl, punctCore_gt l.src l.pos l.col, punctCore_ne_eof l.src l.pos l.col⟩

/-- End position of the carriage-return case of `Next` (`\r` optionally
followed by `\n`). -/
def carriageEnd (src : List Nat) (pos : Nat) : Nat :=
  if pos + 1 < src.length ∧ getByte src (pos + 1) = 10 then pos + 2 else pos + 1

theorem carriageEnd_ge (src : List Nat) (pos : Nat) :
    pos + 1 ≤ carriageEnd src pos := by
  unfold carriageEnd
  split <;> omega

/-- Token dispatch of `Lexer.Next` once whitespace and comments are out of
the way (`b` is a significant byte at `l.pos < len`).  The case order matches
the remaining Go `switch` cases exactly; in particular the numeric-literal
case precedes the dedicated `0x` case, which is therefore unreachable. -/
def tokenDispatch (l : Lexer) : Token × Lexer :=
  if isDigitB (getByte l.src l.pos) ∨
     (getByte l.src l.pos = 46 ∧ l.pos + 1 < l.src.length ∧
      isDigitB (getByte l.src (l.pos + 1))) then
    lexNumber l l.pos l.line l.col
  else if getByte l.src l.pos = 39 then lexQuoted l l.pos l.line l.col 39 .STRING
  else if getByte l.src l.pos = 34 then lexQuoted l l.pos l.line l.col 34 .DQUOTE
  else if getByte l.src l.pos = 96 then lexQuoted l l.pos l.line l.col 96 .BACKTICK
  else if getByte l.src l.pos = 120 ∨ getByte l.src l.pos = 88 then
    if l.pos + 1 < l.src.length ∧ getByte l.src (l.pos + 1) = 39 then
      lexHexLit l l.pos l.line l.col
    else lexIdent l l.pos l.line l.col
  else if getByte l.src l.pos = 98 ∨ getByte l.src l.pos = 66 then
    if l.pos + 1 < l.src.length ∧ getByte l.src (l.pos + 1) = 39 then
      lexBitLit l l.pos l.line l.col
    else lexIdent l l.pos l.line l.col
  else if getByte l.src l.pos = 48 ∧ l.pos + 1 < l.src.length ∧
          (getByte l.src (l.pos + 1) = 120 ∨ getByte l.src (l.pos + 1) = 88) then
    lexHex0x l l.pos l.line l.col
  else if isAlphaB (getByte l.src l.pos) ∨ getByte l.src l.pos = 95 then
    lexIdent l l.pos l.line l.col
  else lexPunct l l.pos l.line l.col

/-- `Lexer.Next`: skip whitespace and comments, then dispatch on the first
significant byte (`tokenDispatch`).  The case order matches the Go `switch`
exactly; the block-comment case runs the off-by-one `l.pos+1 < len(l.src)`
loop of the source. -/
def next (l : Lexer) : Token × Lexer :=
  if hlt : l.pos < l.src.length then
    if getByte l.src l.pos = 10 then next ⟨l.src, l.pos + 1, l.line + 1, 1⟩
    else if getByte l.src l.pos = 13 then
      next ⟨l.src, carriageEnd l.src l.pos, l.line + 1, 1⟩
    else if isSpaceB (getByte l.src l.pos) then
      next ⟨l.src, (skipSpaces l.src (l.pos + 1) (l.col + 1)).1, l.line,
            (skipSpaces l.src (l.pos + 1) (l.col + 1)).2⟩
    else if getByte l.src l.pos = 45 ∧ l.pos + 1 < l.src.length ∧
            getByte l.src (l.pos + 1) = 45 then
      next ⟨l.src, (skipLine l.src (l.pos + 2) (l.col + 2)).1, l.line,
            (skipLine l.src (l.pos + 2) (l.col + 2)).2⟩
    else if getByte l.src l.pos = 35 then
      if l.pos + 1 < l.src.length ∧ getByte l.src (l.pos + 1) = 62 then
        lexPunct l l.pos l.line l.col
      else
        next ⟨l.src, (skipLine l.src (l.pos + 1) (l.col + 1)).1, l.line,
              (skipLine l.src (l.pos + 1) (l.col + 1)).2⟩
    else if getByte l.src l.pos = 47 ∧ l.pos + 1 < l.src.length ∧
            getByte l.src (l.pos + 1) = 42 then
      next ⟨l.src, (skipBlock l.src (l.pos + 2) l.line (l.col + 2)).1,
            (skipBlock l.src (l.pos + 2) l.line (l.col + 2)).2.1,
            (skipBlock l.src (l.pos + 2) l.line (l.col + 2)).2.2⟩
    else tokenDispatch l
  else (⟨.EOF, [], l.pos, l.line, l.col⟩, l)
termination_by l.src.length - l.pos
decreasing_by
  · omega
  · have := carriageEnd_ge l.src l.pos; omega
  · have := skipSpaces_ge l.src (l.pos + 1) (l.col + 1); omega
  · have := skipLine_ge l.src (l.pos + 2) (l.col + 2); omega
  · have := skipLine_ge l.src (l.pos + 1) (l.col + 1); omega
  · have := skipBlock_ge l.src (l.pos + 2) l.line (l.col + 2); omega

/-- Facts about `tokenDispatch`: source preserved, the token starts exactly
at the entry position, the state advances strictly, and the token is never
the end-of-input token. -/
theorem tokenDispatch_fact (l : Lexer) (hlt : l.pos < l.src.length) :
    (tokenDispatch l).2.src = l.src ∧ (tokenDispatch l).1.pos = l.pos ∧
    l.pos + 1 ≤ (tokenDispatch l).2.pos ∧ (tokenDispatch l).1.type ≠ .EOF := by
  unfold tokenDispatch
  split_ifs with h1 h2 h3 h4 h5 h6 h7 h8 h9 h10
  · exact lexNumber_fact l l.pos l.line l.col hlt (by tauto)
  · have hf := lexQuoted_fact l l.pos l.line l.col 39 .STRING
    exact ⟨hf.1, hf.2.1, hf.2.2.1, by rw [hf.2.2.2]; decide⟩
  · have hf := lexQuoted_fact l l.pos l.line l.col 34 .DQUOTE
    exact ⟨hf.1, hf.2.1, hf.2.2.1, by rw [hf.2.2.2]; decide⟩
  · have hf := lexQuoted_fact l l.pos l.line l.col 96 .BACKTICK
    exact ⟨hf.1, hf.2.1, hf.2.2.1, by rw [hf.2.2.2]; decide⟩
  · have hf := lexHexLit_fact l l.pos l.line l.col
    exact ⟨hf.1, hf.2.1, hf.2.2.1, by rw [hf.2.2.2]; decide⟩
  · exact lexIdent_fact l l.pos l.line l.col
  · have hf := lexBitLit_fact l l.pos l.line l.col
    exact ⟨hf.1, hf.2.1, hf.2.2.1, by rw [hf.2.2.2]; decide⟩
  · exact lexIdent_fact l l.pos l.line l.col
  · have hf := lexHex0x_fact l l.pos l.line l.col
    exact ⟨hf.1, hf.2.1, hf.2.2.1, by rw [hf.2.2.2]; decide⟩
  · exact lexIdent_fact l l.pos l.line l.col
  · exact lexPunct_fact l l.pos l.line l.col

/-- Core structural facts about `Next`: the source is unchanged, the returned
token starts at or after the entry position, a token other than end-of-input
is followed by a state strictly past the token's start, and an end-of-input
token is only produced with the cursor at or past the end. -/
theorem next_fact (l : Lexer) :
    (next l).2.src = l.src ∧ l.pos ≤ (next l).1.pos ∧
    ((next l).1.type ≠ .EOF →
      l.pos < l.src.length ∧ (next l).1.pos < (next l).2.pos) ∧
    ((next l).1.type = .EOF → l.src.length ≤ (next l).2.pos) := by
  unfold next
  split
  case isTrue hlt =>
    split_ifs with h1 h2 h3 h4 h5 h6 h7
    · -- newline
      have ih := next_fact ⟨l.src, l.pos + 1, l.line + 1, 1⟩
      exact ⟨ih.1, by have := ih.2.1; simp at this ⊢; omega,
             fun hne => ⟨hlt, (ih.2.2.1 hne).2⟩, ih.2.2.2⟩
    · -- carriage return
      have hge := carriageEnd_ge l.src l.pos
      have ih := next_fact ⟨l.src, carriageEnd l.src l.pos, l.line + 1, 1⟩
      exact ⟨ih.1, by have := ih.2.1; simp at this ⊢; omega,
             fun hne => ⟨hlt, (ih.2.2.1 hne).2⟩, ih.2.2.2⟩
    · -- horizontal whitespace
      have hge := skipSpaces_ge l.src (l.pos + 1) (l.col + 1)
      have ih := next_fact ⟨l.src, (skipSpaces l.src (l.pos + 1) (l.col + 1)).1,
        l.line, (skipSpaces l.src (l.pos + 1) (l.col + 1)).2⟩
      exact ⟨ih.1, by have := ih.2.1; simp at this ⊢; omega,
             fun hne => ⟨hlt, (ih.2.2.1 hne).2⟩, ih.2.2.2⟩
    · -- line comment --
      have hge := skipLine_ge l.src (l.pos + 2) (l.col + 2)
      have ih := next_fact ⟨l.src, (skipLine l.src (l.pos + 2) (l.col + 2)).1,
        l.line, (skipLine l.src (l.pos + 2) (l.col + 2)).2⟩
      exact ⟨ih.1, by have := ih.2.1; simp at this ⊢; omega,
             fun hne => ⟨hlt, (ih.2.2.1 hne).2⟩, ih.2.2.2⟩
    · -- #> JSON operator
      have hf := lexPunct_fact l l.pos l.line l.col
      exact ⟨hf.1, by rw [hf.2.1], fun _ => ⟨hlt, by rw [hf.2.1]; exact hf.2.2.1⟩,
             fun he => absurd he hf.2.2.2⟩
    · -- # comment
      have hge := skipLine_ge l.src (l.pos + 1) (l.col + 1)
      have ih := next_fact ⟨l.src, (skipLine l.src (l.pos + 1) (l.col + 1)).1,
        l.line, (skipLine l.src (l.pos + 1) (l.col + 1)).2⟩
      exact ⟨ih.1, by have := ih.2.1; simp at this ⊢; omega,
             fun hne => ⟨hlt, (ih.2.2.1 hne).2⟩, ih.2.2.2⟩
    · -- block comment
      have hge := skipBlock_ge l.src (l.pos + 2) l.line (l.col + 2)
      have ih := next_fact ⟨l.src, (skipBlock l.src (l.pos + 2) l.line (l.col + 2)).1,
        (skipBlock l.src (l.pos + 2) l.line (l.col + 2)).2.1,
        (skipBlock l.src (l.pos + 2) l.line (l.col + 2)).2.2⟩
      exact ⟨ih.1, by have := ih.2.1; simp at this ⊢; omega,
             fun hne => ⟨hlt, (ih.2.2.1 hne).2⟩, ih.2.2.2⟩
    · -- significant byte
      have hf := tokenDispatch_fact l hlt
      exact ⟨hf.1, by rw [hf.2.1], fun _ => ⟨hlt, by rw [hf.2.1]; exact hf.2.2.1⟩,
             fun he => absurd he hf.2.2.2⟩
  case isFalse hge =>
    exact ⟨rfl, Nat.le_refl _, fun hne => absurd rfl hne, fun _ => by simp; omega⟩
termination_by l.src.length - l.pos
decreasing_by
  · omega
  · have := carriageEnd_ge l.src l.pos; omega
  · have := skipSpaces_ge l.src (l.pos + 1) (l.col + 1); omega
  · have := skipLine_ge l.src (l.pos + 2) (l.col + 2); omega
  · have := skipLine_ge l.src (l.pos + 1) (l.col + 1); omega
  · have := skipBlock_ge l.src (l.pos + 2) l.line (l.col + 2); omega

/-- With the cursor at or past the end, `Next` returns an end-of-input token
and leaves the state untouched. -/
theorem next_at_end (l : Lexer) (h : l.src.length ≤ l.pos) :
    next l = (⟨.EOF, [], l.pos, l.line, l.col⟩, l) := by
  unfold next
  rw [dif_neg (by omega)]

/-- `Tokenize`'s collection loop: pull tokens until (and including) the first
end-of-input token. -/
def tokenize (l : Lexer) : List Token :=
  if h : (next l).1.type = .EOF then [(next l).1]
  else (next l).1 :: tokenize (next l).2
termination_by l.src.length - l.pos
decreasing_by
  have hf := next_fact l
  have h1 := hf.2.2.1 h
  have h2 := hf.2.1
  rw [hf.1]
  omega

/-- `lexer.Tokenize`: lex all tokens from a fresh lexer. -/
def Tokenize (src : List Nat) : List Token := tokenize (Lexer.new src)

/-- Streamed token positions are strictly increasing together with a lower
bound by the entry cursor (auxiliary induction for the monotonicity claim). -/
theorem tokenize_chain (l : Lexer) :
    List.Chain' (fun a b => a.pos < b.pos) (tokenize l) ∧
    ∀ t ∈ tokenize l, l.pos ≤ t.pos := by
  unfold tokenize
  split
  case isTrue h =>
    refine ⟨List.chain'_singleton _, ?_⟩
    intro t ht
    simp at ht
    subst ht
    exact (next_fact l).2.1
  case isFalse h =>
    have ih := tokenize_chain (next l).2
    have hf := next_fact l
    have hadv := hf.2.2.1 h
    refine ⟨?_, ?_⟩
    · rw [List.chain'_cons']
      refine ⟨?_, ih.1⟩
      intro y hy
      have hmem : y ∈ tokenize (next l).2 := List.mem_of_mem_head? hy
      have := ih.2 y hmem
      omega
    · intro t ht
      rcases List.mem_cons.mp ht with rfl | hmem
      · exact hf.2.1
      · have := ih.2 t hmem
        have := hf.2.1
        omega
termination_by l.src.length - l.pos
decreasing_by
  have hf := next_fact l
  have h1 := hf.2.2.1 (by assumption)
  have h2 := hf.2.1
  rw [hf.1]
  omega

/-- c8: in the token slice returned by `Tokenize` (the stream produced by
repeatedly calling `Next`, up to and including the first end-of-input token),
any two successive tokens have strictly increasing byte offsets. -/
theorem c8_position_monotonicity (src : List Nat) :
    List.Chain' (fun a b => a.pos < b.pos) (Tokenize src) :=
  (tokenize_chain (Lexer.new src)).1

/-- Iterated lexer stepping (`k` further calls to `Next`, keeping the state). -/
def iterNext : Nat → Lexer → Lexer
  | 0, l => l
  | k + 1, l => iterNext k (next l).2

theorem iterNext_at_end (k : Nat) (l : Lexer) (h : l.src.length ≤ l.pos) :
    iterNext k l = l := by
  induction k with
  | zero => rfl
  | succ k ih =>
    show iterNext k (next l).2 = l
    rw [next_at_end l h]
    exact ih

/-- c9: once `Next` has returned an end-of-input token, every subsequent call
(of any number of further `Next` steps) returns an end-of-input token again. -/
theorem c9_eof_idempotent (l : Lexer) (k : Nat)
    (h : (next l).1.type = .EOF) :
    (next (iterNext k (next l).2)).1.type = .EOF := by
  have hend : (next l).2.src.length ≤ (next l).2.pos := by
    have := (next_fact l).2.2.2 h
    rw [(next_fact l).1]
    exact this
  rw [iterNext_at_end k (next l).2 hend, next_at_end (next l).2 hend]

/-- c9 witness: on the source `";"`, the second call to `Next` returns the
end-of-input token, and so do the third and later calls. -/
theorem c9_eof_idempotent_witness :
    (next (next (Lexer.new (strBytes ";"))).2).1.type = .EOF ∧
    (next (iterNext 2 (next (next (Lexer.new (strBytes ";"))).2).2)).1.type = .EOF := by
  have h : (next (next (Lexer.new (strBytes ";"))).2).1.type = .EOF := by
    simp +decide [Lexer.new, next, tokenDispatch, strBytes, getByte, punctCore,
      punctCoreA2, punctCoreB, punctCoreC, lexPunct, sub, isDigitB, isAlphaB,
      isSpaceB]
  exact ⟨h, c9_eof_idempotent _ 2 h⟩

/-- c1: lexing the source `0xFF`.  The numeric-literal case of `Next` fires
before the dedicated `0x` case (which is dead code), so the code produces an
integer token `0` followed by an identifier token `xFF` — not one HEXLIT
token as the specification states. -/
theorem c1_hex0x_code_behavior :
    Tokenize (strBytes "0xFF") =
      [⟨.INT, strBytes "0", 0, 1, 1⟩,
       ⟨.IDENT, strBytes "xFF", 1, 1, 2⟩,
       ⟨.EOF, [], 4, 1, 5⟩] := by
  simp +decide [Tokenize, tokenize, next, tokenDispatch, Lexer.new, lexNumber,
    numberCore, numberFrac, numberExp, digitRun, identRun, lexIdent,
    lookupKeyword, keywordWords, keywordWords1, keywordWords2, keywordWords3,
    keywordWords4, keywordWords5, keywordWords6, strBytes, getByte, sub,
    toLowerBytes, lowerByte, isDigitB, isAlphaB, isSpaceB, isIdentContB]

/-- c2: lexing the source `/*a`, an unterminated block comment.  The comment
loop guard `l.pos+1 < len(l.src)` stops one byte short of the end, so the
final byte `a` is re-lexed as its own identifier token; the first token after
the comment opener is not the end-of-input token as the specification
states. -/
theorem c2_unterminated_block_comment_code_behavior :
    Tokenize (strBytes "/*a") =
      [⟨.IDENT, strBytes "a", 2, 1, 3⟩,
       ⟨.EOF, [], 3, 1, 4⟩] := by
  simp +decide [Tokenize, tokenize, next, tokenDispatch, Lexer.new, skipBlock,
    identRun, lexIdent, lookupKeyword, keywordWords, keywordWords1,
    keywordWords2, keywordWords3, keywordWords4, keywordWords5, keywordWords6,
    strBytes, getByte, sub, toLowerBytes, lowerByte, isDigitB, isAlphaB,
    isSpaceB, isIdentContB]

-- ---- arena allocator (`arena.go`) ----

/-- `initialSlabSize = 8 * 1024`. -/
def initialSlabSize : Nat := 8 * 1024

/-- `growFactor = 2`. -/
def growFactor : Nat := 2

/-- Observable state of the monotonic bump allocator `arena`: the sizes of
all slabs in allocation order, the size of the current slab (`len(a.cur)`)
and the bump offset into it.  The byte contents are irrelevant to the
allocation-size claims. -/
structure Arena where
  slabs : List Nat
  cur : Nat
  off : Nat
  deriving DecidableEq

/-- Go's `(n + 7) &^ 7`: round up to 8-byte alignment. -/
def alignUp8 (n : Nat) : Nat := (n + 7) - (n + 7) % 8

/-- `arena.alloc`: round the request up to 8-byte alignment; if it does not
fit in the current slab, allocate a new slab of size
`len(a.cur)*growFactor`, bumped to `n + initialSlabSize` when that doubled
size is below `n+8`, and make it current; then bump the offset. -/
def Arena.alloc (a : Arena) (n : Nat) : Arena :=
  if a.cur < a.off + alignUp8 n then
    { slabs := a.slabs ++ [if a.cur * growFactor < alignUp8 n + 8
                           then alignUp8 n + initialSlabSize
                           else a.cur * growFactor],
      cur := if a.cur * growFactor < alignUp8 n + 8
             then alignUp8 n + initialSlabSize
             else a.cur * growFactor,
      off := alignUp8 n }
  else { a with off := a.off + alignUp8 n }

/-- c3 counterexample: the very first allocation from a fresh arena (as
created by `parser.New`; `arena.init` is never called, so the first slab is
allocated by `alloc` itself).  A request of 1 byte aligns to 8 and yields a
slab of `8 + 8192 = 8200` bytes, whereas the claimed formula
`max(n + 8, 2 × current slab, 8 KiB)` gives `8192` — under both the
aligned-`n` and the raw-`n` reading. -/
theorem c3_alloc_size_counterexample :
    (Arena.alloc ⟨[], 0, 0⟩ 1).cur = 8200 ∧
    max (alignUp8 1 + 8) (max (growFactor * 0) initialSlabSize) = 8192 ∧
    max (1 + 8) (max (growFactor * 0) initialSlabSize) = 8192 ∧
    (8200 : Nat) ≠ 8192 := by
  decide

/-- c3 (amended): when the aligned request does not fit in the current slab,
`alloc` allocates a new slab whose size is twice the current slab size if
that is at least `n + 8` (for the aligned `n`), and `n + 8 KiB` otherwise;
the new slab is appended and becomes current with the request bumped from
offset 0.  The alignment rounds up to the next multiple of 8. -/
theorem c3_alloc_new_slab (a : Arena) (n : Nat)
    (h : a.cur < a.off + alignUp8 n) :
    (a.alloc n).cur = (if a.cur * growFactor < alignUp8 n + 8
                       then alignUp8 n + initialSlabSize
                       else a.cur * growFactor) ∧
    (a.alloc n).slabs = a.slabs ++ [(a.alloc n).cur] ∧
    (a.alloc n).off = alignUp8 n ∧
    alignUp8 n % 8 = 0 ∧ n ≤ alignUp8 n ∧ alignUp8 n < n + 8 := by
  unfold Arena.alloc
  rw [if_pos h]
  refine ⟨rfl, ?_, rfl, ?_, ?_, ?_⟩
  · simp
  all_goals unfold alignUp8
  all_goals omega

/-- c3 witness: a nearly-full 8 KiB slab and a 4-byte request exercise the
amended statement; the new slab doubles to 16 KiB. -/
theorem c3_alloc_new_slab_witness :
    (8192 : Nat) < 8190 + alignUp8 4 ∧
    (Arena.alloc ⟨[8192], 8192, 8190⟩ 4).cur = 16384 ∧
    (Arena.alloc ⟨[8192], 8192, 8190⟩ 4).slabs = [8192, 16384] := by
  refine ⟨by decide, ?_, ?_⟩
  · have h := c3_alloc_new_slab ⟨[8192], 8192, 8190⟩ 4 (by decide)
    rw [h.1]
    decide
  · have h := c3_alloc_new_slab ⟨[8192], 8192, 8190⟩ 4 (by decide)
    rw [h.2.1, h.1]
    decide

/-! ## AST (`ast/ast.go`)

Go AST nodes become Lean inductives/structures.  Pointer-valued fields that Go
nil-checks (directly or through the `renderIdent`/`renderQualifiedIdent`
helpers, which map nil to an empty rendering) become `Option`; pointer fields
that the code dereferences unconditionally (so a nil would be a Go panic, not
an observable behaviour) are non-optional.  Byte-slice fields are `List Nat`,
`int32` positions are `Nat`.  Fields named `With`/`Where`/`From`/`Set`/`Alias`
collide with Lean keywords or common commands and are renamed (`withC`,
`whereC`, `fromRefs`, `setCl`, `aliasName`); `Not` becomes `isNot`.
`*ast.Literal` fields (`ShowStmt.Like`, `ColumnDef.Comment`) are modelled as
`Option Expr` holding a `.litE` node, since the renderer feeds them to
`renderExpr`. -/

/-- Go `ast.JoinKind` (`InnerJoin = iota; Left; Right; Full; Cross; Natural`). -/
inductive JoinKind where
  | innerJoin
  | leftJoin
  | rightJoin
  | fullJoin
  | crossJoin
  | naturalJoin
  deriving DecidableEq

/-- Go `ast.SetOp` (`Union = iota; Intersect; Except`). -/
inductive SetOp where
  | unionOp
  | intersectOp
  | exceptOp
  deriving DecidableEq

/-- Go `ast.ConstraintType` (`PrimaryKeyConstraint = iota; ...`). -/
inductive ConstraintType where
  | primaryKeyConstraint
  | uniqueConstraint
  | indexConstraint
  | foreignKeyConstraint
  | checkConstraint
  | fulltextConstraint
  | spatialConstraint
  deriving DecidableEq

/-- Go `ast.RefAction` (`NoAction = iota; Restrict; Cascade; SetNull; SetDefault`). -/
inductive RefAction where
  | noAction
  | restrict
  | cascade
  | setNull
  | setDefault
  deriving DecidableEq

/-- Go `ast.Ident`: raw bytes (with quotes), resolved name, position. -/
structure Ident where
  raw : List Nat
  unquoted : List Nat
  tokPos : Nat

/-- Go `ast.QualifiedIdent`: dotted name. -/
structure QualifiedIdent where
  parts : List Ident

/-- Go `ast.DataType`. -/
structure DataType where
  name : List Nat
  precision : Nat
  scale : Nat
  unsigned : Bool
  zerofill : Bool
  charset : List Nat
  collation : List Nat
  enumVals : List (List Nat)
  tokPos : Nat

/-- Go `ast.TableOption` (`Key`, `Value []byte`; a nil value is `[]`). -/
structure TableOption where
  key : List Nat
  value : List Nat

/-- Go `ast.IndexColDef` (`Length *int` becomes `Option Nat`). -/
structure IndexColDef where
  name : Option Ident
  length : Option Nat
  desc : Bool

/-- Go `ast.ForeignKeyRef`. -/
structure ForeignKeyRef where
  table : Option QualifiedIdent
  columns : List Ident
  onDelete : RefAction
  onUpdate : RefAction

mutual

/-- Go `ast.Expr` interface: one constructor per implementing node type
(`Ident`, `QualifiedIdent`, `StarExpr`, `Literal`, `NullLit`, `Param`,
`BinaryExpr`, `UnaryExpr`, `FuncCall`, `CaseExpr`, `BetweenExpr`, `InExpr`,
`LikeExpr`, `IsNullExpr`, `ExistsExpr`, `SubqueryExpr`, `CastExpr`,
`IntervalExpr`, and `SelectStmt`, which also implements `exprNode`). -/
inductive Expr where
  | identE (id : Ident)
  | qualifiedE (q : QualifiedIdent)
  | starE (tokPos : Nat)
  | litE (raw : List Nat) (kind : TokenType) (tokPos : Nat)
  | nullE (tokPos : Nat)
  | paramE (raw : List Nat) (tokPos : Nat)
  | binaryE (left : Expr) (right : Expr) (op : TokenType) (tokPos : Nat)
  | unaryE (e : Expr) (op : TokenType) (tokPos : Nat)
  | funcE (name : Option QualifiedIdent) (args : List Expr) (distinct : Bool)
      (star : Bool) (tokPos : Nat)
  | caseE (operand : Option Expr) (whens : List WhenClause) (elseE : Option Expr)
      (tokPos : Nat)
  | betweenE (e : Expr) (lo : Expr) (hi : Expr) (isNot : Bool) (tokPos : Nat)
  | inE (e : Expr) (list : List Expr) (subq : Option SelectStmt) (isNot : Bool)
      (tokPos : Nat)
  | likeE (e : Expr) (pat : Expr) (escape : Option Expr) (isNot : Bool)
      (tokPos : Nat)
  | isNullE (e : Expr) (isNot : Bool) (tokPos : Nat)
  | existsE (subq : SelectStmt) (isNot : Bool) (tokPos : Nat)
  | subqueryE (subq : SelectStmt) (tokPos : Nat)
  | castE (e : Expr) (type : DataType) (tokPos : Nat)
  | intervalE (e : Expr) (unit : List Nat) (tokPos : Nat)
  | selectE (s : SelectStmt)

/-- Go `ast.WhenClause`. -/
inductive WhenClause where
  | mk (cond : Expr) (result : Expr)

/-- Go `ast.SelectStmt` (fields in source order). -/
inductive SelectStmt where
  | mk (withC : Option WithClause) (distinct : Bool) (columns : List SelectColumn)
      (fromRefs : List TableRef) (whereC : Option Expr) (groupBy : List Expr)
      (having : Option Expr) (orderBy : List OrderByItem)
      (limit : Option LimitClause) (setOp : Option SetOperation) (tokPos : Nat)

/-- Go `ast.WithClause`. -/
inductive WithClause where
  | mk (recursive : Bool) (ctes : List CTE)

/-- Go `ast.CTE` (`Subq` is dereferenced unconditionally by the renderer). -/
inductive CTE where
  | mk (name : Option Ident) (columns : List Ident) (subq : SelectStmt)

/-- Go `ast.SelectColumn` (`Expr` is always set by the parser and dereferenced
by the renderer when `Star` is unset). -/
inductive SelectColumn where
  | mk (expr : Expr) (aliasName : Option Ident) (star : Bool)

/-- Go `ast.OrderByItem` (`NullsFirst *bool` becomes `Option Bool`). -/
inductive OrderByItem where
  | mk (expr : Expr) (desc : Bool) (nullsFirst : Option Bool)

/-- Go `ast.LimitClause` (both fields are nilable `Expr` interfaces). -/
inductive LimitClause where
  | mk (count : Option Expr) (offset : Option Expr)

/-- Go `ast.SetOperation`. -/
inductive SetOperation where
  | mk (op : SetOp) (all : Bool) (right : SelectStmt)

/-- Go `ast.TableRef` interface: `SimpleTable`, `SubqueryTable`, `JoinTable`. -/
inductive TableRef where
  | simpleT (name : Option QualifiedIdent) (aliasName : Option Ident)
  | subqueryT (subq : SelectStmt) (aliasName : Option Ident) (tokPos : Nat)
  | joinT (left : TableRef) (right : TableRef) (kind : JoinKind)
      (onC : Option Expr) (usingC : List Ident) (tokPos : Nat)

end

/-- Field projection for the single-constructor inductive `WhenClause`. -/
def WhenClause.cond : WhenClause → Expr
  | .mk c _ => c

/-- Field projection for `WhenClause`. -/
def WhenClause.result : WhenClause → Expr
  | .mk _ r => r

/-- Field projection for `SelectStmt`. -/
def SelectStmt.withC : SelectStmt → Option WithClause
  | .mk w _ _ _ _ _ _ _ _ _ _ => w

/-- Field projection for `SelectStmt`. -/
def SelectStmt.distinct : SelectStmt → Bool
  | .mk _ d _ _ _ _ _ _ _ _ _ => d

/-- Field projection for `SelectStmt`. -/
def SelectStmt.columns : SelectStmt → List SelectColumn
  | .mk _ _ c _ _ _ _ _ _ _ _ => c

/-- Field projection for `SelectStmt`. -/
def SelectStmt.fromRefs : SelectStmt → List TableRef
  | .mk _ _ _ f _ _ _ _ _ _ _ => f

/-- Field projection for `SelectStmt`. -/
def SelectStmt.whereC : SelectStmt → Option Expr
  | .mk _ _ _ _ w _ _ _ _ _ _ => w

/-- Field projection for `SelectStmt`. -/
def SelectStmt.groupBy : SelectStmt → List Expr
  | .mk _ _ _ _ _ g _ _ _ _ _ => g

/-- Field projection for `SelectStmt`. -/
def SelectStmt.having : SelectStmt → Option Expr
  | .mk _ _ _ _ _ _ h _ _ _ _ => h

/-- Field projection for `SelectStmt`. -/
def SelectStmt.orderBy : SelectStmt → List OrderByItem
  | .mk _ _ _ _ _ _ _ o _ _ _ => o

/-- Field projection for `SelectStmt`. -/
def SelectStmt.limit : SelectStmt → Option LimitClause
  | .mk _ _ _ _ _ _ _ _ l _ _ => l

/-- Field projection for `SelectStmt`. -/
def SelectStmt.setOp : SelectStmt → Option SetOperation
  | .mk _ _ _ _ _ _ _ _ _ s _ => s

/-- Field projection for `SelectStmt`. -/
def SelectStmt.tokPos : SelectStmt → Nat
  | .mk _ _ _ _ _ _ _ _ _ _ p => p

/-- Functional update of `SelectStmt.withC` (Go `stmt.With = with`). -/
def SelectStmt.setWith : SelectStmt → Option WithClause → SelectStmt
  | .mk _ d c f wh g h o l s p, w => .mk w d c f wh g h o l s p

/-- Field projection for `WithClause`. -/
def WithClause.recursive : WithClause → Bool
  | .mk r _ => r

/-- Field projection for `WithClause`. -/
def WithClause.ctes : WithClause → List CTE
  | .mk _ c => c

/-- Field projection for `CTE`. -/
def CTE.name : CTE → Option Ident
  | .mk n _ _ => n

/-- Field projection for `CTE`. -/
def CTE.columns : CTE → List Ident
  | .mk _ c _ => c

/-- Field projection for `CTE`. -/
def CTE.subq : CTE → SelectStmt
  | .mk _ _ s => s

/-- Field projection for `SelectColumn`. -/
def SelectColumn.expr : SelectColumn → Expr
  | .mk e _ _ => e

/-- Field projection for `SelectColumn`. -/
def SelectColumn.aliasName : SelectColumn → Option Ident
  | .mk _ a _ => a

/-- Field projection for `SelectColumn`. -/
def SelectColumn.star : SelectColumn → Bool
  | .mk _ _ s => s

/-- Field projection for `OrderByItem`. -/
def OrderByItem.expr : OrderByItem → Expr
  | .mk e _ _ => e

/-- Field projection for `OrderByItem`. -/
def OrderByItem.desc : OrderByItem → Bool
  | .mk _ d _ => d

/-- Field projection for `LimitClause`. -/
def LimitClause.count : LimitClause → Option Expr
  | .mk c _ => c

/-- Field projection for `LimitClause`. -/
def LimitClause.offset : LimitClause → Option Expr
  | .mk _ o => o

/-- Field projection for `SetOperation`. -/
def SetOperation.op : SetOperation → SetOp
  | .mk o _ _ => o

/-- Field projection for `SetOperation`. -/
def SetOperation.all : SetOperation → Bool
  | .mk _ a _ => a

/-- Field projection for `SetOperation`. -/
def SetOperation.right : SetOperation → SelectStmt
  | .mk _ _ r => r

/-- Go `ast.Assignment`. -/
structure Assignment where
  column : Option Ident
  value : Expr

/-- Go `ast.InsertStmt` (fields in source order). -/
structure InsertStmt where
  withC : Option WithClause := none
  table : Option QualifiedIdent := none
  columns : List Ident := []
  values : List (List Expr) := []
  selectC : Option SelectStmt := none
  onDupKey : List Assignment := []
  onConflictTarget : List Ident := []
  onConflictDoNothing : Bool := false
  onConflictUpdate : List Assignment := []
  ignore : Bool := false
  replace : Bool := false
  tokPos : Nat := 0

/-- Go `ast.UpdateStmt`. -/
structure UpdateStmt where
  withC : Option WithClause := none
  tables : List TableRef := []
  setCl : List Assignment := []
  whereC : Option Expr := none
  order : List OrderByItem := []
  limit : Option LimitClause := none
  tokPos : Nat := 0

/-- Go `ast.DeleteStmt`. -/
structure DeleteStmt where
  withC : Option WithClause := none
  tables : List QualifiedIdent := []
  fromRefs : List TableRef := []
  whereC : Option Expr := none
  order : List OrderByItem := []
  limit : Option LimitClause := none
  tokPos : Nat := 0

/-- Go `ast.GeneratedCol`. -/
structure GeneratedCol where
  expr : Expr
  stored : Bool

/-- Go `ast.ColumnDef`. -/
structure ColumnDef where
  name : Option Ident := none
  type : Option DataType := none
  notNull : Bool := false
  defaultE : Option Expr := none
  autoIncrement : Bool := false
  primaryKey : Bool := false
  unique : Bool := false
  comment : Option Expr := none
  references : Option ForeignKeyRef := none
  check : Option Expr := none
  generated : Option GeneratedCol := none
  onUpdate : Option Expr := none
  tokPos : Nat := 0

/-- Go `ast.TableConstraint`. -/
structure TableConstraint where
  name : Option Ident := none
  type : ConstraintType := .primaryKeyConstraint
  columns : List IndexColDef := []
  refTable : Option QualifiedIdent := none
  refCols : List Ident := []
  onDelete : RefAction := .noAction
  onUpdate : RefAction := .noAction
  check : Option Expr := none
  indexType : List Nat := []
  tokPos : Nat := 0

/-- Go `ast.CreateTableStmt`. -/
structure CreateTableStmt where
  table : Option QualifiedIdent := none
  temporary : Bool := false
  ifNotExists : Bool := false
  columns : List ColumnDef := []
  constraints : List TableConstraint := []
  options : List TableOption := []
  selectC : Option SelectStmt := none
  like : Option QualifiedIdent := none
  tokPos : Nat := 0

/-- Go `ast.AlterCmd` interface: `AddColumnCmd`, `DropColumnCmd`,
`ModifyColumnCmd`, `AddConstraintCmd`, `DropIndexCmd`, `RenameTableCmd`. -/
inductive AlterCmd where
  | addColumnC (col : ColumnDef) (first : Bool) (after : Option Ident) (tokPos : Nat)
  | dropColumnC (name : Option Ident) (tokPos : Nat)
  | modifyColumnC (col : ColumnDef) (first : Bool) (after : Option Ident) (tokPos : Nat)
  | addConstraintC (constraint : TableConstraint) (tokPos : Nat)
  | dropIndexC (name : Option Ident) (tokPos : Nat)
  | renameTableC (newName : Option QualifiedIdent) (tokPos : Nat)

/-- Go `ast.AlterTableStmt`. -/
structure AlterTableStmt where
  table : Option QualifiedIdent := none
  cmds : List AlterCmd := []
  tokPos : Nat := 0

/-- Go `ast.CreateIndexStmt`. -/
structure CreateIndexStmt where
  name : Option Ident := none
  table : Option QualifiedIdent := none
  columns : List IndexColDef := []
  type : ConstraintType := .primaryKeyConstraint
  indexAlg : List Nat := []
  tokPos : Nat := 0

/-- Go `ast.DropTableStmt`. -/
structure DropTableStmt where
  tables : List QualifiedIdent := []
  ifExists : Bool := false
  cascade : Bool := false
  tokPos : Nat := 0

/-- Go `ast.DropIndexStmt`. -/
structure DropIndexStmt where
  name : Option Ident := none
  table : Option QualifiedIdent := none
  ifExists : Bool := false
  tokPos : Nat := 0

/-- Go `ast.CreateViewStmt` (`Select` is dereferenced unconditionally). -/
structure CreateViewStmt where
  name : Option QualifiedIdent := none
  columns : List Ident := []
  selectC : SelectStmt
  orReplace : Bool := false
  tokPos : Nat := 0

/-- Go `ast.CreateDatabaseStmt`. -/
structure CreateDatabaseStmt where
  name : Option Ident := none
  ifNotExists : Bool := false
  options : List TableOption := []
  tokPos : Nat := 0

/-- Go `ast.AlterDatabaseStmt`. -/
structure AlterDatabaseStmt where
  name : Option Ident := none
  options : List TableOption := []
  tokPos : Nat := 0

/-- Go `ast.DropDatabaseStmt`. -/
structure DropDatabaseStmt where
  name : Option Ident := none
  ifExists : Bool := false
  tokPos : Nat := 0

/-- Go `ast.TruncateStmt`. -/
structure TruncateStmt where
  table : Option QualifiedIdent := none
  tokPos : Nat := 0

/-- Go `ast.UseStmt`. -/
structure UseStmt where
  database : Option Ident := none
  tokPos : Nat := 0

/-- Go `ast.ShowStmt` (`Like *ast.Literal` is modelled as an optional `.litE`). -/
structure ShowStmt where
  what : List Nat := []
  like : Option Expr := none
  whereC : Option Expr := none
  tokPos : Nat := 0

/-- Go `ast.CallStmt`. -/
structure CallStmt where
  name : Option QualifiedIdent := none
  args : List Expr := []
  tokPos : Nat := 0

/-- Go `ast.TransactionStmt`. -/
structure TransactionStmt where
  action : List Nat := []
  savepoint : Option Ident := none
  options : List (List Nat) := []
  tokPos : Nat := 0

/-- Go `ast.GenericDDLStmt`. -/
structure GenericDDLStmt where
  verb : List Nat := []
  object : List Nat := []
  name : Option Ident := none
  tokPos : Nat := 0

/-- Go `ast.Statement` interface: one constructor per implementing node type.
`ExplainStmt` holds a nested `Statement`, making the type recursive. -/
inductive Statement where
  | selectS (s : SelectStmt)
  | insertS (s : InsertStmt)
  | updateS (s : UpdateStmt)
  | deleteS (s : DeleteStmt)
  | createTableS (s : CreateTableStmt)
  | alterTableS (s : AlterTableStmt)
  | createIndexS (s : CreateIndexStmt)
  | dropTableS (s : DropTableStmt)
  | dropIndexS (s : DropIndexStmt)
  | createViewS (s : CreateViewStmt)
  | createDatabaseS (s : CreateDatabaseStmt)
  | alterDatabaseS (s : AlterDatabaseStmt)
  | dropDatabaseS (s : DropDatabaseStmt)
  | truncateS (s : TruncateStmt)
  | useS (s : UseStmt)
  | showS (s : ShowStmt)
  | explainS (stmt : Statement) (tokPos : Nat)
  | callS (s : CallStmt)
  | transactionS (s : TransactionStmt)
  | genericDDLS (s : GenericDDLStmt)

/-- Go `parseSelect`'s set-operation attachment: `cur := stmt; for cur.SetOp !=
nil { cur = cur.SetOp.Right }; cur.SetOp = &SetOperation{...}` walks to the end
of the set-op chain and attaches there.  The pointer walk becomes a functional
rebuild of the chain. -/
def SelectStmt.attachSetOp (s : SelectStmt) (newOp : SetOperation) : SelectStmt :=
  match s with
  | .mk w d c f wh g h o l so p =>
    match so with
    | none => .mk w d c f wh g h o l (some newOp) p
    | some (.mk op all right) =>
      .mk w d c f wh g h o l (some (.mk op all (right.attachSetOp newOp))) p

/-! ## Parser embedding (`parser/parser.go`)

The Go `Parser` struct holds a lexer, the current token, and a one-token
lookahead (`peek`/`hasPeek`); this is `PState` (with `hasPeek` folded into
`Option`).  Parser methods returning `(T, error)` become `PM T`, a state-and-
error monad.  Go's unbounded recursion is bounded by an explicit `fuel`
parameter, decremented at every call between the recursive parser functions;
running out of fuel yields the distinguished failure `PFail.fuelOut`, which
the Go code cannot produce (for every input, a large enough fuel avoids it).
`errorf` keeps the Go format string as the message and does not interpolate
the arguments (no claim depends on message text).  The arena only provides
node memory in Go, so it does not appear in the parse state. -/

/-- Go `parser.ParseError` (message, position, line, column). -/
structure ParseError where
  msg : List Nat
  pos : Nat
  line : Nat
  col : Nat
  deriving DecidableEq

/-- A parse outcome failure: a real `ParseError`, or the embedding's
fuel-exhaustion marker (not a Go behaviour). -/
inductive PFail where
  | fuelOut
  | err (e : ParseError)
  deriving DecidableEq

/-- Go `parser.Parser`'s token state: `lex`, `tok`, and `peek`/`hasPeek`. -/
structure PState where
  lex : Lexer
  tok : Token
  peek : Option Token
  deriving DecidableEq

/-- The parser monad: state `PState`, failure `PFail`. -/
def PM (α : Type) : Type := PState → Except PFail (α × PState)

/-- `pure` of `PM`. -/
def pmPure {α : Type} (a : α) : PM α := fun s => .ok (a, s)

/-- `bind` of `PM`: propagate failure, thread the state. -/
def pmBind {α β : Type} (m : PM α) (f : α → PM β) : PM β := fun s =>
  match m s with
  | .error e => .error e
  | .ok (a, s1) => f a s1

instance : Monad PM where
  pure := pmPure
  bind := pmBind

theorem pm_pure_apply {α : Type} (a : α) (s : PState) :
    (pure a : PM α) s = .ok (a, s) := rfl

theorem pm_bind_apply {α β : Type} (m : PM α) (f : α → PM β) (s : PState) :
    (m >>= f) s =
      match m s with
      | .error e => .error e
      | .ok (a, s1) => f a s1 := rfl

/-- Inversion of a successful `PM` bind: the first action succeeded and the
continuation ran from its state. -/
theorem pm_bind_ok {α β : Type} {m : PM α} {k : α → PM β} {s s' : PState} {b : β}
    (h : (m >>= k) s = .ok (b, s')) :
    ∃ a sm, m s = .ok (a, sm) ∧ k a sm = .ok (b, s') := by
  rw [pm_bind_apply] at h
  cases hm : m s with
  | error e => rw [hm] at h; exact absurd h (by simp)
  | ok p =>
    obtain ⟨a1, s1⟩ := p
    rw [hm] at h
    exact ⟨a1, s1, rfl, h⟩

/-- Read the parser state. -/
def getP : PM PState := fun s => .ok (s, s)

/-- Go `Parser.advance`: return the current token; pull the next one from the
peek slot if filled, else from the lexer. -/
def advance : PM Token := fun s =>
  match s.peek with
  | some pk => .ok (s.tok, ⟨s.lex, pk, none⟩)
  | none => .ok (s.tok, ⟨(next s.lex).2, (next s.lex).1, none⟩)

/-- Go `Parser.peekToken`: fill (if needed) and return the peek slot. -/
def peekToken : PM Token := fun s =>
  match s.peek with
  | some pk => .ok (pk, s)
  | none => .ok ((next s.lex).1, ⟨(next s.lex).2, s.tok, some (next s.lex).1⟩)

/-- Go `Parser.errorf`: a `ParseError` at the current token.  The format
string is kept verbatim; arguments are not interpolated. -/
def errorf {α : Type} (msg : String) : PM α := fun s =>
  .error (.err ⟨strBytes msg, s.tok.pos, s.tok.line, s.tok.col⟩)

/-- Go `Parser.eat`. -/
def eat (typ : TokenType) : PM Token := do
  let s ← getP
  if s.tok.type = typ then advance
  else errorf "expected %s, got %s (%q)"

/-- Go `Parser.eatKeyword`. -/
def eatKeyword (kw : TokenType) : PM Unit := do
  let s ← getP
  if s.tok.type = kw then do
    let _ ← advance
    pure ()
  else errorf "expected keyword %s, got %q"

/-- Go `Parser.tryEat`. -/
def tryEat (typ : TokenType) : PM Bool := do
  let s ← getP
  if s.tok.type = typ then do
    let _ ← advance
    pure true
  else pure false

/-- Go `Parser.tryEatKeyword` (same body as `tryEat`). -/
def tryEatKeyword (kw : TokenType) : PM Bool := do
  let s ← getP
  if s.tok.type = kw then do
    let _ ← advance
    pure true
  else pure false

/-- Go `parser.hasUpperASCII`. -/
def hasUpperASCII (raw : List Nat) : Bool :=
  raw.any (fun c => decide (65 ≤ c ∧ c ≤ 90))

/-- Go `parser.lowerASCIIStringArena` (the arena only supplies scratch
memory): lowercase ASCII letters, other bytes unchanged. -/
def lowerASCIIString (raw : List Nat) : List Nat :=
  if raw.length = 0 then []
  else if hasUpperASCII raw then
    raw.map (fun c => if 65 ≤ c ∧ c ≤ 90 then c + 32 else c)
  else raw

/-- Go `parser.unquoteIdentArena`: strip matching backtick or double-quote
delimiters, otherwise lowercase. -/
def unquoteIdent (raw : List Nat) : List Nat :=
  if raw.length < 2 then lowerASCIIString raw
  else if (raw.headD 0 = 96 ∨ raw.headD 0 = 34) ∧ raw.getLast? = some (raw.headD 0) then
    (raw.drop 1).dropLast
  else lowerASCIIString raw

/-- Go `parser.equalASCIIFold`: byte-wise comparison after ASCII-lowering
`raw` (parser call sites also use `bytes.EqualFold`, which only differs from
this on non-ASCII input; every comparand in the parser is plain ASCII). -/
def equalASCIIFold (raw : List Nat) (s : String) : Bool :=
  toLowerBytes raw == strBytes s

/-- Go `strconv.Atoi` on an INT token's raw digits (conversion errors are
discarded at every call site). -/
def natOfDigits (ds : List Nat) : Nat :=
  ds.foldl (fun acc d => acc * 10 + (d - 48)) 0

/-- Go `Parser.parseIdent`: identifiers and quoted identifiers, plus any
keyword token whose numeric value lies strictly between `ILLEGAL` and `INT`
(`t.Type > lexer.ILLEGAL && t.Type < lexer.INT`). -/
def parseIdent : PM Ident := do
  let s ← getP
  let t := s.tok
  if t.type = TokenType.IDENT ∨ t.type = TokenType.BACKTICK ∨ t.type = TokenType.DQUOTE then do
    let _ ← advance
    pure ⟨t.raw, unquoteIdent t.raw, t.pos⟩
  else if TokenType.ILLEGAL.idx < t.type.idx ∧ t.type.idx < TokenType.INT.idx then do
    let _ ← advance
    pure ⟨t.raw, lowerASCIIString t.raw, t.pos⟩
  else errorf "expected identifier, got %q"

/-- Go `Parser.parseOptionalAlias` (its callers discard the error; the token
check makes `parseIdent` infallible here). -/
def parseOptionalAlias : PM (Option Ident) := do
  let _ ← tryEatKeyword TokenType.AS
  let s ← getP
  if s.tok.type = TokenType.IDENT ∨ s.tok.type = TokenType.BACKTICK ∨ s.tok.type = TokenType.DQUOTE then do
    let id ← parseIdent
    pure (some id)
  else pure none

/-- Go `Parser.parseRefAction` (no error return; unknown tokens give
`NoAction` without consuming, per the switch default). -/
def parseRefAction : PM RefAction := do
  let s ← getP
  if s.tok.type = TokenType.RESTRICT then do
    let _ ← advance
    pure .restrict
  else if s.tok.type = TokenType.CASCADE then do
    let _ ← advance
    pure .cascade
  else if s.tok.type = TokenType.NULL_KW then do
    let _ ← advance
    pure .setNull
  else if s.tok.type = TokenType.SET then do
    let _ ← advance
    let b ← tryEatKeyword TokenType.NULL_KW
    if b then pure .setNull
    else do
      let s2 ← getP
      if s2.tok.type = TokenType.DEFAULT then do
        let _ ← advance
        pure .setDefault
      else pure .noAction
  else if s.tok.type = TokenType.NO then do
    let _ ← advance
    let _ ← advance
    pure .noAction
  else if equalASCIIFold s.tok.raw "no" then do
    let _ ← advance
    let _ ← advance
    pure .noAction
  else pure .noAction

/-- Go `Parser.parseBegin`. -/
def parseBegin : PM TransactionStmt := do
  let s ← getP
  let pos := s.tok.pos
  let _ ← advance
  let s2 ← getP
  if s2.tok.type = TokenType.TRANSACTION ∨
      (s2.tok.type = TokenType.IDENT ∧ equalASCIIFold s2.tok.raw "transaction" = true) then do
    let _ ← advance
    pure {action := strBytes "begin", tokPos := pos}
  else pure {action := strBytes "begin", tokPos := pos}

/-- Go `Parser.parseCommit`. -/
def parseCommit : PM TransactionStmt := do
  let s ← getP
  let pos := s.tok.pos
  let _ ← advance
  let s2 ← getP
  if s2.tok.type = TokenType.IDENT ∧ equalASCIIFold s2.tok.raw "work" = true then do
    let _ ← advance
    pure {action := strBytes "commit", tokPos := pos}
  else pure {action := strBytes "commit", tokPos := pos}

/-- Go `Parser.parseRollback`. -/
def parseRollback : PM TransactionStmt := do
  let s ← getP
  let pos := s.tok.pos
  let _ ← advance
  let s2 ← getP
  let _ ←
    if s2.tok.type = TokenType.IDENT ∧ equalASCIIFold s2.tok.raw "work" = true then advance
    else pure s2.tok
  let b ← tryEatKeyword TokenType.TO
  if b then do
    let s3 ← getP
    let _ ←
      if s3.tok.type = TokenType.IDENT ∧ equalASCIIFold s3.tok.raw "savepoint" = true then advance
      else pure s3.tok
    let sp ← parseIdent
    pure {action := strBytes "rollback", savepoint := some sp, tokPos := pos}
  else pure {action := strBytes "rollback", tokPos := pos}

/-- Go `Parser.parseSavepoint`. -/
def parseSavepoint : PM TransactionStmt := do
  let s ← getP
  let pos := s.tok.pos
  let _ ← advance
  let sp ← parseIdent
  pure {action := strBytes "savepoint", savepoint := some sp, tokPos := pos}

/-- Go `Parser.parseReleaseSavepoint`. -/
def parseReleaseSavepoint : PM TransactionStmt := do
  let s ← getP
  let pos := s.tok.pos
  let _ ← advance
  let s2 ← getP
  let _ ←
    if s2.tok.type = TokenType.IDENT ∧ equalASCIIFold s2.tok.raw "savepoint" = true then advance
    else pure s2.tok
  let sp ← parseIdent
  pure {action := strBytes "release_savepoint", savepoint := some sp, tokPos := pos}

/-- The option-collecting loop of Go `parseStartTransaction`/`parseSetStmt`
(`for !p.is(SEMICOLON) && !p.is(EOF) { opts = append(opts, p.advance().Raw) }`),
bounded by fuel. -/
def txOptionsLoop : Nat → List (List Nat) → PM (List (List Nat))
  | 0, _ => fun _ => .error .fuelOut
  | f + 1, acc => do
    let s ← getP
    if s.tok.type = TokenType.SEMICOLON ∨ s.tok.type = TokenType.EOF then pure acc
    else do
      let t ← advance
      txOptionsLoop f (acc ++ [t.raw])

/-- Go `Parser.parseStartTransaction`. -/
def parseStartTransaction (f : Nat) : PM TransactionStmt := do
  let s ← getP
  let pos := s.tok.pos
  let _ ← advance
  let s2 ← getP
  if s2.tok.type = TokenType.TRANSACTION ∨
      (s2.tok.type = TokenType.IDENT ∧ equalASCIIFold s2.tok.raw "transaction" = true) then do
    let _ ← advance
    let opts ← txOptionsLoop f []
    pure {action := strBytes "start_transaction", options := opts, tokPos := pos}
  else errorf "expected TRANSACTION after START"

/-- Go `Parser.parseSetStmt`. -/
def parseSetStmt (f : Nat) : PM TransactionStmt := do
  let s ← getP
  let pos := s.tok.pos
  let _ ← advance
  let s2 ← getP
  if s2.tok.type = TokenType.TRANSACTION ∨
      (s2.tok.type = TokenType.IDENT ∧ equalASCIIFold s2.tok.raw "transaction" = true) then do
    let _ ← advance
    let opts ← txOptionsLoop f []
    pure {action := strBytes "set_transaction", options := opts, tokPos := pos}
  else errorf "unsupported SET statement %q"

/-- The skip-to-statement-end loop of Go `parseGenericDDL`
(`for p.tok.Type != SEMICOLON && p.tok.Type != EOF { p.advance() }`). -/
def skipToSemiLoop : Nat → PM Unit
  | 0 => fun _ => .error .fuelOut
  | f + 1 => do
    let s ← getP
    if s.tok.type = TokenType.SEMICOLON ∨ s.tok.type = TokenType.EOF then pure ()
    else do
      let _ ← advance
      skipToSemiLoop f

/-- Go `Parser.parseGenericDDL` (the `parseIdent` error is discarded; the
token check makes it infallible here). -/
def parseGenericDDL (f : Nat) (verb obj : List Nat) : PM GenericDDLStmt := do
  let s ← getP
  let pos := s.tok.pos
  let _ ← advance
  let s2 ← getP
  let name ←
    if s2.tok.type = TokenType.IDENT ∨ s2.tok.type = TokenType.BACKTICK ∨
        s2.tok.type = TokenType.DQUOTE then do
      let id ← parseIdent
      pure (some id)
    else pure none
  let _ ← skipToSemiLoop f
  pure {verb := verb, object := obj, name := name, tokPos := pos}

/-- The option-collecting loop of Go `parseCreateDatabase`/`parseAlterDatabase`
(key, optional `=`, value; a key at statement end is recorded alone). -/
def dbOptionsLoop : Nat → List TableOption → PM (List TableOption)
  | 0, _ => fun _ => .error .fuelOut
  | f + 1, acc => do
    let s ← getP
    if s.tok.type = TokenType.SEMICOLON ∨ s.tok.type = TokenType.EOF then pure acc
    else do
      let kt ← advance
      let s2 ← getP
      if s2.tok.type = TokenType.SEMICOLON ∨ s2.tok.type = TokenType.EOF then
        pure (acc ++ [⟨kt.raw, []⟩])
      else do
        let _ ← tryEat TokenType.EQ
        let vt ← advance
        dbOptionsLoop f (acc ++ [⟨kt.raw, vt.raw⟩])

/-- Go `Parser.parseCreateDatabase`. -/
def parseCreateDatabase (f : Nat) : PM CreateDatabaseStmt := do
  let s ← getP
  let pos := s.tok.pos
  let _ ← advance
  let s2 ← getP
  if s2.tok.type = TokenType.IF then do
    let _ ← advance
    let b ← tryEatKeyword TokenType.NOT
    if b then do
      let b2 ← tryEatKeyword TokenType.EXISTS
      if b2 then do
        let name ← parseIdent
        let opts ← dbOptionsLoop f []
        pure {name := some name, ifNotExists := true, options := opts, tokPos := pos}
      else errorf "expected EXISTS in IF NOT EXISTS"
    else errorf "expected NOT in IF NOT EXISTS"
  else do
    let name ← parseIdent
    let opts ← dbOptionsLoop f []
    pure {name := some name, ifNotExists := false, options := opts, tokPos := pos}

/-- Go `Parser.parseAlterDatabase` (`pos` is the position of the `ALTER`
token, passed by `parseAlter`). -/
def parseAlterDatabase (f : Nat) (pos : Nat) : PM AlterDatabaseStmt := do
  let _ ← advance
  let name ← parseIdent
  let opts ← dbOptionsLoop f []
  pure {name := some name, options := opts, tokPos := pos}

/-- Go `Parser.parseDropDatabase`. -/
def parseDropDatabase : PM DropDatabaseStmt := do
  let s ← getP
  let pos := s.tok.pos
  let _ ← advance
  let s2 ← getP
  if s2.tok.type = TokenType.IF then do
    let _ ← advance
    let b ← tryEatKeyword TokenType.EXISTS
    if b then do
      let name ← parseIdent
      pure {name := some name, ifExists := true, tokPos := pos}
    else errorf "expected EXISTS in IF EXISTS"
  else do
    let name ← parseIdent
    pure {name := some name, ifExists := false, tokPos := pos}

/-- The `for { elem; if !p.tryEat(sep) { break } }` loop shape shared by the
comma-separated list parsers (`parseSelectColumns`, `parseExprList`,
`parseIdentList`, `parseOrderBy`, `parseAssignments`, `parseTableRefs`,
`parseIndexColDefs`, `parseWith`'s CTE loop, `parseDropTable`'s table loop,
`parseAlter`'s command loop), bounded by fuel. -/
def sepListPM {α : Type} (elem : PM α) (sep : TokenType) : Nat → PM (List α)
  | 0 => fun _ => .error .fuelOut
  | f + 1 => do
    let a ← elem
    let b ← tryEat sep
    if b then do
      let rest ← sepListPM elem sep f
      pure (a :: rest)
    else pure [a]

/-- The dot loop of Go `Parser.parseQualifiedIdent`: after a `.`, a failed
`parseIdent` (which consumes nothing on failure) falls back to `*`
(`schema.*`), else the error propagates. -/
def qiDotLoop : Nat → List Ident → PM QualifiedIdent
  | 0, _ => fun _ => .error .fuelOut
  | f + 1, acc => fun st =>
    if st.tok.type = TokenType.DOT then
      match advance st with
      | .error e => .error e
      | .ok (_, st1) =>
        match parseIdent st1 with
        | .ok (nxt, st2) => qiDotLoop f (acc ++ [nxt]) st2
        | .error e =>
          if st1.tok.type = TokenType.STAR then
            match advance st1 with
            | .error e2 => .error e2
            | .ok (_, st2) =>
              .ok (⟨acc ++ [⟨st1.tok.raw, strBytes "*", st1.tok.pos⟩]⟩, st2)
          else .error e
    else .ok (⟨acc⟩, st)

/-- Go `Parser.parseQualifiedIdent`. -/
def parseQualifiedIdent (f : Nat) : PM QualifiedIdent := do
  let id ← parseIdent
  qiDotLoop f [id]

/-- Go `Parser.parseIdentList`. -/
def parseIdentList (f : Nat) : PM (List Ident) :=
  sepListPM parseIdent TokenType.COMMA f

/-- Go `Parser.isConstraintStart` (read-only). -/
def isConstraintStartP : PM Bool := do
  let s ← getP
  let t := s.tok.type
  if t = TokenType.PRIMARY ∨ t = TokenType.UNIQUE ∨ t = TokenType.INDEX ∨
      t = TokenType.KEY ∨ t = TokenType.FOREIGN ∨ t = TokenType.CHECK ∨
      t = TokenType.CONSTRAINT then pure true
  else if t = TokenType.IDENT then
    pure (equalASCIIFold s.tok.raw "fulltext" || equalASCIIFold s.tok.raw "spatial")
  else pure false

/-- The table-option loop of Go `parseCreateTable`
(`for p.is(IDENT) || p.is(ENGINE) || p.is(COMMENT_KW) { key; tryEat(EQ); val }`). -/
def tableOptionsLoop : Nat → List TableOption → PM (List TableOption)
  | 0, _ => fun _ => .error .fuelOut
  | f + 1, acc => do
    let s ← getP
    if s.tok.type = TokenType.IDENT ∨ s.tok.type = TokenType.ENGINE ∨
        s.tok.type = TokenType.COMMENT_KW then do
      let kt ← advance
      let _ ← tryEat TokenType.EQ
      let vt ← advance
      tableOptionsLoop f (acc ++ [⟨kt.raw, vt.raw⟩])
    else pure acc

/-- The ENUM/SET value loop of Go `parseDataType`
(`for p.is(STRING) { append; advance; if !tryEat(COMMA) break }`). -/
def parseEnumValsLoop : Nat → List (List Nat) → PM (List (List Nat))
  | 0, _ => fun _ => .error .fuelOut
  | f + 1, acc => do
    let s ← getP
    if s.tok.type = TokenType.STRING then do
      let raw := s.tok.raw
      let _ ← advance
      let b ← tryEat TokenType.COMMA
      if b then parseEnumValsLoop f (acc ++ [raw])
      else pure (acc ++ [raw])
    else pure acc

/-- Go `Parser.parseDropTable`. -/
def parseDropTable (f : Nat) : PM DropTableStmt := do
  let s ← getP
  let pos := s.tok.pos
  let _ ← advance
  let s2 ← getP
  let ifx ←
    if s2.tok.type = TokenType.IF then do
      let _ ← advance
      let _ ← advance
      pure true
    else pure false
  let tables ← sepListPM (parseQualifiedIdent f) TokenType.COMMA f
  let csc ← tryEatKeyword TokenType.CASCADE
  pure {tables := tables, ifExists := ifx, cascade := csc, tokPos := pos}

/-- Go `Parser.parseDropIndex`. -/
def parseDropIndex (f : Nat) : PM DropIndexStmt := do
  let s ← getP
  let pos := s.tok.pos
  let _ ← advance
  let s2 ← getP
  let ifx ←
    if s2.tok.type = TokenType.IF then do
      let _ ← advance
      let _ ← advance
      pure true
    else pure false
  let name ← parseIdent
  let bOn ← tryEatKeyword TokenType.ON
  if bOn then do
    let q ← parseQualifiedIdent f
    pure {name := some name, table := some q, ifExists := ifx, tokPos := pos}
  else pure {name := some name, ifExists := ifx, tokPos := pos}

/-- Go `Parser.parseTruncate`. -/
def parseTruncate (f : Nat) : PM TruncateStmt := do
  let s ← getP
  let pos := s.tok.pos
  let _ ← advance
  let _ ← tryEatKeyword TokenType.TABLE
  let q ← parseQualifiedIdent f
  pure {table := some q, tokPos := pos}

/-- Go `Parser.parseUse`. -/
def parseUse : PM UseStmt := do
  let s ← getP
  let pos := s.tok.pos
  let _ ← advance
  let db ← parseIdent
  pure {database := some db, tokPos := pos}

/-- Go precedence constants (`precLowest = 0` … `precPostfix = 11`; the last
one is renamed `precPostfixLvl` here). -/
def precLowest : Nat := 0

/-- Go `precOr`. -/
def precOr : Nat := 1

/-- Go `precAnd`. -/
def precAnd : Nat := 2

/-- Go `precNot`. -/
def precNot : Nat := 3

/-- Go `precComparison`. -/
def precComparison : Nat := 4

/-- Go `precBitOr`. -/
def precBitOr : Nat := 5

/-- Go `precBitAnd`. -/
def precBitAnd : Nat := 6

/-- Go `precShift`. -/
def precShift : Nat := 7

/-- Go `precAddSub`. -/
def precAddSub : Nat := 8

/-- Go `precMulDiv`. -/
def precMulDiv : Nat := 9

/-- Go `precUnary`. -/
def precUnary : Nat := 10

/-- Go `precPostfix` (= 11). -/
def precPostfixLvl : Nat := 11

/-- Go `parser.tokenPrec`: `(precedence, true)` for infix operators, else
`(0, false)` (here `Option Nat`). -/
def tokenPrec (t : TokenType) : Option Nat :=
  if t = TokenType.OR then some precOr
  else if t = TokenType.AND ∨ t = TokenType.DAMP then some precAnd
  else if t = TokenType.EQ ∨ t = TokenType.NEQ ∨ t = TokenType.LT ∨
      t = TokenType.GT ∨ t = TokenType.LTE ∨ t = TokenType.GTE then some precComparison
  else if t = TokenType.ATGT ∨ t = TokenType.LTAT ∨ t = TokenType.QUESTION ∨
      t = TokenType.QMARKPIPE ∨ t = TokenType.QMARKAMP then some precComparison
  else if t = TokenType.PIPE then some precBitOr
  else if t = TokenType.CARET then some precBitOr
  else if t = TokenType.AMPERSAND then some precBitAnd
  else if t = TokenType.LSHIFT ∨ t = TokenType.RSHIFT then some precShift
  else if t = TokenType.PLUS ∨ t = TokenType.MINUS then some precAddSub
  else if t = TokenType.STAR ∨ t = TokenType.SLASH ∨ t = TokenType.PERCENT then some precMulDiv
  else if t = TokenType.DBAR then some precAddSub
  else if t = TokenType.ARROW ∨ t = TokenType.DARROW2 ∨ t = TokenType.HASHARROW ∨
      t = TokenType.HASHDARROW then some precPostfixLvl
  else none

mutual

/-- Go `Parser.parseStatement` (statement dispatch on the current token). -/
def parseStatement : Nat → PM Statement
  | 0 => fun _ => .error .fuelOut
  | f + 1 => do
    let s ← getP
    let t := s.tok.type
    if t = TokenType.SELECT then do
      let sel ← parseSelect f
      pure (.selectS sel)
    else if t = TokenType.WITH then parseWithStatement f
    else if t = TokenType.INSERT then do
      let i ← parseInsert f
      pure (.insertS i)
    else if t = TokenType.REPLACE then do
      let i ← parseReplace f
      pure (.insertS i)
    else if t = TokenType.UPDATE then do
      let u ← parseUpdate f
      pure (.updateS u)
    else if t = TokenType.DELETE then do
      let d ← parseDelete f
      pure (.deleteS d)
    else if t = TokenType.CREATE then parseCreate f
    else if t = TokenType.ALTER then parseAlter f
    else if t = TokenType.DROP then parseDrop f
    else if t = TokenType.TRUNCATE then do
      let st ← parseTruncate f
      pure (.truncateS st)
    else if t = TokenType.USE then do
      let st ← parseUse
      pure (.useS st)
    else if t = TokenType.ROLLBACK then do
      let st ← parseRollback
      pure (.transactionS st)
    else if t = TokenType.SET then do
      let st ← parseSetStmt f
      pure (.transactionS st)
    else if t = TokenType.SHOW then do
      let st ← parseShow f
      pure (.showS st)
    else if t = TokenType.EXPLAIN then parseExplain f
    else if t = TokenType.IDENT then parseIdentLedStatement f
    else errorf "unexpected token %q at start of statement"

/-- Go `Parser.parseWithStatement`. -/
def parseWithStatement : Nat → PM Statement
  | 0 => fun _ => .error .fuelOut
  | f + 1 => do
    let w ← parseWith f
    let s ← getP
    let t := s.tok.type
    if t = TokenType.SELECT then do
      let stmt ← parseSelect f
      pure (.selectS (stmt.setWith (some w)))
    else if t = TokenType.INSERT then do
      let stmt ← parseInsert f
      pure (.insertS {stmt with withC := some w})
    else if t = TokenType.REPLACE then do
      let stmt ← parseReplace f
      pure (.insertS {stmt with withC := some w})
    else if t = TokenType.UPDATE then do
      let stmt ← parseUpdate f
      pure (.updateS {stmt with withC := some w})
    else if t = TokenType.DELETE then do
      let stmt ← parseDelete f
      pure (.deleteS {stmt with withC := some w})
    else errorf "WITH must be followed by SELECT/INSERT/UPDATE/DELETE, got %q"

/-- Go `Parser.parseIdentLedStatement` (BEGIN/COMMIT/START/SAVEPOINT/RELEASE/
CALL led by an identifier token). -/
def parseIdentLedStatement : Nat → PM Statement
  | 0 => fun _ => .error .fuelOut
  | f + 1 => do
    let s ← getP
    if equalASCIIFold s.tok.raw "begin" then do
      let t ← parseBegin
      pure (.transactionS t)
    else if equalASCIIFold s.tok.raw "commit" then do
      let t ← parseCommit
      pure (.transactionS t)
    else if equalASCIIFold s.tok.raw "start" then do
      let t ← parseStartTransaction f
      pure (.transactionS t)
    else if equalASCIIFold s.tok.raw "savepoint" then do
      let t ← parseSavepoint
      pure (.transactionS t)
    else if equalASCIIFold s.tok.raw "release" then do
      let t ← parseReleaseSavepoint
      pure (.transactionS t)
    else if equalASCIIFold s.tok.raw "call" then do
      let c ← parseCall f
      pure (.callS c)
    else errorf "unexpected token %q at start of statement"

/-- Go `Parser.parseSelect` (optional WITH, core, then the set-operation
loop). -/
def parseSelect : Nat → PM SelectStmt
  | 0 => fun _ => .error .fuelOut
  | f + 1 => do
    let s ← getP
    let pos := s.tok.pos
    let w ←
      if s.tok.type = TokenType.WITH then do
        let w ← parseWith f
        pure (some w)
      else pure none
    let core ← parseSelectCore f pos
    parseSetOpLoop f (core.setWith w)

/-- The UNION/INTERSECT/EXCEPT loop of Go `parseSelect`; each iteration parses
a right-hand core and attaches it at the end of the set-op chain. -/
def parseSetOpLoop : Nat → SelectStmt → PM SelectStmt
  | 0, _ => fun _ => .error .fuelOut
  | f + 1, stmt => do
    let s ← getP
    let t := s.tok.type
    if t = TokenType.UNION ∨ t = TokenType.INTERSECT ∨ t = TokenType.EXCEPT then do
      let op : SetOp :=
        if t = TokenType.UNION then .unionOp
        else if t = TokenType.INTERSECT then .intersectOp
        else .exceptOp
      let _ ← advance
      let all ← tryEatKeyword TokenType.ALL
      let s2 ← getP
      let right ← parseSelectCore f s2.tok.pos
      parseSetOpLoop f (stmt.attachSetOp (.mk op all right))
    else pure stmt

/-- Go `Parser.parseSelectCore`. -/
def parseSelectCore : Nat → Nat → PM SelectStmt
  | 0, _ => fun _ => .error .fuelOut
  | f + 1, pos => do
    let _ ← eatKeyword TokenType.SELECT
    let distinct ← tryEatKeyword TokenType.DISTINCT
    let _ ← tryEatKeyword TokenType.ALL
    let cols ← parseSelectColumns f
    let bFrom ← tryEatKeyword TokenType.FROM
    let fromRefs ← if bFrom then parseTableRefs f else pure []
    let bWhere ← tryEatKeyword TokenType.WHERE
    let whereE ←
      if bWhere then do
        let e ← parseExpr f 0
        pure (some e)
      else pure none
    let s1 ← getP
    let groupBy ←
      if s1.tok.type = TokenType.GROUP then do
        let pk ← peekToken
        if pk.type = TokenType.BY then do
          let _ ← advance
          let _ ← advance
          parseExprList f
        else pure []
      else pure []
    let bHav ← tryEatKeyword TokenType.HAVING
    let having ←
      if bHav then do
        let e ← parseExpr f 0
        pure (some e)
      else pure none
    let s2 ← getP
    let orderBy ←
      if s2.tok.type = TokenType.ORDER then do
        let pk ← peekToken
        if pk.type = TokenType.BY then do
          let _ ← advance
          let _ ← advance
          parseOrderBy f
        else pure []
      else pure []
    let bLim ← tryEatKeyword TokenType.LIMIT
    let lim ←
      if bLim then do
        let l ← parseLimit f
        pure (some l)
      else pure none
    pure (.mk none distinct cols fromRefs whereE groupBy having orderBy lim none pos)

/-- Go `Parser.parseWith`. -/
def parseWith : Nat → PM WithClause
  | 0 => fun _ => .error .fuelOut
  | f + 1 => do
    let _ ← advance
    let recFlag ← tryEatKeyword TokenType.RECURSIVE
    let ctes ← sepListPM (parseCTE f) TokenType.COMMA f
    pure (.mk recFlag ctes)

/-- One CTE of Go `parseWith`'s loop body. -/
def parseCTE : Nat → PM CTE
  | 0 => fun _ => .error .fuelOut
  | f + 1 => do
    let name ← parseIdent
    let s ← getP
    let cols ←
      if s.tok.type = TokenType.LPAREN then do
        let pk ← peekToken
        if pk.type = TokenType.IDENT then do
          let _ ← advance
          let cs ← parseIdentList f
          let _ ← eat TokenType.RPAREN
          pure cs
        else pure []
      else pure []
    let _ ← eatKeyword TokenType.AS
    let _ ← eat TokenType.LPAREN
    let sq ← parseSelect f
    let _ ← eat TokenType.RPAREN
    pure (.mk (some name) cols sq)

/-- Go `Parser.parseSelectColumns`. -/
def parseSelectColumns : Nat → PM (List SelectColumn)
  | 0 => fun _ => .error .fuelOut
  | f + 1 => sepListPM (parseSelectColumn f) TokenType.COMMA f

/-- Go `Parser.parseSelectColumn` (note: the `*` branch records the position
of the token after the star, as the Go code reads `p.tok.Pos` after
`p.advance()`). -/
def parseSelectColumn : Nat → PM SelectColumn
  | 0 => fun _ => .error .fuelOut
  | f + 1 => do
    let s ← getP
    if s.tok.type = TokenType.STAR then do
      let _ ← advance
      let s2 ← getP
      pure (.mk (.starE s2.tok.pos) none true)
    else do
      let e ← parseExpr f 0
      let bAs ← tryEatKeyword TokenType.AS
      let s2 ← getP
      if bAs ∨ s2.tok.type = TokenType.IDENT ∨ s2.tok.type = TokenType.BACKTICK ∨
          s2.tok.type = TokenType.DQUOTE then do
        let a ← parseIdent
        pure (.mk e (some a) false)
      else pure (.mk e none false)

/-- Go `Parser.parseTableRefs`. -/
def parseTableRefs : Nat → PM (List TableRef)
  | 0 => fun _ => .error .fuelOut
  | f + 1 => sepListPM (parseTableRef f) TokenType.COMMA f

/-- Go `Parser.parseTableRef` (primary table reference, then join chains). -/
def parseTableRef : Nat → PM TableRef
  | 0 => fun _ => .error .fuelOut
  | f + 1 => do
    let s ← getP
    let left ←
      if s.tok.type = TokenType.LPAREN then do
        let _ ← advance
        let s2 ← getP
        if s2.tok.type = TokenType.SELECT ∨ s2.tok.type = TokenType.WITH then do
          let sq ← parseSelect f
          let _ ← eat TokenType.RPAREN
          let a ← parseOptionalAlias
          pure (TableRef.subqueryT sq a sq.tokPos)
        else do
          let inner ← parseTableRef f
          let _ ← eat TokenType.RPAREN
          pure inner
      else do
        let name ← parseQualifiedIdent f
        let a ← parseOptionalAlias
        pure (TableRef.simpleT (some name) a)
    parseJoinChain f left

/-- The join-chaining loop of Go `parseTableRef`. -/
def parseJoinChain : Nat → TableRef → PM TableRef
  | 0, _ => fun _ => .error .fuelOut
  | f + 1, left => do
    let newLeft ← parseJoin f left
    match newLeft with
    | .joinT _ _ _ _ _ _ => do
      let s ← getP
      let t := s.tok.type
      if t = TokenType.INNER ∨ t = TokenType.LEFT ∨ t = TokenType.RIGHT ∨
          t = TokenType.FULL ∨ t = TokenType.CROSS ∨ t = TokenType.NATURAL ∨
          t = TokenType.JOIN then
        parseJoinChain f newLeft
      else pure newLeft
    | _ => pure newLeft

/-- Go `Parser.parseJoin` (join keyword dispatch; non-join tokens return
`left` unchanged). -/
def parseJoin : Nat → TableRef → PM TableRef
  | 0, _ => fun _ => .error .fuelOut
  | f + 1, left => do
    let s ← getP
    let t := s.tok.type
    if t = TokenType.INNER then do
      let _ ← advance
      let _ ← eatKeyword TokenType.JOIN
      parseJoinTail f left .innerJoin
    else if t = TokenType.LEFT then do
      let _ ← advance
      let _ ← tryEatKeyword TokenType.OUTER
      let _ ← eatKeyword TokenType.JOIN
      parseJoinTail f left .leftJoin
    else if t = TokenType.RIGHT then do
      let _ ← advance
      let _ ← tryEatKeyword TokenType.OUTER
      let _ ← eatKeyword TokenType.JOIN
      parseJoinTail f left .rightJoin
    else if t = TokenType.FULL then do
      let _ ← advance
      let _ ← tryEatKeyword TokenType.OUTER
      let _ ← eatKeyword TokenType.JOIN
      parseJoinTail f left .fullJoin
    else if t = TokenType.CROSS then do
      let _ ← advance
      let _ ← eatKeyword TokenType.JOIN
      parseJoinTail f left .crossJoin
    else if t = TokenType.NATURAL then do
      let _ ← advance
      let _ ← eatKeyword TokenType.JOIN
      parseJoinTail f left .naturalJoin
    else if t = TokenType.JOIN then do
      let _ ← advance
      parseJoinTail f left .innerJoin
    else pure left

/-- The common tail of Go `parseJoin` after the join keywords: right side,
then optional `ON` condition or `USING` column list. -/
def parseJoinTail : Nat → TableRef → JoinKind → PM TableRef
  | 0, _, _ => fun _ => .error .fuelOut
  | f + 1, left, kind => do
    let s ← getP
    let pos := s.tok.pos
    let right ← parseTableRef f
    let bOn ← tryEatKeyword TokenType.ON
    if bOn then do
      let cond ← parseExpr f 0
      pure (.joinT left right kind (some cond) [] pos)
    else do
      let bU ← tryEatKeyword TokenType.USING
      if bU then do
        let _ ← eat TokenType.LPAREN
        let cols ← parseIdentList f
        let _ ← eat TokenType.RPAREN
        pure (.joinT left right kind none cols pos)
      else pure (.joinT left right kind none [] pos)

/-- Go `Parser.parseExpr` (Pratt loop: unary head, then the operator loop). -/
def parseExpr : Nat → Nat → PM Expr
  | 0, _ => fun _ => .error .fuelOut
  | f + 1, minPrec => do
    let left ← parseUnary f
    parseExprLoop f minPrec left

/-- The infix/postfix loop of Go `parseExpr` (IS/NOT LIKE/NOT IN/NOT
BETWEEN/LIKE/IN/BETWEEN special forms, then generic binary operators). -/
def parseExprLoop : Nat → Nat → Expr → PM Expr
  | 0, _, _ => fun _ => .error .fuelOut
  | f + 1, minPrec, left => do
    let s ← getP
    let t := s.tok.type
    if t = TokenType.IS then do
      let pos := s.tok.pos
      let _ ← advance
      let nt ← tryEatKeyword TokenType.NOT
      let _ ← eat TokenType.NULL_KW
      parseExprLoop f minPrec (.isNullE left nt pos)
    else if t = TokenType.NOT then do
      let pos := s.tok.pos
      let pk ← peekToken
      if pk.type = TokenType.LIKE then do
        let _ ← advance
        let _ ← advance
        let right ← parseExpr f precMulDiv
        let bEsc ← tryEatKeyword TokenType.ESCAPE
        if bEsc then do
          let esc ← parseExpr f precMulDiv
          parseExprLoop f minPrec (.likeE left right (some esc) true pos)
        else parseExprLoop f minPrec (.likeE left right none true pos)
      else if pk.type = TokenType.IN then do
        let _ ← advance
        let _ ← advance
        let ie ← parseInRHS f left pos true
        parseExprLoop f minPrec ie
      else if pk.type = TokenType.BETWEEN then do
        let _ ← advance
        let _ ← advance
        let lo ← parseExpr f (precComparison + 1)
        let _ ← eatKeyword TokenType.AND
        let hi ← parseExpr f (precComparison + 1)
        parseExprLoop f minPrec (.betweenE left lo hi true pos)
      else parseExprBin f minPrec left
    else if t = TokenType.LIKE then do
      let pos := s.tok.pos
      let _ ← advance
      let right ← parseExpr f precMulDiv
      let bEsc ← tryEatKeyword TokenType.ESCAPE
      if bEsc then do
        let esc ← parseExpr f precMulDiv
        parseExprLoop f minPrec (.likeE left right (some esc) false pos)
      else parseExprLoop f minPrec (.likeE left right none false pos)
    else if t = TokenType.IN then do
      let pos := s.tok.pos
      let _ ← advance
      let ie ← parseInRHS f left pos false
      parseExprLoop f minPrec ie
    else if t = TokenType.BETWEEN then do
      let pos := s.tok.pos
      let _ ← advance
      let lo ← parseExpr f (precComparison + 1)
      let _ ← eatKeyword TokenType.AND
      let hi ← parseExpr f (precComparison + 1)
      parseExprLoop f minPrec (.betweenE left lo hi false pos)
    else parseExprBin f minPrec left

/-- The generic-binary-operator tail of Go `parseExpr`'s loop: stop when the
token has no precedence or `prec <= minPrec`, else consume and recurse. -/
def parseExprBin : Nat → Nat → Expr → PM Expr
  | 0, _, _ => fun _ => .error .fuelOut
  | f + 1, minPrec, left => do
    let s ← getP
    match tokenPrec s.tok.type with
    | none => pure left
    | some prec =>
      if prec ≤ minPrec then pure left
      else do
        let op := s.tok.type
        let pos := s.tok.pos
        let _ ← advance
        let right ← parseExpr f prec
        parseExprLoop f minPrec (.binaryE left right op pos)

/-- Go `Parser.parseInRHS`. -/
def parseInRHS : Nat → Expr → Nat → Bool → PM Expr
  | 0, _, _, _ => fun _ => .error .fuelOut
  | f + 1, left, pos, nt => do
    let _ ← eat TokenType.LPAREN
    let s ← getP
    if s.tok.type = TokenType.SELECT ∨ s.tok.type = TokenType.WITH then do
      let sq ← parseSelect f
      let _ ← eat TokenType.RPAREN
      pure (.inE left [] (some sq) nt pos)
    else do
      let list ← parseExprList f
      let _ ← eat TokenType.RPAREN
      pure (.inE left list none nt pos)

/-- Go `Parser.parseUnary`. -/
def parseUnary : Nat → PM Expr
  | 0 => fun _ => .error .fuelOut
  | f + 1 => do
    let s ← getP
    let t := s.tok.type
    if t = TokenType.MINUS then do
      let pos := s.tok.pos
      let _ ← advance
      let e ← parseUnary f
      pure (.unaryE e TokenType.MINUS pos)
    else if t = TokenType.PLUS then do
      let pos := s.tok.pos
      let _ ← advance
      let e ← parseUnary f
      pure (.unaryE e TokenType.PLUS pos)
    else if t = TokenType.TILDE then do
      let pos := s.tok.pos
      let _ ← advance
      let e ← parseUnary f
      pure (.unaryE e TokenType.TILDE pos)
    else if t = TokenType.NOT then do
      let pos := s.tok.pos
      let _ ← advance
      let e ← parseUnary f
      pure (.unaryE e TokenType.NOT pos)
    else if t = TokenType.EXISTS then do
      let pos := s.tok.pos
      let _ ← advance
      let _ ← eat TokenType.LPAREN
      let sq ← parseSelect f
      let _ ← eat TokenType.RPAREN
      pure (.existsE sq false pos)
    else parsePrimary f

/-- Go `Parser.parsePrimary`. -/
def parsePrimary : Nat → PM Expr
  | 0 => fun _ => .error .fuelOut
  | f + 1 => do
    let s ← getP
    let t := s.tok.type
    if t = TokenType.INT ∨ t = TokenType.FLOAT ∨ t = TokenType.STRING ∨
        t = TokenType.HEXLIT ∨ t = TokenType.BITLIT then do
      let tk ← advance
      pure (.litE tk.raw tk.type tk.pos)
    else if t = TokenType.NULL_KW then do
      let tk ← advance
      pure (.nullE tk.pos)
    else if t = TokenType.TRUE_KW ∨ t = TokenType.FALSE_KW then do
      let tk ← advance
      pure (.litE tk.raw tk.type tk.pos)
    else if t = TokenType.NAMEDPARAM ∨ t = TokenType.QUESTION then do
      let tk ← advance
      pure (.paramE tk.raw tk.pos)
    else if t = TokenType.STAR then do
      let tk ← advance
      pure (.starE tk.pos)
    else if t = TokenType.LPAREN then do
      let _ ← advance
      let s2 ← getP
      if s2.tok.type = TokenType.SELECT ∨ s2.tok.type = TokenType.WITH then do
        let sq ← parseSelect f
        let _ ← eat TokenType.RPAREN
        pure (.subqueryE sq sq.tokPos)
      else do
        let e ← parseExpr f 0
        let _ ← eat TokenType.RPAREN
        pure e
    else if t = TokenType.CASE then parseCaseExpr f
    else if t = TokenType.CAST then parseCast f
    else if t = TokenType.IDENT ∨ t = TokenType.BACKTICK ∨ t = TokenType.DQUOTE then do
      let name ← parseQualifiedIdent f
      let s2 ← getP
      if s2.tok.type = TokenType.LPAREN then parseFuncCall f name
      else
        match name.parts with
        | [single] => pure (.identE single)
        | _ => pure (.qualifiedE name)
    else if t = TokenType.REPLACE ∨ t = TokenType.LEFT ∨ t = TokenType.RIGHT ∨
        t = TokenType.INSERT then do
      let part : Ident := ⟨s.tok.raw, lowerASCIIString s.tok.raw, s.tok.pos⟩
      let name : QualifiedIdent := ⟨[part]⟩
      let _ ← advance
      let s2 ← getP
      if s2.tok.type = TokenType.LPAREN then parseFuncCall f name
      else pure (.identE part)
    else errorf "unexpected token %q in expression"

/-- Go `Parser.parseCaseExpr`. -/
def parseCaseExpr : Nat → PM Expr
  | 0 => fun _ => .error .fuelOut
  | f + 1 => do
    let s ← getP
    let pos := s.tok.pos
    let _ ← advance
    let s2 ← getP
    let operand ←
      if s2.tok.type = TokenType.WHEN then pure none
      else do
        let e ← parseExpr f 0
        pure (some e)
    let whens ← parseWhenLoop f []
    let bElse ← tryEatKeyword TokenType.ELSE
    let elseE ←
      if bElse then do
        let e ← parseExpr f 0
        pure (some e)
      else pure none
    let _ ← eatKeyword TokenType.END
    pure (.caseE operand whens elseE pos)

/-- The WHEN loop of Go `parseCaseExpr`. -/
def parseWhenLoop : Nat → List WhenClause → PM (List WhenClause)
  | 0, _ => fun _ => .error .fuelOut
  | f + 1, acc => do
    let b ← tryEatKeyword TokenType.WHEN
    if b then do
      let cond ← parseExpr f 0
      let _ ← eatKeyword TokenType.THEN
      let res ← parseExpr f 0
      parseWhenLoop f (acc ++ [.mk cond res])
    else pure acc

/-- Go `Parser.parseCast`. -/
def parseCast : Nat → PM Expr
  | 0 => fun _ => .error .fuelOut
  | f + 1 => do
    let s ← getP
    let pos := s.tok.pos
    let _ ← advance
    let _ ← eat TokenType.LPAREN
    let e ← parseExpr f 0
    let _ ← eatKeyword TokenType.AS
    let dt ← parseDataType f
    let _ ← eat TokenType.RPAREN
    pure (.castE e dt pos)

/-- Go `Parser.parseFuncCall` (`pos` is the `(` position). -/
def parseFuncCall : Nat → QualifiedIdent → PM Expr
  | 0, _ => fun _ => .error .fuelOut
  | f + 1, name => do
    let s ← getP
    let pos := s.tok.pos
    let _ ← advance
    let s2 ← getP
    if s2.tok.type = TokenType.RPAREN then do
      let _ ← advance
      pure (.funcE (some name) [] false false pos)
    else if s2.tok.type = TokenType.STAR then do
      let _ ← advance
      let _ ← eat TokenType.RPAREN
      pure (.funcE (some name) [] false true pos)
    else do
      let d ← tryEatKeyword TokenType.DISTINCT
      let args ← parseExprList f
      let _ ← eat TokenType.RPAREN
      pure (.funcE (some name) args d false pos)

/-- Go `Parser.parseExprList`. -/
def parseExprList : Nat → PM (List Expr)
  | 0 => fun _ => .error .fuelOut
  | f + 1 => sepListPM (parseExpr f 0) TokenType.COMMA f

/-- Go `Parser.parseOrderBy`. -/
def parseOrderBy : Nat → PM (List OrderByItem)
  | 0 => fun _ => .error .fuelOut
  | f + 1 => sepListPM (parseOrderItem f) TokenType.COMMA f

/-- One item of Go `parseOrderBy`'s loop (expr, then DESC or optional ASC). -/
def parseOrderItem : Nat → PM OrderByItem
  | 0 => fun _ => .error .fuelOut
  | f + 1 => do
    let e ← parseExpr f 0
    let bD ← tryEatKeyword TokenType.DESC
    if bD then pure (.mk e true none)
    else do
      let _ ← tryEatKeyword TokenType.ASC
      pure (.mk e false none)

/-- Go `Parser.parseLimit`: `LIMIT count [OFFSET off]` or the MySQL comma form
`LIMIT off, count` (the comma branch swaps: `lim.Offset = lim.Count;
lim.Count = off`). -/
def parseLimit : Nat → PM LimitClause
  | 0 => fun _ => .error .fuelOut
  | f + 1 => do
    let count ← parseExpr f 0
    let bOff ← tryEatKeyword TokenType.OFFSET
    if bOff then do
      let off ← parseExpr f 0
      pure (.mk (some count) (some off))
    else do
      let bC ← tryEat TokenType.COMMA
      if bC then do
        let off ← parseExpr f 0
        pure (.mk (some off) (some count))
      else pure (.mk (some count) none)

/-- The VALUES row loop of Go `parseInsert`/`parseReplace`. -/
def parseValuesRows : Nat → List (List Expr) → PM (List (List Expr))
  | 0, _ => fun _ => .error .fuelOut
  | f + 1, acc => do
    let _ ← eat TokenType.LPAREN
    let row ← parseExprList f
    let _ ← eat TokenType.RPAREN
    let bC ← tryEat TokenType.COMMA
    if bC then parseValuesRows f (acc ++ [row])
    else pure (acc ++ [row])

/-- Go `Parser.parseInsert` (including the ON DUPLICATE KEY UPDATE and ON
CONFLICT clauses; `duplicate`, `conflict`, `do`, `nothing` are matched on the
identifier's raw bytes, case-insensitively). -/
def parseInsert : Nat → PM InsertStmt
  | 0 => fun _ => .error .fuelOut
  | f + 1 => do
    let s ← getP
    let pos := s.tok.pos
    let _ ← advance
    let ign ← tryEatKeyword TokenType.IGNORE
    let _ ← tryEatKeyword TokenType.INTO
    let name ← parseQualifiedIdent f
    let s2 ← getP
    let cols ←
      if s2.tok.type = TokenType.LPAREN then do
        let _ ← advance
        let cs ← parseIdentList f
        let _ ← eat TokenType.RPAREN
        pure cs
      else pure []
    let s3 ← getP
    let vs ←
      if s3.tok.type = TokenType.SELECT ∨ s3.tok.type = TokenType.WITH then do
        let sq ← parseSelect f
        pure (([], some sq) : List (List Expr) × Option SelectStmt)
      else do
        let bV ← tryEatKeyword TokenType.VALUES
        if bV then do
          let rows ← parseValuesRows f []
          pure ((rows, none) : List (List Expr) × Option SelectStmt)
        else pure (([], none) : List (List Expr) × Option SelectStmt)
    let base : InsertStmt :=
      {table := some name, columns := cols, values := vs.1, selectC := vs.2,
       ignore := ign, tokPos := pos}
    let s4 ← getP
    if s4.tok.type = TokenType.ON then do
      let nx ← peekToken
      if nx.type = TokenType.IDENT ∧ equalASCIIFold nx.raw "duplicate" then do
        let _ ← advance
        let _ ← advance
        let _ ← advance
        let _ ← eatKeyword TokenType.UPDATE
        let asgn ← parseAssignments f
        pure {base with onDupKey := asgn}
      else if nx.type = TokenType.IDENT ∧ equalASCIIFold nx.raw "conflict" then do
        let _ ← advance
        let _ ← advance
        let s5 ← getP
        let octarget ←
          if s5.tok.type = TokenType.LPAREN then do
            let _ ← advance
            let cs ← parseIdentList f
            let _ ← eat TokenType.RPAREN
            pure cs
          else pure []
        let s6 ← getP
        if s6.tok.type = TokenType.IDENT ∧ equalASCIIFold s6.tok.raw "do" then do
          let _ ← advance
          let s7 ← getP
          if s7.tok.type = TokenType.IDENT ∧ equalASCIIFold s7.tok.raw "nothing" then do
            let _ ← advance
            pure {base with onConflictTarget := octarget, onConflictDoNothing := true}
          else do
            let bUp ← tryEatKeyword TokenType.UPDATE
            if bUp then do
              let _ ← eatKeyword TokenType.SET
              let asgn ← parseAssignments f
              pure {base with onConflictTarget := octarget, onConflictUpdate := asgn}
            else errorf "expected NOTHING or UPDATE in ON CONFLICT DO clause, got %q"
        else errorf "expected DO in ON CONFLICT clause, got %q"
      else pure base
    else pure base

/-- Go `Parser.parseReplace`. -/
def parseReplace : Nat → PM InsertStmt
  | 0 => fun _ => .error .fuelOut
  | f + 1 => do
    let s ← getP
    let pos := s.tok.pos
    let _ ← advance
    let _ ← tryEatKeyword TokenType.INTO
    let name ← parseQualifiedIdent f
    let s2 ← getP
    let cols ←
      if s2.tok.type = TokenType.LPAREN then do
        let _ ← advance
        let cs ← parseIdentList f
        let _ ← eat TokenType.RPAREN
        pure cs
      else pure []
    let bV ← tryEatKeyword TokenType.VALUES
    let vals ←
      if bV then parseValuesRows f []
      else pure []
    pure {table := some name, columns := cols, values := vals, replace := true,
          tokPos := pos}

/-- Go `Parser.parseUpdate`. -/
def parseUpdate : Nat → PM UpdateStmt
  | 0 => fun _ => .error .fuelOut
  | f + 1 => do
    let s ← getP
    let pos := s.tok.pos
    let _ ← advance
    let refs ← parseTableRefs f
    let _ ← eatKeyword TokenType.SET
    let asgn ← parseAssignments f
    let bW ← tryEatKeyword TokenType.WHERE
    let wh ←
      if bW then do
        let e ← parseExpr f 0
        pure (some e)
      else pure none
    let s2 ← getP
    let ord ←
      if s2.tok.type = TokenType.ORDER then do
        let pk ← peekToken
        if pk.type = TokenType.BY then do
          let _ ← advance
          let _ ← advance
          parseOrderBy f
        else pure []
      else pure []
    let bL ← tryEatKeyword TokenType.LIMIT
    let lim ←
      if bL then do
        let l ← parseLimit f
        pure (some l)
      else pure none
    pure {tables := refs, setCl := asgn, whereC := wh, order := ord, limit := lim,
          tokPos := pos}

/-- Go `Parser.parseDelete`. -/
def parseDelete : Nat → PM DeleteStmt
  | 0 => fun _ => .error .fuelOut
  | f + 1 => do
    let s ← getP
    let pos := s.tok.pos
    let _ ← advance
    let _ ← tryEatKeyword TokenType.FROM
    let refs ← parseTableRefs f
    let bW ← tryEatKeyword TokenType.WHERE
    let wh ←
      if bW then do
        let e ← parseExpr f 0
        pure (some e)
      else pure none
    let s2 ← getP
    let ord ←
      if s2.tok.type = TokenType.ORDER then do
        let pk ← peekToken
        if pk.type = TokenType.BY then do
          let _ ← advance
          let _ ← advance
          parseOrderBy f
        else pure []
      else pure []
    let bL ← tryEatKeyword TokenType.LIMIT
    let lim ←
      if bL then do
        let l ← parseLimit f
        pure (some l)
      else pure none
    pure {fromRefs := refs, whereC := wh, order := ord, limit := lim, tokPos := pos}

/-- Go `Parser.parseCreate` (CREATE dispatch; `temporary` is parsed but
discarded, as in the source). -/
def parseCreate : Nat → PM Statement
  | 0 => fun _ => .error .fuelOut
  | f + 1 => do
    let _ ← advance
    let s ← getP
    let orReplace ←
      if s.tok.type = TokenType.IDENT ∧ equalASCIIFold s.tok.raw "or" then do
        let _ ← advance
        let _ ← eatKeyword TokenType.REPLACE
        pure true
      else pure false
    let s2 ← getP
    let _ ←
      if s2.tok.type = TokenType.IDENT ∧ equalASCIIFold s2.tok.raw "temporary" then do
        let _ ← advance
        pure true
      else pure false
    let s3 ← getP
    let t := s3.tok.type
    if t = TokenType.DATABASE then do
      let st ← parseCreateDatabase f
      pure (.createDatabaseS st)
    else if t = TokenType.TABLE then do
      let st ← parseCreateTable f orReplace
      pure (.createTableS st)
    else if t = TokenType.VIEW then do
      let st ← parseCreateView f orReplace
      pure (.createViewS st)
    else if t = TokenType.INDEX ∨ t = TokenType.UNIQUE then do
      let st ← parseCreateIndex f
      pure (.createIndexS st)
    else if t = TokenType.FUNCTION ∨ t = TokenType.PROCEDURE ∨ t = TokenType.TRIGGER then do
      let st ← parseGenericDDL f (strBytes "create") s3.tok.raw
      pure (.genericDDLS st)
    else if t = TokenType.IDENT then
      if equalASCIIFold s3.tok.raw "schema" then do
        let st ← parseCreateDatabase f
        pure (.createDatabaseS st)
      else do
        let st ← parseGenericDDL f (strBytes "create") s3.tok.raw
        pure (.genericDDLS st)
    else do
      let st ← parseGenericDDL f (strBytes "create") s3.tok.raw
      pure (.genericDDLS st)

/-- Go `Parser.parseCreateTable` (`orReplace` is accepted and ignored, as in
the source). -/
def parseCreateTable : Nat → Bool → PM CreateTableStmt
  | 0, _ => fun _ => .error .fuelOut
  | f + 1, _orReplace => do
    let s ← getP
    let pos := s.tok.pos
    let _ ← advance
    let s2 ← getP
    let ifne ←
      if s2.tok.type = TokenType.IF then do
        let _ ← advance
        let _ ← advance
        let _ ← advance
        pure true
      else pure false
    let name ← parseQualifiedIdent f
    let bLike ← tryEatKeyword TokenType.LIKE
    if bLike then do
      let like ← parseQualifiedIdent f
      pure {table := some name, ifNotExists := ifne, like := some like, tokPos := pos}
    else do
      let s3 ← getP
      let body ←
        if s3.tok.type = TokenType.LPAREN then do
          let _ ← advance
          let cc ← parseCreateTableBody f [] []
          let _ ← eat TokenType.RPAREN
          pure cc
        else pure (([], []) : List ColumnDef × List TableConstraint)
      let opts ← tableOptionsLoop f []
      let bAs ← tryEatKeyword TokenType.AS
      let sel ←
        if bAs then do
          let sq ← parseSelect f
          pure (some sq)
        else pure none
      pure {table := some name, ifNotExists := ifne, columns := body.1,
            constraints := body.2, options := opts, selectC := sel, tokPos := pos}

/-- Go `Parser.parseCreateTableBody` (column defs and table constraints,
comma-separated, stopping before `)` or EOF). -/
def parseCreateTableBody :
    Nat → List ColumnDef → List TableConstraint → PM (List ColumnDef × List TableConstraint)
  | 0, _, _ => fun _ => .error .fuelOut
  | f + 1, cols, cons => do
    let s ← getP
    if s.tok.type = TokenType.RPAREN ∨ s.tok.type = TokenType.EOF then pure (cols, cons)
    else do
      let isC ← isConstraintStartP
      if isC then do
        let c ← parseTableConstraint f
        let bC ← tryEat TokenType.COMMA
        if bC then parseCreateTableBody f cols (cons ++ [c])
        else pure (cols, cons ++ [c])
      else do
        let col ← parseColumnDef f
        let bC ← tryEat TokenType.COMMA
        if bC then parseCreateTableBody f (cols ++ [col]) cons
        else pure (cols ++ [col], cons)

/-- Go `Parser.parseColumnDef` (name, data type, then the attribute loop). -/
def parseColumnDef : Nat → PM ColumnDef
  | 0 => fun _ => .error .fuelOut
  | f + 1 => do
    let name ← parseIdent
    let dt ← parseDataType f
    parseColumnAttrs f {name := some name, type := some dt, tokPos := name.tokPos}

/-- The column-attribute loop of Go `parseColumnDef` (NOT NULL, NULL, DEFAULT,
AUTO_INCREMENT, PRIMARY [KEY], UNIQUE [KEY], COMMENT, REFERENCES, CHECK,
COLLATE skip; anything else ends the loop). -/
def parseColumnAttrs : Nat → ColumnDef → PM ColumnDef
  | 0, _ => fun _ => .error .fuelOut
  | f + 1, col => do
    let s ← getP
    let t := s.tok.type
    if t = TokenType.NOT then do
      let _ ← advance
      let _ ← eat TokenType.NULL_KW
      parseColumnAttrs f {col with notNull := true}
    else if t = TokenType.NULL_KW then do
      let _ ← advance
      parseColumnAttrs f col
    else if t = TokenType.DEFAULT then do
      let _ ← advance
      let d ← parseExpr f 0
      parseColumnAttrs f {col with defaultE := some d}
    else if t = TokenType.AUTO_INCREMENT then do
      let _ ← advance
      parseColumnAttrs f {col with autoIncrement := true}
    else if t = TokenType.PRIMARY then do
      let _ ← advance
      let _ ← tryEatKeyword TokenType.KEY
      parseColumnAttrs f {col with primaryKey := true}
    else if t = TokenType.UNIQUE then do
      let _ ← advance
      let _ ← tryEatKeyword TokenType.KEY
      parseColumnAttrs f {col with unique := true}
    else if t = TokenType.COMMENT_KW then do
      let _ ← advance
      let tk ← eat TokenType.STRING
      parseColumnAttrs f {col with comment := some (.litE tk.raw tk.type tk.pos)}
    else if t = TokenType.REFERENCES then do
      let ref ← parseFKRef f
      parseColumnAttrs f {col with references := some ref}
    else if t = TokenType.CHECK then do
      let _ ← advance
      let _ ← eat TokenType.LPAREN
      let e ← parseExpr f 0
      let _ ← eat TokenType.RPAREN
      parseColumnAttrs f {col with check := some e}
    else if t = TokenType.COLLATE then do
      let _ ← advance
      let _ ← advance
      parseColumnAttrs f col
    else pure col

/-- Go `Parser.parseDataType`. -/
def parseDataType : Nat → PM DataType
  | 0 => fun _ => .error .fuelOut
  | f + 1 => do
    let s ← getP
    let name := s.tok.raw
    let pos := s.tok.pos
    let _ ← advance
    let s2 ← getP
    let pse ←
      if s2.tok.type = TokenType.LPAREN then do
        let _ ← advance
        let s3 ← getP
        let p1 ←
          if s3.tok.type = TokenType.INT then do
            let tk ← advance
            pure (natOfDigits tk.raw)
          else pure 0
        let bC ← tryEat TokenType.COMMA
        let sc ←
          if bC then do
            let s4 ← getP
            if s4.tok.type = TokenType.INT then do
              let tk ← advance
              pure (natOfDigits tk.raw)
            else pure 0
          else pure 0
        let s5 ← getP
        let evs ←
          if s5.tok.type = TokenType.STRING then parseEnumValsLoop f []
          else pure []
        let _ ← eat TokenType.RPAREN
        pure ((p1, sc, evs) : Nat × Nat × List (List Nat))
      else pure ((0, 0, []) : Nat × Nat × List (List Nat))
    let s6 ← getP
    if s6.tok.type = TokenType.IDENT then do
      let uns ←
        if equalASCIIFold s6.tok.raw "unsigned" then do
          let _ ← advance
          pure true
        else pure false
      let s7 ← getP
      let zf ←
        if equalASCIIFold s7.tok.raw "zerofill" then do
          let _ ← advance
          pure true
        else pure false
      pure (DataType.mk name pse.1 pse.2.1 uns zf [] [] pse.2.2 pos)
    else pure (DataType.mk name pse.1 pse.2.1 false false [] [] pse.2.2 pos)

/-- Go `Parser.parseTableConstraint`.  In the `UNIQUE` case an inline index
name only fills a still-empty constraint name; in the `INDEX`/`KEY` and
`FOREIGN KEY` cases it overwrites (`c.Name, _ = p.parseIdent()`), as in the
source. -/
def parseTableConstraint : Nat → PM TableConstraint
  | 0 => fun _ => .error .fuelOut
  | f + 1 => do
    let s ← getP
    let pos := s.tok.pos
    let bCon ← tryEatKeyword TokenType.CONSTRAINT
    let nameOpt ←
      if bCon then do
        let s1 ← getP
        if s1.tok.type = TokenType.IDENT ∨ s1.tok.type = TokenType.BACKTICK then do
          let n ← parseIdent
          pure (some n)
        else pure none
      else pure none
    let s2 ← getP
    let t := s2.tok.type
    if t = TokenType.PRIMARY then do
      let _ ← advance
      let _ ← tryEatKeyword TokenType.KEY
      let cols ← parseIndexColDefs f
      pure {name := nameOpt, type := .primaryKeyConstraint, columns := cols, tokPos := pos}
    else if t = TokenType.UNIQUE then do
      let _ ← advance
      let _ ← tryEatKeyword TokenType.KEY
      let _ ← tryEatKeyword TokenType.INDEX
      let s3 ← getP
      let nm2 ←
        if s3.tok.type = TokenType.IDENT ∨ s3.tok.type = TokenType.BACKTICK then do
          let n ← parseIdent
          pure (some n)
        else pure none
      let finalName :=
        match nameOpt with
        | some x => some x
        | none => nm2
      let cols ← parseIndexColDefs f
      pure {name := finalName, type := .uniqueConstraint, columns := cols, tokPos := pos}
    else if t = TokenType.INDEX ∨ t = TokenType.KEY then do
      let _ ← advance
      let s3 ← getP
      let nm2 ←
        if s3.tok.type = TokenType.IDENT ∨ s3.tok.type = TokenType.BACKTICK then do
          let n ← parseIdent
          pure (some n)
        else pure none
      let finalName :=
        match nm2 with
        | some x => some x
        | none => nameOpt
      let cols ← parseIndexColDefs f
      pure {name := finalName, type := .indexConstraint, columns := cols, tokPos := pos}
    else if t = TokenType.FOREIGN then do
      let _ ← advance
      let _ ← eatKeyword TokenType.KEY
      let s3 ← getP
      let nm2 ←
        if s3.tok.type = TokenType.IDENT ∨ s3.tok.type = TokenType.BACKTICK then do
          let n ← parseIdent
          pure (some n)
        else pure none
      let finalName :=
        match nm2 with
        | some x => some x
        | none => nameOpt
      let cols ← parseIndexColDefs f
      let ref ← parseFKRef f
      pure {name := finalName, type := .foreignKeyConstraint, columns := cols,
            refTable := ref.table, refCols := ref.columns, onDelete := ref.onDelete,
            onUpdate := ref.onUpdate, tokPos := pos}
    else if t = TokenType.CHECK then do
      let _ ← advance
      let _ ← eat TokenType.LPAREN
      let e ← parseExpr f 0
      let _ ← eat TokenType.RPAREN
      pure {name := nameOpt, type := .checkConstraint, check := some e, tokPos := pos}
    else errorf "expected constraint type, got %q"

/-- Go `Parser.parseIndexColDefs`. -/
def parseIndexColDefs : Nat → PM (List IndexColDef)
  | 0 => fun _ => .error .fuelOut
  | f + 1 => do
    let _ ← eat TokenType.LPAREN
    let cols ← sepListPM (parseIndexColDef f) TokenType.COMMA f
    let _ ← eat TokenType.RPAREN
    pure cols

/-- One column of Go `parseIndexColDefs`'s loop (name, optional length,
DESC or optional ASC). -/
def parseIndexColDef : Nat → PM IndexColDef
  | 0 => fun _ => .error .fuelOut
  | f + 1 => do
    let name ← parseIdent
    let s ← getP
    let len ←
      if s.tok.type = TokenType.LPAREN then do
        let _ ← advance
        let tk ← eat TokenType.INT
        let _ ← eat TokenType.RPAREN
        pure (some (natOfDigits tk.raw))
      else pure none
    let bD ← tryEatKeyword TokenType.DESC
    if bD then pure ⟨some name, len, true⟩
    else do
      let _ ← tryEatKeyword TokenType.ASC
      pure ⟨some name, len, false⟩

/-- Go `Parser.parseFKRef`. -/
def parseFKRef : Nat → PM ForeignKeyRef
  | 0 => fun _ => .error .fuelOut
  | f + 1 => do
    let _ ← eatKeyword TokenType.REFERENCES
    let table ← parseQualifiedIdent f
    let s ← getP
    let cols ←
      if s.tok.type = TokenType.LPAREN then do
        let _ ← advance
        let cs ← parseIdentList f
        let _ ← eat TokenType.RPAREN
        pure cs
      else pure []
    parseFKOnLoop f {table := some table, columns := cols, onDelete := .noAction,
                     onUpdate := .noAction}

/-- The `ON DELETE`/`ON UPDATE` loop of Go `parseFKRef`. -/
def parseFKOnLoop : Nat → ForeignKeyRef → PM ForeignKeyRef
  | 0, _ => fun _ => .error .fuelOut
  | f + 1, ref => do
    let s ← getP
    if s.tok.type = TokenType.ON then do
      let _ ← advance
      let s2 ← getP
      if s2.tok.type = TokenType.DELETE then do
        let _ ← advance
        let a ← parseRefAction
        parseFKOnLoop f {ref with onDelete := a}
      else if s2.tok.type = TokenType.UPDATE then do
        let _ ← advance
        let a ← parseRefAction
        parseFKOnLoop f {ref with onUpdate := a}
      else parseFKOnLoop f ref
    else pure ref

/-- Go `Parser.parseCreateIndex`. -/
def parseCreateIndex : Nat → PM CreateIndexStmt
  | 0 => fun _ => .error .fuelOut
  | f + 1 => do
    let s ← getP
    let pos := s.tok.pos
    let uq ← tryEatKeyword TokenType.UNIQUE
    let typ := if uq then ConstraintType.uniqueConstraint else ConstraintType.indexConstraint
    let _ ← tryEatKeyword TokenType.INDEX
    let name ← parseIdent
    let _ ← eatKeyword TokenType.ON
    let table ← parseQualifiedIdent f
    let cols ← parseIndexColDefs f
    pure {name := some name, table := some table, columns := cols, type := typ,
          tokPos := pos}

/-- Go `Parser.parseCreateView`. -/
def parseCreateView : Nat → Bool → PM CreateViewStmt
  | 0, _ => fun _ => .error .fuelOut
  | f + 1, orReplace => do
    let s ← getP
    let pos := s.tok.pos
    let _ ← advance
    let name ← parseQualifiedIdent f
    let s2 ← getP
    let cols ←
      if s2.tok.type = TokenType.LPAREN then do
        let _ ← advance
        let cs ← parseIdentList f
        let _ ← eat TokenType.RPAREN
        pure cs
      else pure []
    let _ ← eatKeyword TokenType.AS
    let sq ← parseSelect f
    pure {name := some name, columns := cols, selectC := sq, orReplace := orReplace,
          tokPos := pos}

/-- Go `Parser.parseAlter`. -/
def parseAlter : Nat → PM Statement
  | 0 => fun _ => .error .fuelOut
  | f + 1 => do
    let s ← getP
    let pos := s.tok.pos
    let _ ← advance
    let s2 ← getP
    if s2.tok.type = TokenType.DATABASE ∨
        (s2.tok.type = TokenType.IDENT ∧ equalASCIIFold s2.tok.raw "schema") then do
      let st ← parseAlterDatabase f pos
      pure (.alterDatabaseS st)
    else do
      let bT ← tryEatKeyword TokenType.TABLE
      if bT then do
        let name ← parseQualifiedIdent f
        let cmds ← sepListPM (parseAlterCmd f) TokenType.COMMA f
        pure (.alterTableS {table := some name, cmds := cmds, tokPos := pos})
      else do
        let s3 ← getP
        let st ← parseGenericDDL f (strBytes "alter") s3.tok.raw
        pure (.genericDDLS st)

/-- Go `Parser.parseAlterCmd`. -/
def parseAlterCmd : Nat → PM AlterCmd
  | 0 => fun _ => .error .fuelOut
  | f + 1 => do
    let s ← getP
    let pos := s.tok.pos
    let t := s.tok.type
    if t = TokenType.ADD then do
      let _ ← advance
      let _ ← tryEatKeyword TokenType.COLUMN
      let isC ← isConstraintStartP
      if isC then do
        let c ← parseTableConstraint f
        pure (.addConstraintC c pos)
      else do
        let col ← parseColumnDef f
        let bF ← tryEatKeyword TokenType.FIRST
        if bF then pure (.addColumnC col true none pos)
        else do
          let bA ← tryEatKeyword TokenType.AFTER
          if bA then do
            let a ← parseIdent
            pure (.addColumnC col false (some a) pos)
          else pure (.addColumnC col false none pos)
    else if t = TokenType.DROP then do
      let _ ← advance
      let bCol ← tryEatKeyword TokenType.COLUMN
      let s2 ← getP
      if bCol ∨ s2.tok.type = TokenType.IDENT ∨ s2.tok.type = TokenType.BACKTICK then do
        let n ← parseIdent
        pure (.dropColumnC (some n) pos)
      else do
        let bI ← tryEatKeyword TokenType.INDEX
        if bI then do
          let n ← parseIdent
          pure (.dropIndexC (some n) pos)
        else do
          let bK ← tryEatKeyword TokenType.KEY
          if bK then do
            let n ← parseIdent
            pure (.dropIndexC (some n) pos)
          else errorf "unexpected ALTER TABLE command: %q"
    else if t = TokenType.IDENT then
      if equalASCIIFold s.tok.raw "modify" then do
        let _ ← advance
        let _ ← tryEatKeyword TokenType.COLUMN
        let col ← parseColumnDef f
        let bF ← tryEatKeyword TokenType.FIRST
        if bF then pure (.modifyColumnC col true none pos)
        else do
          let bA ← tryEatKeyword TokenType.AFTER
          if bA then do
            let a ← parseIdent
            pure (.modifyColumnC col false (some a) pos)
          else pure (.modifyColumnC col false none pos)
      else errorf "unexpected ALTER TABLE command: %q"
    else if t = TokenType.RENAME then do
      let _ ← advance
      let _ ← tryEatKeyword TokenType.TO
      let nn ← parseQualifiedIdent f
      pure (.renameTableC (some nn) pos)
    else errorf "unexpected ALTER TABLE command: %q"

/-- Go `Parser.parseDrop` (DROP dispatch; the `VIEW` case records the
position of the token after `VIEW`, as the source reads `p.tok.Pos` after
advancing). -/
def parseDrop : Nat → PM Statement
  | 0 => fun _ => .error .fuelOut
  | f + 1 => do
    let _ ← advance
    let s ← getP
    let t := s.tok.type
    if t = TokenType.DATABASE then do
      let st ← parseDropDatabase
      pure (.dropDatabaseS st)
    else if t = TokenType.TABLE then do
      let st ← parseDropTable f
      pure (.dropTableS st)
    else if t = TokenType.INDEX then do
      let st ← parseDropIndex f
      pure (.dropIndexS st)
    else if t = TokenType.FUNCTION ∨ t = TokenType.PROCEDURE ∨ t = TokenType.TRIGGER then do
      let st ← parseGenericDDL f (strBytes "drop") s.tok.raw
      pure (.genericDDLS st)
    else if t = TokenType.VIEW then do
      let _ ← advance
      let s2 ← getP
      let pos := s2.tok.pos
      let n ← parseQualifiedIdent f
      pure (.dropTableS {tables := [n], tokPos := pos})
    else if t = TokenType.IDENT then
      if equalASCIIFold s.tok.raw "schema" then do
        let st ← parseDropDatabase
        pure (.dropDatabaseS st)
      else do
        let st ← parseGenericDDL f (strBytes "drop") s.tok.raw
        pure (.genericDDLS st)
    else do
      let st ← parseGenericDDL f (strBytes "drop") s.tok.raw
      pure (.genericDDLS st)

/-- Go `Parser.parseShow`. -/
def parseShow : Nat → PM ShowStmt
  | 0 => fun _ => .error .fuelOut
  | f + 1 => do
    let s ← getP
    let pos := s.tok.pos
    let _ ← advance
    let s2 ← getP
    let what := s2.tok.raw
    let _ ← advance
    let bL ← tryEatKeyword TokenType.LIKE
    if bL then do
      let tk ← eat TokenType.STRING
      pure {what := what, like := some (.litE tk.raw tk.type tk.pos), tokPos := pos}
    else do
      let bW ← tryEatKeyword TokenType.WHERE
      if bW then do
        let w ← parseExpr f 0
        pure {what := what, whereC := some w, tokPos := pos}
      else pure {what := what, tokPos := pos}

/-- Go `Parser.parseExplain`. -/
def parseExplain : Nat → PM Statement
  | 0 => fun _ => .error .fuelOut
  | f + 1 => do
    let s ← getP
    let pos := s.tok.pos
    let _ ← advance
    let inner ← parseStatement f
    pure (.explainS inner pos)

/-- Go `Parser.parseCall`. -/
def parseCall : Nat → PM CallStmt
  | 0 => fun _ => .error .fuelOut
  | f + 1 => do
    let s ← getP
    let pos := s.tok.pos
    let _ ← advance
    let name ← parseQualifiedIdent f
    let bL ← tryEat TokenType.LPAREN
    if bL then do
      let s2 ← getP
      let args ←
        if s2.tok.type = TokenType.RPAREN then pure ([] : List Expr)
        else parseExprList f
      let _ ← eat TokenType.RPAREN
      pure {name := some name, args := args, tokPos := pos}
    else pure {name := some name, tokPos := pos}

/-- One assignment of Go `parseAssignments`'s loop (`col = expr`). -/
def parseAssignment : Nat → PM Assignment
  | 0 => fun _ => .error .fuelOut
  | f + 1 => do
    let col ← parseIdent
    let _ ← eat TokenType.EQ
    let v ← parseExpr f 0
    pure ⟨some col, v⟩

/-- Go `Parser.parseAssignments`. -/
def parseAssignments : Nat → PM (List Assignment)
  | 0 => fun _ => .error .fuelOut
  | f + 1 => sepListPM (parseAssignment f) TokenType.COMMA f

end

/-- Go `Parser.skipSemis`. -/
def skipSemis : Nat → PM Unit
  | 0 => fun _ => .error .fuelOut
  | f + 1 => do
    let s ← getP
    if s.tok.type = TokenType.SEMICOLON then do
      let _ ← advance
      skipSemis f
    else pure ()

/-- Go `parser.New` / `parser.NewString`: fresh lexer, prime `p.tok` with the
first token, no peek. -/
def mkParser (src : List Nat) : PState :=
  ⟨(next (Lexer.new src)).2, (next (Lexer.new src)).1, none⟩

/-- Go `Parser.ParseOne`: skip semicolons; at EOF return the nil statement
(`none`) and nil error; otherwise one statement, then skip semicolons. -/
def ParseOne (f : Nat) : PM (Option Statement) := do
  let _ ← skipSemis f
  let s ← getP
  if s.tok.type = TokenType.EOF then pure none
  else do
    let st ← parseStatement f
    let _ ← skipSemis f
    pure (some st)

/-- Go `parser.ParseStatement` (one-shot entry point): a fresh parser on
`src`, then `ParseOne`. -/
def ParseStatementGo (f : Nat) (src : List Nat) : Except PFail (Option Statement × PState) :=
  ParseOne f (mkParser src)

/-- The statement loop of Go `Parser.ParseAll`. -/
def parseAllLoop : Nat → List Statement → PM (List Statement)
  | 0, _ => fun _ => .error .fuelOut
  | f + 1, acc => do
    let _ ← skipSemis f
    let s ← getP
    if s.tok.type = TokenType.EOF then pure acc
    else do
      let st ← parseStatement f
      parseAllLoop f (acc ++ [st])

/-- Go `Parser.ParseAll`. -/
def ParseAll (f : Nat) : PM (List Statement) := parseAllLoop f []

/-- Go `parser.ParseStatements` (entry point used by `ConvertDialect`). -/
def ParseStatementsGo (f : Nat) (src : List Nat) : Except PFail (List Statement × PState) :=
  ParseAll f (mkParser src)

/-! ## Claims C4 and C10 -/

/-- c4: `parseLimit` gives `LIMIT a OFFSET b` and the MySQL comma form
`LIMIT b, a` the same limit clause, count `a` and offset `b`; and every limit
clause it returns has its count present.  The hypotheses describe the two
token streams through the embedded `parseExpr`: in the first, `parseExpr`
yields `a` leaving an `OFFSET` token, then yields `b`; in the second it
yields `b` leaving a comma, then yields `a` (Go `parseLimit` lines 1114-1136:
the comma branch runs `lim.Offset = lim.Count; lim.Count = off`). -/
theorem c4_limit_offset_comma_equiv (f : Nat)
    (st1 st2 st3 st4 t1 t2 t3 t4 : PState) (a b : Expr)
    (h1 : parseExpr f 0 st1 = .ok (a, st2))
    (h2 : st2.tok.type = TokenType.OFFSET)
    (h3 : advance st2 = .ok (st2.tok, st3))
    (h4 : parseExpr f 0 st3 = .ok (b, st4))
    (g1 : parseExpr f 0 t1 = .ok (b, t2))
    (g2 : t2.tok.type = TokenType.COMMA)
    (g3 : advance t2 = .ok (t2.tok, t3))
    (g4 : parseExpr f 0 t3 = .ok (a, t4)) :
    parseLimit (f + 1) st1 = .ok (.mk (some a) (some b), st4) ∧
    parseLimit (f + 1) t1 = .ok (.mk (some a) (some b), t4) ∧
    ∀ (g : Nat) (u u' : PState) (lc : LimitClause),
      parseLimit g u = .ok (lc, u') → ∃ c, lc.count = some c := by
  refine ⟨?_, ?_, ?_⟩
  · simp only [parseLimit, pm_bind_apply, pm_pure_apply, tryEatKeyword, tryEat,
      getP, h1, h2, h3, h4, reduceCtorEq, reduceIte]
  · simp only [parseLimit, pm_bind_apply, pm_pure_apply, tryEatKeyword, tryEat,
      getP, g1, g2, reduceCtorEq, reduceIte]
    rw [if_neg (show ¬(TokenType.COMMA = TokenType.OFFSET) by decide)]
    simp only [pm_bind_apply, pm_pure_apply, getP, g2, g3, g4, reduceCtorEq,
      reduceIte]
  · intro g u u' lc h
    match g with
    | 0 => exact absurd h (by simp [parseLimit])
    | g' + 1 =>
      simp only [parseLimit] at h
      obtain ⟨c0, u1, hc, h⟩ := pm_bind_ok h
      obtain ⟨bo, u2, ht, h⟩ := pm_bind_ok h
      cases bo with
      | true =>
        rw [if_pos rfl] at h
        obtain ⟨off, u3, ho, h⟩ := pm_bind_ok h
        rw [pm_pure_apply] at h
        cases h
        exact ⟨c0, rfl⟩
      | false =>
        rw [if_neg (by decide)] at h
        obtain ⟨bc, u3, ht2, h⟩ := pm_bind_ok h
        cases bc with
        | true =>
          rw [if_pos rfl] at h
          obtain ⟨off, u4, ho, h⟩ := pm_bind_ok h
          rw [pm_pure_apply] at h
          cases h
          exact ⟨off, rfl⟩
        | false =>
          rw [if_neg (by decide)] at h
          rw [pm_pure_apply] at h
          cases h
          exact ⟨c0, rfl⟩

set_option maxHeartbeats 8000000 in
set_option maxRecDepth 100000 in
/-- c4 witness: concrete parser states for `1 OFFSET 2` and for the comma
form `2, 1` (current token plus lookahead slot, remaining input in the
lexer); both runs of `parseLimit` return the identical limit clause with
count `1` and offset `2`. -/
theorem c4_limit_offset_comma_equiv_witness :
    parseLimit 5 ⟨Lexer.new (strBytes "2"), ⟨TokenType.INT, strBytes "1", 0, 1, 1⟩,
        some ⟨TokenType.OFFSET, strBytes "OFFSET", 2, 1, 3⟩⟩ =
      .ok (.mk (some (.litE (strBytes "1") TokenType.INT 0))
               (some (.litE (strBytes "2") TokenType.INT 0)),
           ⟨⟨strBytes "2", 1, 1, 2⟩, ⟨TokenType.EOF, [], 1, 1, 2⟩, none⟩) ∧
    parseLimit 5 ⟨Lexer.new (strBytes "1"), ⟨TokenType.INT, strBytes "2", 0, 1, 1⟩,
        some ⟨TokenType.COMMA, strBytes ",", 1, 1, 2⟩⟩ =
      .ok (.mk (some (.litE (strBytes "1") TokenType.INT 0))
               (some (.litE (strBytes "2") TokenType.INT 0)),
           ⟨⟨strBytes "1", 1, 1, 2⟩, ⟨TokenType.EOF, [], 1, 1, 2⟩, none⟩) := by
  have h := c4_limit_offset_comma_equiv 4
    ⟨Lexer.new (strBytes "2"), ⟨TokenType.INT, strBytes "1", 0, 1, 1⟩,
      some ⟨TokenType.OFFSET, strBytes "OFFSET", 2, 1, 3⟩⟩
    ⟨Lexer.new (strBytes "2"), ⟨TokenType.OFFSET, strBytes "OFFSET", 2, 1, 3⟩, none⟩
    ⟨⟨strBytes "2", 1, 1, 2⟩, ⟨TokenType.INT, strBytes "2", 0, 1, 1⟩, none⟩
    ⟨⟨strBytes "2", 1, 1, 2⟩, ⟨TokenType.EOF, [], 1, 1, 2⟩, none⟩
    ⟨Lexer.new (strBytes "1"), ⟨TokenType.INT, strBytes "2", 0, 1, 1⟩,
      some ⟨TokenType.COMMA, strBytes ",", 1, 1, 2⟩⟩
    ⟨Lexer.new (strBytes "1"), ⟨TokenType.COMMA, strBytes ",", 1, 1, 2⟩, none⟩
    ⟨⟨strBytes "1", 1, 1, 2⟩, ⟨TokenType.INT, strBytes "1", 0, 1, 1⟩, none⟩
    ⟨⟨strBytes "1", 1, 1, 2⟩, ⟨TokenType.EOF, [], 1, 1, 2⟩, none⟩
    (.litE (strBytes "1") TokenType.INT 0) (.litE (strBytes "2") TokenType.INT 0)
    (by simp +decide [parseExpr, parseUnary, parsePrimary, parseExprLoop,
      parseExprBin, tokenPrec, pm_bind_apply, pm_pure_apply, getP, advance,
      peekToken, errorf, next, tokenDispatch, Lexer.new, lexNumber, numberCore,
      numberFrac, numberExp, digitRun, strBytes, getByte, sub, isDigitB,
      isAlphaB, isSpaceB, isIdentContB])
    (by decide)
    (by simp +decide [advance, next, Lexer.new, tokenDispatch, lexNumber,
      numberCore, numberFrac, numberExp, digitRun, strBytes, getByte, sub,
      isDigitB, isAlphaB, isSpaceB, isIdentContB])
    (by simp +decide [parseExpr, parseUnary, parsePrimary, parseExprLoop,
      parseExprBin, tokenPrec, pm_bind_apply, pm_pure_apply, getP, advance,
      peekToken, errorf, next, tokenDispatch, Lexer.new, lexNumber, numberCore,
      numberFrac, numberExp, digitRun, strBytes, getByte, sub, isDigitB,
      isAlphaB, isSpaceB, isIdentContB])
    (by simp +decide [parseExpr, parseUnary, parsePrimary, parseExprLoop,
      parseExprBin, tokenPrec, pm_bind_apply, pm_pure_apply, getP, advance,
      peekToken, errorf, next, tokenDispatch, Lexer.new, lexNumber, numberCore,
      numberFrac, numberExp, digitRun, strBytes, getByte, sub, isDigitB,
      isAlphaB, isSpaceB, isIdentContB])
    (by decide)
    (by simp +decide [advance, next, Lexer.new, tokenDispatch, lexNumber,
      numberCore, numberFrac, numberExp, digitRun, strBytes, getByte, sub,
      isDigitB, isAlphaB, isSpaceB, isIdentContB])
    (by simp +decide [parseExpr, parseUnary, parsePrimary, parseExprLoop,
      parseExprBin, tokenPrec, pm_bind_apply, pm_pure_apply, getP, advance,
      peekToken, errorf, next, tokenDispatch, Lexer.new, lexNumber, numberCore,
      numberFrac, numberExp, digitRun, strBytes, getByte, sub, isDigitB,
      isAlphaB, isSpaceB, isIdentContB])
  exact ⟨h.1, h.2.1⟩

set_option maxHeartbeats 8000000 in
set_option maxRecDepth 100000 in
/-- c10: statement-free input is not always accepted.  The source `/*x` is
whitespace/comments only under the specification's comment rules (an
unterminated block comment extends to end of input), yet the code's `ParseOne`
on a fresh parser returns a `ParseError` ("unexpected token %q at start of
statement" at the re-lexed final byte) rather than a nil statement and nil
error.  By contrast, a terminated comment with semicolons and whitespace
(` /* c */ ; `) does give the nil statement (`none`) with no error.  Fuel 50
is ample for these inputs (the run ends well before exhausting it). -/
theorem c10_comment_only_input_divergence :
    ParseStatementGo 50 (strBytes "/*x") =
      .error (.err ⟨strBytes "unexpected token %q at start of statement", 2, 1, 3⟩) ∧
    ParseStatementGo 50 (strBytes " /* c */ ; ") =
      .ok (none, ⟨⟨strBytes " /* c */ ; ", 11, 1, 12⟩,
                  ⟨TokenType.EOF, [], 11, 1, 12⟩, none⟩) := by
  constructor
  · simp +decide [ParseStatementGo, ParseOne, mkParser, skipSemis, parseStatement,
      parseIdentLedStatement, pm_bind_apply, pm_pure_apply, getP, advance,
      peekToken, errorf, equalASCIIFold,
      next, tokenDispatch, Lexer.new, skipSpaces, skipLine, skipBlock, identRun,
      digitRun, lexIdent, lexNumber, numberCore, numberFrac, numberExp,
      punctCore, punctCoreA2, punctCoreB, punctCoreC, lexPunct, carriageEnd,
      lookupKeyword, keywordWords, keywordWords1, keywordWords2, keywordWords3,
      keywordWords4, keywordWords5, keywordWords6, strBytes, getByte, sub,
      toLowerBytes, lowerByte, isDigitB, isAlphaB, isSpaceB, isIdentContB]
  · simp +decide [ParseStatementGo, ParseOne, mkParser, skipSemis,
      parseStatement, parseIdentLedStatement, pm_bind_apply, pm_pure_apply, getP,
      advance, peekToken, errorf, equalASCIIFold,
      next, tokenDispatch, Lexer.new, skipSpaces, skipLine, skipBlock, identRun,
      digitRun, lexIdent, lexNumber, numberCore, numberFrac, numberExp,
      punctCore, punctCoreA2, punctCoreB, punctCoreC, lexPunct, carriageEnd,
      lookupKeyword, keywordWords, keywordWords1, keywordWords2, keywordWords3,
      keywordWords4, keywordWords5, keywordWords6, strBytes, getByte, sub,
      toLowerBytes, lowerByte, isDigitB, isAlphaB, isSpaceB, isIdentContB]

/-! ## Dialect renderer (`parser.go` lines 3140-4267, package `sqlparser`)

Each Go render function appends text to a `strings.Builder` (or concatenates
strings) and returns it; the only mutable renderer state is `paramIndex`.
Here a render computation is a function from the incoming parameter index to
the produced output and the new index.  Output is a list of `Chunk`s: plain
text (`.str`) or an emitted parameter placeholder (`.param`), so that the
parameter trace is observable; concatenating the chunks' bytes gives the Go
string.  Functions whose Go signature has an `error` return are `RFal`
(failure or chunks, plus the index, which Go mutates even on error paths);
the rest are `RStr`.  `seqS`/`seqF` mirror sequential appends, `liftF` an
infallible append inside a fallible function, `swallowF` the Go call sites
that discard the error of a sub-render (`sub, _ := r.renderSelect(...)`),
keeping the index but dropping the text, exactly as Go does. -/

/-- A piece of rendered output: plain text or one parameter placeholder. -/
inductive Chunk where
  | str (s : List Nat)
  | param (s : List Nat)
  deriving DecidableEq

/-- The bytes of a chunk. -/
def Chunk.bytes : Chunk → List Nat
  | .str s => s
  | .param s => s

/-- The rendered byte string (what Go's builder would contain). -/
def chunksBytes (cs : List Chunk) : List Nat :=
  cs.foldr (fun c acc => c.bytes ++ acc) []

/-- The parameter placeholders of an output, in order. -/
def paramsOf (cs : List Chunk) : List (List Nat) :=
  cs.filterMap fun c =>
    match c with
    | .param s => some s
    | .str _ => none

/-- Go `sqlparser.Dialect` (`type Dialect string`). -/
abbrev Dialect := String

/-- Go `DialectMySQL`. -/
def DialectMySQL : Dialect := "mysql"

/-- Go `DialectPostgres`. -/
def DialectPostgres : Dialect := "postgres"

/-- Go `DialectSQLite`. -/
def DialectSQLite : Dialect := "sqlite"

/-- Go `dialectRenderer` (minus `paramIndex`, which is threaded explicitly). -/
structure dialectRenderer where
  target : Dialect
  strict : Bool

/-- A renderer error (`fmt.Errorf` message). -/
structure RErr where
  msg : List Nat
  deriving DecidableEq

/-- An infallible render computation: parameter index in, chunks and new
index out. -/
def RStr : Type := Nat → List Chunk × Nat

/-- A fallible render computation (Go `(string, error)` methods). -/
def RFal : Type := Nat → Except RErr (List Chunk) × Nat

/-- Emit fixed bytes (`b.WriteString`/`WriteByte` of parameter-free text). -/
def emitB (s : List Nat) : RStr := fun k => ([.str s], k)

/-- Emit nothing. -/
def emptyS : RStr := fun k => ([], k)

/-- Sequence two infallible renders (append the outputs, thread the index). -/
def seqS (x y : RStr) : RStr := fun k =>
  ((x k).1 ++ (y (x k).2).1, (y (x k).2).2)

/-- Sequence two fallible renders; a failure stops the sequence (Go
`if err != nil { return "", err }`), keeping the index reached. -/
def seqF (x y : RFal) : RFal := fun k =>
  match x k with
  | (.error e, k1) => (.error e, k1)
  | (.ok c1, k1) =>
    match y k1 with
    | (.error e, k2) => (.error e, k2)
    | (.ok c2, k2) => (.ok (c1 ++ c2), k2)

/-- An infallible render inside a fallible function. -/
def liftF (x : RStr) : RFal := fun k => (.ok (x k).1, (x k).2)

/-- Go's error-discarding call sites (`sub, _ := r.renderSelect(...)`): on
failure the text is the empty string but the index mutations persist. -/
def swallowF (x : RFal) : RStr := fun k =>
  match x k with
  | (.ok c, k1) => (c, k1)
  | (.error _, k1) => ([], k1)

/-- The renderer's two `fmt.Errorf` sites. -/
def errF (m : List Nat) : RFal := fun k => (.error ⟨m⟩, k)

/-- Go `strings.ToUpper` on the ASCII strings the renderer uppercases. -/
def toUpperBytes (s : List Nat) : List Nat :=
  s.map fun c => if 97 ≤ c ∧ c ≤ 122 then c - 32 else c

/-- Go `strconv.Itoa` on a natural number. -/
def natToBytes (n : Nat) : List Nat :=
  if n < 10 then [48 + n] else natToBytes (n / 10) ++ [48 + n % 10]
termination_by n
decreasing_by omega

/-- Join byte strings with a separator (the `if i > 0` loops over pure
text). -/
def joinBytes (sep : List Nat) : List (List Nat) → List Nat
  | [] => []
  | [x] => x
  | x :: xs => x ++ sep ++ joinBytes sep xs

/-- Go `strings.ReplaceAll(name, q, qq)` for one quote byte doubled. -/
def doubleByte (q : Nat) (s : List Nat) : List Nat :=
  s.foldr (fun b acc => if b = q then q :: q :: acc else b :: acc) []

/-- Go `lexer.tokenNames` (indices 0..56). -/
def tokenNames : List (List Nat) :=
  [strBytes "ILLEGAL", strBytes "EOF", strBytes "COMMENT", strBytes "WHITESPACE",
   strBytes "IDENT", strBytes "INT", strBytes "FLOAT", strBytes "STRING",
   strBytes "BACKTICK", strBytes "DQUOTE", strBytes "HEXLIT", strBytes "BITLIT",
   strBytes "NAMEDPARAM", strBytes "(", strBytes ")", strBytes "\x7b",
   strBytes "\x7d", strBytes "[", strBytes "]", strBytes ",", strBytes ";",
   strBytes ":", strBytes ".", strBytes "..", strBytes "*", strBytes "+",
   strBytes "-", strBytes "/", strBytes "%", strBytes "&", strBytes "|",
   strBytes "^", strBytes "~", strBytes "!", strBytes "?", strBytes "@",
   strBytes "#", strBytes "$", strBytes "=", strBytes "!=", strBytes "<",
   strBytes ">", strBytes "<=", strBytes ">=", strBytes "<<", strBytes ">>",
   strBytes "||", strBytes "&&", strBytes "=>", strBytes "->", strBytes "->>",
   strBytes "#>", strBytes "#>>", strBytes "@>", strBytes "<@", strBytes "?|",
   strBytes "?&"]

/-- Go `TokenType.String()`: the name table, else "UNKNOWN". -/
def tokenNameBytes (t : TokenType) : List Nat :=
  if t.idx < tokenNames.length then tokenNames.getD t.idx []
  else strBytes "UNKNOWN"

/-- Go `dialectRenderer.opString`. -/
def opString (op : TokenType) : List Nat :=
  if op = TokenType.PLUS then strBytes "+"
  else if op = TokenType.MINUS then strBytes "-"
  else if op = TokenType.STAR then strBytes "*"
  else if op = TokenType.SLASH then strBytes "/"
  else if op = TokenType.PERCENT then strBytes "%"
  else if op = TokenType.AND ∨ op = TokenType.DAMP then strBytes "AND"
  else if op = TokenType.OR then strBytes "OR"
  else if op = TokenType.NOT then strBytes "NOT"
  else if op = TokenType.EQ then strBytes "="
  else if op = TokenType.NEQ then strBytes "!="
  else if op = TokenType.LT then strBytes "<"
  else if op = TokenType.GT then strBytes ">"
  else if op = TokenType.LTE then strBytes "<="
  else if op = TokenType.GTE then strBytes ">="
  else if op = TokenType.LSHIFT then strBytes "<<"
  else if op = TokenType.RSHIFT then strBytes ">>"
  else if op = TokenType.DBAR then strBytes "||"
  else if op = TokenType.PIPE then strBytes "|"
  else if op = TokenType.CARET then strBytes "^"
  else if op = TokenType.AMPERSAND then strBytes "&"
  else if op = TokenType.ARROW then strBytes "->"
  else if op = TokenType.DARROW2 then strBytes "->>"
  else if op = TokenType.HASHARROW then strBytes "#>"
  else if op = TokenType.HASHDARROW then strBytes "#>>"
  else if op = TokenType.ATGT then strBytes "@>"
  else if op = TokenType.LTAT then strBytes "<@"
  else if op = TokenType.QUESTION then strBytes "?"
  else if op = TokenType.QMARKPIPE then strBytes "?|"
  else if op = TokenType.QMARKAMP then strBytes "?&"
  else tokenNameBytes op

/-- Go `dialectRenderer.renderIdent`: nil gives "", a bare `*` passes
through, MySQL backtick-quotes (doubling backticks), other targets
double-quote (doubling double quotes). -/
def renderIdent (r : dialectRenderer) (id : Option Ident) : List Nat :=
  match id with
  | none => []
  | some id =>
    if id.unquoted = strBytes "*" then strBytes "*"
    else if r.target = DialectMySQL then 96 :: doubleByte 96 id.unquoted ++ [96]
    else 34 :: doubleByte 34 id.unquoted ++ [34]

/-- Go `dialectRenderer.renderQualifiedIdent`. -/
def renderQualifiedIdent (r : dialectRenderer) (q : Option QualifiedIdent) : List Nat :=
  match q with
  | none => []
  | some q => joinBytes [46] (q.parts.map fun p => renderIdent r (some p))

/-- Go `dialectRenderer.renderFunctionName` (uppercases one-part names and
swaps IFNULL/COALESCE by target). -/
def renderFunctionName (r : dialectRenderer) (name : Option QualifiedIdent) : List Nat :=
  match name with
  | none => []
  | some q =>
    match q.parts with
    | [] => []
    | [p] =>
      if r.target = DialectPostgres ∨ r.target = DialectSQLite then
        if toUpperBytes p.unquoted = strBytes "IFNULL" then strBytes "COALESCE"
        else toUpperBytes p.unquoted
      else if r.target = DialectMySQL then
        if toUpperBytes p.unquoted = strBytes "COALESCE" then strBytes "IFNULL"
        else toUpperBytes p.unquoted
      else toUpperBytes p.unquoted
    | _ => renderQualifiedIdent r (some q)

/-- Go `dialectRenderer.renderDataType`. -/
def renderDataType (r : dialectRenderer) (dt : DataType) : List Nat :=
  (if equalASCIIFold dt.name "jsonb" then
    (if r.target = DialectMySQL then strBytes "JSON"
     else if r.target = DialectSQLite then strBytes "TEXT"
     else dt.name)
   else if equalASCIIFold dt.name "json" then
    (if r.target = DialectSQLite then strBytes "TEXT" else dt.name)
   else dt.name) ++
  (if 0 < dt.precision then
    [40] ++ natToBytes dt.precision ++
      (if 0 < dt.scale then [44] ++ natToBytes dt.scale else []) ++ [41]
   else []) ++
  (if dt.unsigned ∧ r.target = DialectMySQL then strBytes " UNSIGNED" else []) ++
  (if dt.zerofill ∧ r.target = DialectMySQL then strBytes " ZEROFILL" else [])

/-- Go `dialectRenderer.renderConstraint` (note: the switch has no
Fulltext/Spatial cases, and `Check` expressions are not emitted, as in the
source). -/
def renderConstraint (r : dialectRenderer) (c : TableConstraint) : List Nat :=
  (match c.name with
   | some n => strBytes "CONSTRAINT " ++ renderIdent r (some n) ++ [32]
   | none => []) ++
  (match c.type with
   | .primaryKeyConstraint => strBytes "PRIMARY KEY"
   | .uniqueConstraint => strBytes "UNIQUE"
   | .indexConstraint => strBytes "INDEX"
   | .foreignKeyConstraint => strBytes "FOREIGN KEY"
   | .checkConstraint => strBytes "CHECK"
   | .fulltextConstraint => []
   | .spatialConstraint => []) ++
  (if c.columns.isEmpty then []
   else strBytes " (" ++
     joinBytes (strBytes ", ") (c.columns.map fun col => renderIdent r col.name) ++ [41]) ++
  (match c.refTable with
   | none => []
   | some rt =>
     strBytes " REFERENCES " ++ renderQualifiedIdent r (some rt) ++
     (if c.refCols.isEmpty then []
      else strBytes " (" ++
        joinBytes (strBytes ", ") (c.refCols.map fun col => renderIdent r (some col)) ++ [41]))

/-- Go `dialectRenderer.renderTx`. -/
def renderTx (r : dialectRenderer) (s : TransactionStmt) : List Nat :=
  if s.action = strBytes "begin" then strBytes "BEGIN"
  else if s.action = strBytes "commit" then strBytes "COMMIT"
  else if s.action = strBytes "rollback" then
    match s.savepoint with
    | none => strBytes "ROLLBACK"
    | some sp => strBytes "ROLLBACK TO SAVEPOINT " ++ renderIdent r (some sp)
  else if s.action = strBytes "start_transaction" then
    s.options.foldl (fun acc o => acc ++ [32] ++ o) (strBytes "START TRANSACTION")
  else if s.action = strBytes "savepoint" then
    strBytes "SAVEPOINT " ++ renderIdent r s.savepoint
  else if s.action = strBytes "release_savepoint" then
    strBytes "RELEASE SAVEPOINT " ++ renderIdent r s.savepoint
  else if s.action = strBytes "set_transaction" then
    s.options.foldl (fun acc o => acc ++ [32] ++ o) (strBytes "SET TRANSACTION")
  else toUpperBytes s.action

/-- Go `dialectRenderer.renderGenericDDL`. -/
def renderGenericDDL (r : dialectRenderer) (s : GenericDDLStmt) : List Nat :=
  toUpperBytes s.verb ++ [32] ++ toUpperBytes s.object ++
  (match s.name with
   | some n => [32] ++ renderIdent r (some n)
   | none => [])

/-- Go `dialectRenderer.renderParam`: PostgreSQL bumps the index and emits
`$<index>`; other targets emit `?` (the raw bytes are ignored, as in Go). -/
def renderParam (r : dialectRenderer) (_raw : List Nat) : RStr := fun k =>
  if r.target = DialectPostgres then ([.param (36 :: natToBytes (k + 1))], k + 1)
  else ([.param (strBytes "?")], k)

/-- Go `JoinKind` keywords of `renderTableRef` (with trailing space). -/
def joinKindWord : JoinKind → List Nat
  | .innerJoin => strBytes "JOIN "
  | .leftJoin => strBytes "LEFT JOIN "
  | .rightJoin => strBytes "RIGHT JOIN "
  | .fullJoin => strBytes "FULL JOIN "
  | .crossJoin => strBytes "CROSS JOIN "
  | .naturalJoin => strBytes "NATURAL JOIN "

mutual

/-- Go `dialectRenderer.renderExpr` (returns a plain string in Go: no error;
sub-select renders discard errors).  The `IntervalExpr` node has no case in
the Go switch and falls to the `default: return ""`. -/
def renderExpr (r : dialectRenderer) : Expr → RStr
  | .identE id => emitB (renderIdent r (some id))
  | .qualifiedE q => emitB (renderQualifiedIdent r (some q))
  | .starE _ => emitB (strBytes "*")
  | .litE raw _ _ => emitB raw
  | .nullE _ => emitB (strBytes "NULL")
  | .paramE raw _ => renderParam r raw
  | .binaryE l rr op _ =>
    seqS (emitB [40])
      (seqS (renderExpr r l)
        (seqS (emitB ([32] ++ opString op ++ [32]))
          (seqS (renderExpr r rr) (emitB [41]))))
  | .unaryE e op _ =>
    seqS (emitB (40 :: opString op ++ [32])) (seqS (renderExpr r e) (emitB [41]))
  | .funcE name args distinct star _ =>
    seqS (emitB (renderFunctionName r name ++ [40]))
      (seqS
        (if star then emitB (strBytes "*")
         else seqS (if distinct then emitB (strBytes "DISTINCT ") else emptyS)
           (renderExprListC r args))
        (emitB [41]))
  | .caseE operand whens elseE _ =>
    seqS (emitB (strBytes "CASE"))
      (seqS
        (match operand with
         | none => emptyS
         | some o => seqS (emitB [32]) (renderExpr r o))
        (seqS (renderWhensC r whens)
          (seqS
            (match elseE with
             | none => emptyS
             | some el => seqS (emitB (strBytes " ELSE ")) (renderExpr r el))
            (emitB (strBytes " END")))))
  | .betweenE e lo hi isNot _ =>
    seqS (renderExpr r e)
      (seqS (if isNot then emitB (strBytes " NOT") else emptyS)
        (seqS (emitB (strBytes " BETWEEN "))
          (seqS (renderExpr r lo)
            (seqS (emitB (strBytes " AND ")) (renderExpr r hi)))))
  | .inE e list subq isNot _ =>
    seqS (renderExpr r e)
      (seqS (if isNot then emitB (strBytes " NOT") else emptyS)
        (seqS (emitB (strBytes " IN ("))
          (seqS
            (match subq with
             | some sq => swallowF (renderSelect r sq)
             | none => renderExprListC r list)
            (emitB [41]))))
  | .likeE e pat esc isNot _ =>
    seqS (renderExpr r e)
      (seqS (if isNot then emitB (strBytes " NOT") else emptyS)
        (seqS (emitB (strBytes " LIKE "))
          (seqS (renderExpr r pat)
            (match esc with
             | none => emptyS
             | some x => seqS (emitB (strBytes " ESCAPE ")) (renderExpr r x)))))
  | .isNullE e isNot _ =>
    seqS (renderExpr r e)
      (emitB (strBytes " IS " ++ (if isNot then strBytes "NOT " else []) ++
        strBytes "NULL"))
  | .existsE sq isNot _ =>
    seqS (emitB ((if isNot then strBytes "NOT " else []) ++ strBytes "EXISTS ("))
      (seqS (swallowF (renderSelect r sq)) (emitB [41]))
  | .subqueryE sq _ =>
    seqS (emitB [40]) (seqS (swallowF (renderSelect r sq)) (emitB [41]))
  | .castE e dt _ =>
    seqS (emitB (strBytes "CAST(")) (seqS (renderExpr r e)
      (emitB (strBytes " AS " ++ renderDataType r dt ++ [41])))
  | .intervalE _ _ _ => emptyS
  | .selectE s =>
    seqS (emitB [40]) (seqS (swallowF (renderSelect r s)) (emitB [41]))

/-- Go `renderExpr` applied to a possibly-nil expression (the nil interface
falls to the switch default, yielding ""). -/
def renderExprOpt (r : dialectRenderer) : Option Expr → RStr
  | none => emptyS
  | some e => renderExpr r e

/-- The comma-joined expression loops of the renderer. -/
def renderExprListC (r : dialectRenderer) : List Expr → RStr
  | [] => emptyS
  | [e] => renderExpr r e
  | e :: rest =>
    seqS (renderExpr r e) (seqS (emitB (strBytes ", ")) (renderExprListC r rest))

/-- The WHEN clause loop of Go `renderExpr`'s `CaseExpr` case. -/
def renderWhensC (r : dialectRenderer) : List WhenClause → RStr
  | [] => emptyS
  | .mk c res :: rest =>
    seqS (emitB (strBytes " WHEN "))
      (seqS (renderExpr r c)
        (seqS (emitB (strBytes " THEN "))
          (seqS (renderExpr r res) (renderWhensC r rest))))

/-- One column of Go `renderSelect`'s column loop. -/
def renderSelectCol1 (r : dialectRenderer) : SelectColumn → RStr
  | .mk e aliasName star =>
    seqS (if star then emitB (strBytes "*") else renderExpr r e)
      (match aliasName with
       | none => emptyS
       | some a => emitB (strBytes " AS " ++ renderIdent r (some a)))

/-- Go `renderSelect`'s comma-joined column list. -/
def renderSelectColsC (r : dialectRenderer) : List SelectColumn → RStr
  | [] => emptyS
  | [c] => renderSelectCol1 r c
  | c :: rest =>
    seqS (renderSelectCol1 r c)
      (seqS (emitB (strBytes ", ")) (renderSelectColsC r rest))

/-- Go `dialectRenderer.renderTableRef` (string-valued in Go; subquery
renders discard errors). -/
def renderTableRef (r : dialectRenderer) : TableRef → RStr
  | .simpleT name aliasName =>
    emitB (renderQualifiedIdent r name ++
      (match aliasName with
       | some a => 32 :: renderIdent r (some a)
       | none => []))
  | .subqueryT sq aliasName _ =>
    seqS (emitB [40])
      (seqS (swallowF (renderSelect r sq))
        (emitB (41 ::
          (match aliasName with
           | some a => 32 :: renderIdent r (some a)
           | none => []))))
  | .joinT left right kind onC usingC _ =>
    seqS (renderTableRef r left)
      (seqS (emitB (32 :: joinKindWord kind))
        (seqS (renderTableRef r right)
          (seqS
            (match onC with
             | none => emptyS
             | some e => seqS (emitB (strBytes " ON ")) (renderExpr r e))
            (emitB
              (if usingC.isEmpty then []
               else strBytes " USING (" ++
                 joinBytes (strBytes ", ")
                   (usingC.map fun id => renderIdent r (some id)) ++ [41])))))

/-- The comma-joined FROM list of Go `renderSelect`/`renderUpdate`/
`renderDelete`. -/
def renderTableRefsC (r : dialectRenderer) : List TableRef → RStr
  | [] => emptyS
  | [t] => renderTableRef r t
  | t :: rest =>
    seqS (renderTableRef r t)
      (seqS (emitB (strBytes ", ")) (renderTableRefsC r rest))

/-- One ORDER BY key of Go `renderSelect` (which writes " ASC" explicitly for
non-descending keys). -/
def renderOrderItemAsc (r : dialectRenderer) : OrderByItem → RStr
  | .mk e desc _ =>
    seqS (renderExpr r e)
      (emitB (if desc then strBytes " DESC" else strBytes " ASC"))

/-- Go `renderSelect`'s comma-joined ORDER BY list. -/
def renderOrderAscC (r : dialectRenderer) : List OrderByItem → RStr
  | [] => emptyS
  | [o] => renderOrderItemAsc r o
  | o :: rest =>
    seqS (renderOrderItemAsc r o)
      (seqS (emitB (strBytes ", ")) (renderOrderAscC r rest))

/-- One CTE of Go `renderWith`'s loop (the CTE body's render error is
discarded: `sub, _ := r.renderSelect(cte.Subq)`). -/
def renderCTE1 (r : dialectRenderer) : CTE → RStr
  | .mk name columns subq =>
    seqS
      (emitB (renderIdent r name ++
        (if columns.isEmpty then []
         else strBytes " (" ++
           joinBytes (strBytes ", ")
             (columns.map fun c => renderIdent r (some c)) ++ [41]) ++
        strBytes " AS ("))
      (seqS (swallowF (renderSelect r subq)) (emitB [41]))

/-- Go `renderWith`'s comma-joined CTE list. -/
def renderCTEsC (r : dialectRenderer) : List CTE → RStr
  | [] => emptyS
  | [c] => renderCTE1 r c
  | c :: rest =>
    seqS (renderCTE1 r c) (seqS (emitB (strBytes ", ")) (renderCTEsC r rest))

/-- Go `dialectRenderer.renderWith` (string-valued; nil gives ""). -/
def renderWith (r : dialectRenderer) : Option WithClause → RStr
  | none => emptyS
  | some (.mk recursive ctes) =>
    seqS (emitB (strBytes "WITH " ++
        (if recursive then strBytes "RECURSIVE " else [])))
      (seqS (renderCTEsC r ctes) (emitB [32]))

/-- Go `dialectRenderer.renderSelect`.  Its only error source is the
propagated error of the set-operation loop's recursive `renderSelect`. -/
def renderSelect (r : dialectRenderer) (s : SelectStmt) : RFal :=
  match s with
  | .mk w distinct cols frm wh grp hav ord lim so _pos =>
    seqF (liftF (renderWith r w))
    (seqF (liftF (emitB (strBytes "SELECT ")))
    (seqF (liftF (if distinct then emitB (strBytes "DISTINCT ") else emptyS))
    (seqF (liftF (renderSelectColsC r cols))
    (seqF (liftF
      (match frm with
       | [] => emptyS
       | f0 :: fs => seqS (emitB (strBytes " FROM ")) (renderTableRefsC r (f0 :: fs))))
    (seqF (liftF
      (match wh with
       | none => emptyS
       | some e => seqS (emitB (strBytes " WHERE ")) (renderExpr r e)))
    (seqF (liftF
      (match grp with
       | [] => emptyS
       | g0 :: gs => seqS (emitB (strBytes " GROUP BY ")) (renderExprListC r (g0 :: gs))))
    (seqF (liftF
      (match hav with
       | none => emptyS
       | some e => seqS (emitB (strBytes " HAVING ")) (renderExpr r e)))
    (seqF (liftF
      (match ord with
       | [] => emptyS
       | o0 :: os => seqS (emitB (strBytes " ORDER BY ")) (renderOrderAscC r (o0 :: os))))
    (seqF (liftF
      (match lim with
       | none => emptyS
       | some (.mk cnt off) =>
         seqS (emitB (strBytes " LIMIT "))
           (seqS (renderExprOpt r cnt)
             (match off with
              | none => emptyS
              | some oe => seqS (emitB (strBytes " OFFSET ")) (renderExpr r oe)))))
    (renderSetOps r so))))))))))

/-- The set-operation loop at the end of Go `renderSelect`: emit the
operator, render the right side (recursively rendering its own chain too, as
the Go code does), then continue from the right side's `SetOp` field. -/
def renderSetOps (r : dialectRenderer) : Option SetOperation → RFal
  | none => liftF emptyS
  | some (.mk op all (.mk w d c f wh g h o l so2 p)) =>
    seqF (liftF (emitB (32 ::
        (match op with
         | .unionOp => strBytes "UNION"
         | .intersectOp => strBytes "INTERSECT"
         | .exceptOp => strBytes "EXCEPT") ++
        (if all then strBytes " ALL" else []))))
    (seqF (liftF (emitB [32]))
    (seqF (renderSelect r (.mk w d c f wh g h o l so2 p))
    (renderSetOps r so2)))

end

/-- Go `dialectRenderer.renderColumnDef` (string-valued). -/
def renderColumnDef (r : dialectRenderer) (c : ColumnDef) : RStr :=
  seqS (emitB (renderIdent r c.name))
  (seqS
    (match c.type with
     | none => emptyS
     | some dt => emitB (32 :: renderDataType r dt))
  (seqS (if c.notNull then emitB (strBytes " NOT NULL") else emptyS)
  (seqS
    (match c.defaultE with
     | none => emptyS
     | some d => seqS (emitB (strBytes " DEFAULT ")) (renderExpr r d))
  (seqS
    (if c.autoIncrement then
      emitB (if r.target = DialectPostgres then
          strBytes " GENERATED BY DEFAULT AS IDENTITY"
        else strBytes " AUTO_INCREMENT")
     else emptyS)
  (seqS (if c.primaryKey then emitB (strBytes " PRIMARY KEY") else emptyS)
  (seqS (if c.unique then emitB (strBytes " UNIQUE") else emptyS)
  (match c.comment with
   | none => emptyS
   | some cm => seqS (emitB (strBytes " COMMENT ")) (renderExpr r cm))))))))

/-- Go `dialectRenderer.renderAlterCmd` (string-valued; the interface default
is unreachable over the closed command type). -/
def renderAlterCmd (r : dialectRenderer) : AlterCmd → RStr
  | .addColumnC col first after _ =>
    seqS (emitB (strBytes "ADD COLUMN "))
      (seqS (renderColumnDef r col)
        (emitB ((if first then strBytes " FIRST" else []) ++
          (match after with
           | some a => strBytes " AFTER " ++ renderIdent r (some a)
           | none => []))))
  | .dropColumnC n _ => emitB (strBytes "DROP COLUMN " ++ renderIdent r n)
  | .modifyColumnC col first after _ =>
    seqS (emitB (strBytes "MODIFY COLUMN "))
      (seqS (renderColumnDef r col)
        (emitB ((if first then strBytes " FIRST" else []) ++
          (match after with
           | some a => strBytes " AFTER " ++ renderIdent r (some a)
           | none => []))))
  | .addConstraintC c _ => emitB (strBytes "ADD " ++ renderConstraint r c)
  | .dropIndexC n _ => emitB (strBytes "DROP INDEX " ++ renderIdent r n)
  | .renameTableC nn _ => emitB (strBytes "RENAME TO " ++ renderQualifiedIdent r nn)

/-- The non-first commands of `renderAlterCmdsC`. -/
def renderAlterCmdsRest (r : dialectRenderer) : List AlterCmd → RStr
  | [] => emptyS
  | c :: rest => seqS (emitB (strBytes ", ")) (seqS (renderAlterCmd r c) (renderAlterCmdsRest r rest))

/-- Go `renderAlterTable`'s command loop (first command after a space, the
rest after ", "). -/
def renderAlterCmdsC (r : dialectRenderer) : List AlterCmd → RStr
  | [] => emptyS
  | c :: rest => seqS (emitB [32]) (seqS (renderAlterCmd r c) (renderAlterCmdsRest r rest))

/-- One assignment (`col = expr`) of the upsert/UPDATE loops. -/
def renderAssign1 (r : dialectRenderer) (a : Assignment) : RStr :=
  seqS (emitB (renderIdent r a.column ++ strBytes " = ")) (renderExpr r a.value)

/-- The comma-joined assignment loops (`ON DUPLICATE KEY UPDATE`,
`ON CONFLICT ... DO UPDATE SET`, `UPDATE ... SET`). -/
def renderAssignsC (r : dialectRenderer) : List Assignment → RStr
  | [] => emptyS
  | [a] => renderAssign1 r a
  | a :: rest =>
    seqS (renderAssign1 r a) (seqS (emitB (strBytes ", ")) (renderAssignsC r rest))

/-- One ORDER BY key of Go `renderUpdate`/`renderDelete` (these write only
" DESC", never " ASC"). -/
def renderOrderItemDesc (r : dialectRenderer) : OrderByItem → RStr
  | .mk e desc _ =>
    seqS (renderExpr r e) (if desc then emitB (strBytes " DESC") else emptyS)

/-- The comma-joined ORDER BY list of `renderUpdate`/`renderDelete`. -/
def renderOrderDescC (r : dialectRenderer) : List OrderByItem → RStr
  | [] => emptyS
  | [o] => renderOrderItemDesc r o
  | o :: rest =>
    seqS (renderOrderItemDesc r o)
      (seqS (emitB (strBytes ", ")) (renderOrderDescC r rest))

/-- One `(expr, ...)` row of Go `renderInsert`'s VALUES loop. -/
def renderValuesRow (r : dialectRenderer) (row : List Expr) : RStr :=
  seqS (emitB [40]) (seqS (renderExprListC r row) (emitB [41]))

/-- Go `renderInsert`'s comma-joined VALUES rows. -/
def renderValuesRowsC (r : dialectRenderer) : List (List Expr) → RStr
  | [] => emptyS
  | [row] => renderValuesRow r row
  | row :: rest =>
    seqS (renderValuesRow r row)
      (seqS (emitB (strBytes ", ")) (renderValuesRowsC r rest))

/-- The MySQL-target upsert assignments of Go `renderInsert`
(`assign := s.OnDupKey; if len(assign) == 0 { assign = s.OnConflictUpdate }`). -/
def myUpsertAssign (s : InsertStmt) : List Assignment :=
  if s.onDupKey.isEmpty then s.onConflictUpdate else s.onDupKey

/-- The PostgreSQL/SQLite-target upsert assignments of Go `renderInsert`
(`assign := s.OnConflictUpdate; if len(assign) == 0 && len(s.OnDupKey) > 0 {
assign = s.OnDupKey }`). -/
def pgUpsertAssign (s : InsertStmt) : List Assignment :=
  if s.onConflictUpdate.isEmpty ∧ ¬s.onDupKey.isEmpty then s.onDupKey
  else s.onConflictUpdate

/-- The `ON CONFLICT [target] DO {NOTHING | UPDATE SET}` emission of Go
`renderInsert` once the conflict target has been settled. -/
def renderOnConflict (r : dialectRenderer) (target : List Ident)
    (assign : List Assignment) (doNothing : Bool) : RStr :=
  seqS (emitB (strBytes " ON CONFLICT" ++
      (if target.isEmpty then []
       else strBytes " (" ++
         joinBytes (strBytes ", ") (target.map fun c => renderIdent r (some c)) ++ [41])))
    (if doNothing ∧ assign.isEmpty then emitB (strBytes " DO NOTHING")
     else seqS (emitB (strBytes " DO UPDATE SET ")) (renderAssignsC r assign))

/-- The dialect-specific upsert tail of Go `renderInsert` (the `switch
r.target` over MySQL and PostgreSQL/SQLite; other targets emit nothing).
For PostgreSQL/SQLite with assignments but no parsed conflict target, the
target is synthesized from the first INSERT column; with no columns either,
strict mode fails with "cannot rewrite ON DUPLICATE KEY without conflict
target" and non-strict mode emits `ON CONFLICT` with no target. -/
def renderUpsertClause (r : dialectRenderer) (s : InsertStmt) : RFal :=
  if r.target = DialectMySQL then
    if (myUpsertAssign s).isEmpty then liftF emptyS
    else liftF (seqS (emitB (strBytes " ON DUPLICATE KEY UPDATE "))
      (renderAssignsC r (myUpsertAssign s)))
  else if r.target = DialectPostgres ∨ r.target = DialectSQLite then
    if ¬(pgUpsertAssign s).isEmpty ∨ s.onConflictDoNothing then
      if s.onConflictTarget.isEmpty ∧ ¬(pgUpsertAssign s).isEmpty then
        match s.columns with
        | c :: _ =>
          liftF (renderOnConflict r [c] (pgUpsertAssign s) s.onConflictDoNothing)
        | [] =>
          if r.strict then
            errF (strBytes "cannot rewrite ON DUPLICATE KEY without conflict target")
          else liftF (renderOnConflict r [] (pgUpsertAssign s) s.onConflictDoNothing)
      else
        liftF (renderOnConflict r s.onConflictTarget (pgUpsertAssign s)
          s.onConflictDoNothing)
    else liftF emptyS
  else liftF emptyS

/-- The head of Go `renderInsert`: WITH clause, `INSERT [IGNORE] INTO` or
`REPLACE INTO`, table, column list, and VALUES rows or source select. -/
def renderInsertHead (r : dialectRenderer) (s : InsertStmt) : RFal :=
  seqF (liftF (renderWith r s.withC))
  (seqF (liftF (emitB
    (if s.replace then strBytes "REPLACE INTO "
     else strBytes "INSERT " ++
       (if s.ignore ∧ r.target = DialectMySQL then strBytes "IGNORE " else []) ++
       strBytes "INTO ")))
  (seqF (liftF (emitB (renderQualifiedIdent r s.table ++
    (if s.columns.isEmpty then []
     else strBytes " (" ++
       joinBytes (strBytes ", ") (s.columns.map fun c => renderIdent r (some c)) ++
       [41]))))
  (if ¬s.values.isEmpty then
    liftF (seqS (emitB (strBytes " VALUES ")) (renderValuesRowsC r s.values))
   else
    match s.selectC with
    | some sq => seqF (liftF (emitB [32])) (renderSelect r sq)
    | none => liftF emptyS)))

/-- Go `dialectRenderer.renderInsert`. -/
def renderInsert (r : dialectRenderer) (s : InsertStmt) : RFal :=
  seqF (renderInsertHead r s) (renderUpsertClause r s)

/-- Go `dialectRenderer.renderUpdate` (declares an error return but has no
error source). -/
def renderUpdate (r : dialectRenderer) (s : UpdateStmt) : RFal :=
  liftF
    (seqS (renderWith r s.withC)
    (seqS (emitB (strBytes "UPDATE "))
    (seqS (renderTableRefsC r s.tables)
    (seqS (emitB (strBytes " SET "))
    (seqS (renderAssignsC r s.setCl)
    (seqS
      (match s.whereC with
       | none => emptyS
       | some e => seqS (emitB (strBytes " WHERE ")) (renderExpr r e))
    (seqS
      (match s.order with
       | [] => emptyS
       | o :: os => seqS (emitB (strBytes " ORDER BY ")) (renderOrderDescC r (o :: os)))
    (match s.limit with
     | none => emptyS
     | some (.mk cnt _) => seqS (emitB (strBytes " LIMIT ")) (renderExprOpt r cnt)))))))))

/-- Go `dialectRenderer.renderDelete` (no error source). -/
def renderDelete (r : dialectRenderer) (s : DeleteStmt) : RFal :=
  liftF
    (seqS (renderWith r s.withC)
    (seqS (emitB (strBytes "DELETE FROM "))
    (seqS (renderTableRefsC r s.fromRefs)
    (seqS
      (match s.whereC with
       | none => emptyS
       | some e => seqS (emitB (strBytes " WHERE ")) (renderExpr r e))
    (seqS
      (match s.order with
       | [] => emptyS
       | o :: os => seqS (emitB (strBytes " ORDER BY ")) (renderOrderDescC r (o :: os)))
    (match s.limit with
     | none => emptyS
     | some (.mk cnt _) => seqS (emitB (strBytes " LIMIT ")) (renderExprOpt r cnt)))))))

/-- Go `renderCreateTable`'s comma-joined column definitions. -/
def renderColumnDefsC (r : dialectRenderer) : List ColumnDef → RStr
  | [] => emptyS
  | [c] => renderColumnDef r c
  | c :: rest =>
    seqS (renderColumnDef r c)
      (seqS (emitB (strBytes ", ")) (renderColumnDefsC r rest))

/-- Go `dialectRenderer.renderCreateTable`. -/
def renderCreateTable (r : dialectRenderer) (s : CreateTableStmt) : RFal :=
  match s.like with
  | some lk =>
    liftF (emitB (strBytes "CREATE TABLE " ++
      (if s.ifNotExists then strBytes "IF NOT EXISTS " else []) ++
      renderQualifiedIdent r s.table ++ strBytes " LIKE " ++
      renderQualifiedIdent r (some lk)))
  | none =>
    seqF (liftF
      (seqS (emitB (strBytes "CREATE TABLE " ++
        (if s.ifNotExists then strBytes "IF NOT EXISTS " else []) ++
        renderQualifiedIdent r s.table))
      (seqS
        (if s.columns.isEmpty ∧ s.constraints.isEmpty then emptyS
         else
          seqS (emitB (strBytes " ("))
            (seqS (renderColumnDefsC r s.columns)
              (seqS
                (if ¬s.columns.isEmpty ∧ ¬s.constraints.isEmpty then
                  emitB (strBytes ", ")
                 else emptyS)
                (emitB (joinBytes (strBytes ", ")
                    (s.constraints.map fun c => renderConstraint r c) ++ [41])))))
        (emitB (s.options.foldl
          (fun acc opt => acc ++ [32] ++ opt.key ++
            (if opt.value.isEmpty then [] else 61 :: opt.value)) [])))))
    (match s.selectC with
     | none => liftF emptyS
     | some sq => seqF (liftF (emitB (strBytes " AS "))) (renderSelect r sq))

/-- Go `dialectRenderer.renderAlterTable` (no error source). -/
def renderAlterTable (r : dialectRenderer) (s : AlterTableStmt) : RFal :=
  liftF (seqS (emitB (strBytes "ALTER TABLE " ++ renderQualifiedIdent r s.table))
    (renderAlterCmdsC r s.cmds))

/-- Go `dialectRenderer.renderDropTable` (no error source). -/
def renderDropTable (r : dialectRenderer) (s : DropTableStmt) : RFal :=
  liftF (emitB (strBytes "DROP TABLE " ++
    (if s.ifExists then strBytes "IF EXISTS " else []) ++
    joinBytes (strBytes ", ") (s.tables.map fun t => renderQualifiedIdent r (some t)) ++
    (if s.cascade then strBytes " CASCADE" else [])))

/-- Go `dialectRenderer.renderCreateIndex` (no error source). -/
def renderCreateIndex (r : dialectRenderer) (s : CreateIndexStmt) : RFal :=
  liftF (emitB (strBytes "CREATE " ++
    (if s.type = ConstraintType.uniqueConstraint then strBytes "UNIQUE " else []) ++
    strBytes "INDEX " ++ renderIdent r s.name ++ strBytes " ON " ++
    renderQualifiedIdent r s.table ++ strBytes " (" ++
    joinBytes (strBytes ", ")
      (s.columns.map fun c =>
        renderIdent r c.name ++
        (match c.length with
         | some n => 40 :: natToBytes n ++ [41]
         | none => []) ++
        (if c.desc then strBytes " DESC" else [])) ++ [41]))

/-- Go `dialectRenderer.renderDropIndex` (no error source; dialect-split). -/
def renderDropIndex (r : dialectRenderer) (s : DropIndexStmt) : RFal :=
  liftF (emitB
    (if r.target = DialectPostgres ∨ r.target = DialectSQLite then
      strBytes "DROP INDEX " ++
      (if s.ifExists then strBytes "IF EXISTS " else []) ++ renderIdent r s.name
     else
      strBytes "DROP INDEX " ++ renderIdent r s.name ++
      (match s.table with
       | some t => strBytes " ON " ++ renderQualifiedIdent r (some t)
       | none => [])))

/-- Go `dialectRenderer.renderCreateView`. -/
def renderCreateView (r : dialectRenderer) (s : CreateViewStmt) : RFal :=
  seqF (liftF (emitB (strBytes "CREATE " ++
    (if s.orReplace then strBytes "OR REPLACE " else []) ++ strBytes "VIEW " ++
    renderQualifiedIdent r s.name ++
    (if s.columns.isEmpty then []
     else strBytes " (" ++
       joinBytes (strBytes ", ") (s.columns.map fun c => renderIdent r (some c)) ++
       [41]) ++ strBytes " AS ")))
  (renderSelect r s.selectC)

/-- Go `dialectRenderer.renderCreateDatabase` (no error source). -/
def renderCreateDatabase (r : dialectRenderer) (s : CreateDatabaseStmt) : RFal :=
  liftF (emitB (s.options.foldl
    (fun acc opt => acc ++ [32] ++ opt.key ++
      (if opt.value.isEmpty then [] else 61 :: opt.value))
    (strBytes "CREATE DATABASE " ++
     (if s.ifNotExists then strBytes "IF NOT EXISTS " else []) ++
     renderIdent r s.name)))

/-- Go `dialectRenderer.renderAlterDatabase` (no error source). -/
def renderAlterDatabase (r : dialectRenderer) (s : AlterDatabaseStmt) : RFal :=
  liftF (emitB (s.options.foldl
    (fun acc opt => acc ++ [32] ++ opt.key ++
      (if opt.value.isEmpty then [] else 61 :: opt.value))
    (strBytes "ALTER DATABASE " ++ renderIdent r s.name)))

/-- Go `dialectRenderer.renderDropDatabase` (no error source). -/
def renderDropDatabase (r : dialectRenderer) (s : DropDatabaseStmt) : RFal :=
  liftF (emitB (strBytes "DROP DATABASE " ++
    (if s.ifExists then strBytes "IF EXISTS " else []) ++ renderIdent r s.name))

/-- Go `dialectRenderer.renderShow` (no error source). -/
def renderShow (r : dialectRenderer) (s : ShowStmt) : RFal :=
  liftF
    (seqS (emitB (strBytes "SHOW " ++ s.what))
    (seqS
      (match s.like with
       | none => emptyS
       | some l => seqS (emitB (strBytes " LIKE ")) (renderExpr r l))
      (match s.whereC with
       | none => emptyS
       | some e => seqS (emitB (strBytes " WHERE ")) (renderExpr r e))))

/-- Go `dialectRenderer.renderCall` (no error source). -/
def renderCall (r : dialectRenderer) (s : CallStmt) : RFal :=
  liftF
    (seqS (emitB (strBytes "CALL " ++ renderQualifiedIdent r s.name ++ [40]))
      (seqS (renderExprListC r s.args) (emitB [41])))

/-- Go `dialectRenderer.renderStatement` (type switch over every statement
node; `ExplainStmt` recurses).  The Go `default` branch — strict-mode
"unsupported statement type" — is unreachable here because the embedded
`Statement` type is closed over exactly the cases the switch handles. -/
def renderStatement (r : dialectRenderer) : Statement → RFal
  | .selectS s => renderSelect r s
  | .insertS s => renderInsert r s
  | .updateS s => renderUpdate r s
  | .deleteS s => renderDelete r s
  | .createTableS s => renderCreateTable r s
  | .alterTableS s => renderAlterTable r s
  | .dropTableS s => renderDropTable r s
  | .createIndexS s => renderCreateIndex r s
  | .dropIndexS s => renderDropIndex r s
  | .createViewS s => renderCreateView r s
  | .createDatabaseS s => renderCreateDatabase r s
  | .alterDatabaseS s => renderAlterDatabase r s
  | .dropDatabaseS s => renderDropDatabase r s
  | .truncateS s =>
    liftF (emitB (strBytes "TRUNCATE TABLE " ++ renderQualifiedIdent r s.table))
  | .useS s => liftF (emitB (strBytes "USE " ++ renderIdent r s.database))
  | .showS s => renderShow r s
  | .explainS inner _ =>
    seqF (liftF (emitB (strBytes "EXPLAIN "))) (renderStatement r inner)
  | .callS s => renderCall r s
  | .transactionS s => liftF (emitB (renderTx r s))
  | .genericDDLS s => liftF (emitB (renderGenericDDL r s))

/-- Go `dialectRenderer.renderStatements`: statements joined by "; "; the
first error aborts.  `paramIndex` starts at 0 for a fresh renderer and is
never reset between statements. -/
def renderStatements (r : dialectRenderer) : List Statement → RFal
  | [] => liftF emptyS
  | [st] => renderStatement r st
  | st :: rest =>
    seqF (renderStatement r st)
      (seqF (liftF (emitB (strBytes "; "))) (renderStatements r rest))

end SqlVerify
